import Mathlib

/-!
# Feeler Gauge: a Lean model of the FAT decoding core of `main.c`

The definitions below are a shallow embedding of the C functions of `src/main.c`
(with the declarations of `src/main.h`).  Machine integers are natural numbers;
every place where the C arithmetic is carried out in `uint32_t` reduces modulo
`2^32 = 4294967296` explicitly.  The host is little-endian, as the C code assumes
when it reads multi-byte fields straight into integer variables.
-/

namespace FeelerGauge

/-! ## Bytes, images and positioned reads -/

/-- A byte sequence of known length: the disk image behind `fp`, or a heap buffer.
`data i` is the octet at position `i`; positions `i ≥ size` do not exist. -/
structure Bytes where
  size : Nat
  data : Nat → Nat

/-- The octet stored at position `i` (an octet is a value below 256). -/
def Bytes.byte (b : Bytes) (i : Nat) : Nat := b.data i % 256

/-- Value of an `n`-byte integer variable after `pread(fp, &var, n, off)` on a
little-endian host.  `pread` transfers only the bytes that exist in the file, so a
byte at or past the end of the image leaves the corresponding byte of `old`. -/
def pread_field (img : Bytes) (old : Nat) : Nat → Nat → Nat
  | 0, _ => 0
  | n + 1, off =>
    (if off < img.size then img.byte off else old % 256)
      + 256 * pread_field img (old / 256) n (off + 1)

/-- The most one `read` or `pread` call transfers on Linux, whatever length is asked
for: `MAX_RW_COUNT = INT_MAX & PAGE_MASK`, which is 0x7ffff000 with 4096-byte pages. -/
def MAX_RW_COUNT : Nat := 0x7ffff000

/-- Effect of one call `pread(fp, buffer + dst, len, off)` on a byte buffer: the bytes
of the image that exist in `[off, off + len)` are copied to `buffer[dst ..]`, at most
`MAX_RW_COUNT` of them; every other byte of the buffer is left as it was.  The program
never repeats a call that transferred less than it asked for. -/
def pread (img : Bytes) (buffer : Nat → Nat) (dst len off : Nat) : Nat → Nat :=
  fun j =>
    if dst ≤ j ∧ j - dst < len ∧ j - dst < MAX_RW_COUNT ∧ off + (j - dst) < img.size then
      img.byte (off + (j - dst))
    else buffer j

/-! ## Constants of `main.h` -/

def BYTES_PER_SECTOR : Nat := 11
def SECTORS_PER_CLUSTER : Nat := 13
def RESERVED_AREA_SIZE : Nat := 14
def NUMBER_OF_FATS : Nat := 16
def MAX_FILES_IN_ROOT : Nat := 17
def SECTOR_COUNT_16B : Nat := 19
def MEDIA_TYPE : Nat := 21
def FAT_SIZE_IN_SECTORS : Nat := 22
def SECTORS_PER_TRACK : Nat := 24
def HEAD_NUMBER : Nat := 26
def SECTORS_BEFORE_PARTITION : Nat := 28
def SECTOR_COUNT_32B : Nat := 32
def BIOS_DRIVE_NUMBER : Nat := 36
def EXTENDED_BOOT_SIG : Nat := 38
def VOLUME_SERIAL : Nat := 39
def FS_SIGNATURE : Nat := 510
def FAT32_SIZE_IN_SECTORS : Nat := 36
def FAT_MODE : Nat := 40
def FAT32_VERSION : Nat := 42
def ROOT_DIR_CLUSTER : Nat := 44
def FSINFO_SECTOR : Nat := 48
def BACKUP_BOOT_SECTOR_ADDR : Nat := 50
def FAT32_BIOS_DRIVE_NUMBER : Nat := 64
def FAT32_EXTENDED_BOOT_SIG : Nat := 66
def FAT32_VOLUME_SERIAL : Nat := 67

/-- The end-of-chain sentinel `FAT32_EOF = 0x0ffffff8` of `enum eof`. -/
def FAT32_EOF : Nat := 0x0ffffff8

/-! ## Data structures of `main.h` -/

/-- The integer fields of `struct fat_boot_sector`.  The character arrays
(`oem_name`, the volume and file-system labels) are text that no computation of the
core reads back; they are left out of the model. -/
structure fat_boot_sector where
  is_fat32 : Bool
  is_fat16 : Bool
  is_fat12 : Bool
  bytes_per_sector : Nat
  sectors_per_cluster : Nat
  reserved_area_size : Nat
  number_of_fats : Nat
  max_files_in_root : Nat
  sector_count_16b : Nat
  media_type : Nat
  fat_size_in_sectors : Nat
  sectors_per_track : Nat
  head_number : Nat
  sectors_before_partition : Nat
  sector_count_32b : Nat
  bios_drive_number : Nat
  extended_boot_sig : Nat
  volume_serial : Nat
  fs_signature : Nat
  fat32_size_in_sectors : Nat
  fat_mode : Nat
  fat32_version : Nat
  root_dir_cluster : Nat
  fsinfo_sector_addr : Nat
  backup_boot_sector_addr : Nat
  fat32_bios_drive_number : Nat
  fat32_extended_boot_sig : Nat
  fat32_volume_serial : Nat
deriving DecidableEq

/-- The boot sector `calloc` hands to `main`: every field zero, every flag false. -/
def fat_boot_sector.zero : fat_boot_sector :=
  { is_fat32 := false, is_fat16 := false, is_fat12 := false,
    bytes_per_sector := 0, sectors_per_cluster := 0, reserved_area_size := 0,
    number_of_fats := 0, max_files_in_root := 0, sector_count_16b := 0, media_type := 0,
    fat_size_in_sectors := 0, sectors_per_track := 0, head_number := 0,
    sectors_before_partition := 0, sector_count_32b := 0, bios_drive_number := 0,
    extended_boot_sig := 0, volume_serial := 0, fs_signature := 0,
    fat32_size_in_sectors := 0, fat_mode := 0, fat32_version := 0, root_dir_cluster := 0,
    fsinfo_sector_addr := 0, backup_boot_sector_addr := 0, fat32_bios_drive_number := 0,
    fat32_extended_boot_sig := 0, fat32_volume_serial := 0 }

/-- Every field of the boot sector holds a value of its C type
(`uint8_t`, `uint16_t` or `uint32_t`). -/
def fat_boot_sector.in_range (fs : fat_boot_sector) : Prop :=
  fs.bytes_per_sector < 65536 ∧ fs.sectors_per_cluster < 256 ∧
  fs.reserved_area_size < 65536 ∧ fs.number_of_fats < 256 ∧
  fs.max_files_in_root < 65536 ∧ fs.sector_count_16b < 65536 ∧
  fs.fat_size_in_sectors < 65536 ∧ fs.sector_count_32b < 4294967296 ∧
  fs.fat32_size_in_sectors < 4294967296

/-- The global geometry variables of `main.h`: `bps`, `spc` and `reserved_and_fats`
(all `uint32_t`). -/
structure Globals where
  bps : Nat
  spc : Nat
  reserved_and_fats : Nat
deriving DecidableEq

/-- The initial values of the globals: `bps = 512`, `spc = 0`, `reserved_and_fats = 0`. -/
def Globals.init : Globals := { bps := 512, spc := 0, reserved_and_fats := 0 }

/-! ## `calc_fat_type` -/

/-- The local `root_dir_sectors` of `calc_fat_type`:
`((max_files_in_root * 32) + (bps - 1)) / bps` in `uint32_t`.  Only called with
`bps ≠ 0` (the division traps otherwise), where `bps - 1` does not wrap. -/
def root_dir_sectors (bps : Nat) (fat_sector : fat_boot_sector) : Nat :=
  ((fat_sector.max_files_in_root * 32 + (bps - 1)) % 4294967296) / bps

/-- The sector-count field `calc_fat_type` subtracts from: the 16-bit field when it
is nonzero, the 32-bit field otherwise (the `if (fat_sector->sector_count_16b)` of
the source). -/
def selected_sector_count (fat_sector : fat_boot_sector) : Nat :=
  if fat_sector.sector_count_16b ≠ 0 then fat_sector.sector_count_16b
  else fat_sector.sector_count_32b

/-- The local `sectors_to_clusters` of `calc_fat_type`.  In the 16-bit branch the
first two differences are `int` arithmetic (no overflow is possible for 16- and
8-bit operands) and the result is converted to `uint32_t` when `root_dir_sectors` is
subtracted; in the 32-bit branch everything is `uint32_t`.  Either way the value is
the residue of the exact difference modulo `2^32`. -/
def sectors_to_clusters (bps : Nat) (fat_sector : fat_boot_sector) : Nat :=
  Int.toNat
    ((((selected_sector_count fat_sector : Nat) : Int) - (fat_sector.reserved_area_size : Int)
        - ((fat_sector.number_of_fats * fat_sector.fat_size_in_sectors : Nat) : Int)
        - (root_dir_sectors bps fat_sector : Int)) % 4294967296)

/-- The local `final_value` of `calc_fat_type`, the cluster count it classifies:
`sectors_to_clusters / sectors_per_cluster`.  `none` when one of the two divisions
divides by zero (`bps = 0` or `sectors_per_cluster = 0`): the process is killed. -/
def final_value (bps : Nat) (fat_sector : fat_boot_sector) : Option Nat :=
  if bps = 0 then none
  else if fat_sector.sectors_per_cluster = 0 then none
  else some (sectors_to_clusters bps fat_sector / fat_sector.sectors_per_cluster)

/-- The function `calc_fat_type`: the three `if`s only ever set a flag, none clears one. -/
def calc_fat_type (bps : Nat) (fat_sector : fat_boot_sector) : Option fat_boot_sector :=
  match final_value bps fat_sector with
  | none => none
  | some v =>
    let s1 := if v < 4085 then { fat_sector with is_fat12 := true } else fat_sector
    let s2 := if v ≥ 4085 ∧ v < 65525 then { s1 with is_fat16 := true } else s1
    let s3 := if v ≥ 65525 then { s2 with is_fat32 := true } else s2
    some s3

/-! ## `cts` -/

/-- The function `cts` ("cluster to sector"): `(cluster - 2) * (spc * bps) + reserved_and_fats`,
every operation in `uint32_t`. -/
def cts (g : Globals) (cluster : Nat) : Nat :=
  ((((cluster + 4294967296 - 2) % 4294967296) * ((g.spc * g.bps) % 4294967296)) % 4294967296
    + g.reserved_and_fats) % 4294967296

/-! ## `read_fat_boot_sector` -/

/-- The first block of `read_fat_boot_sector`: the `pread` calls that fill the
integer fields common to all FAT types, each at its offset from `partition_offset`. -/
def read_boot_fields (img : Bytes) (fat_sector : fat_boot_sector) (partition_offset : Nat) :
    fat_boot_sector :=
  let o := partition_offset
  { fat_sector with
    bytes_per_sector := pread_field img fat_sector.bytes_per_sector 2 (o + BYTES_PER_SECTOR),
    sectors_per_cluster :=
      pread_field img fat_sector.sectors_per_cluster 1 (o + SECTORS_PER_CLUSTER),
    reserved_area_size :=
      pread_field img fat_sector.reserved_area_size 2 (o + RESERVED_AREA_SIZE),
    number_of_fats := pread_field img fat_sector.number_of_fats 1 (o + NUMBER_OF_FATS),
    max_files_in_root :=
      pread_field img fat_sector.max_files_in_root 2 (o + MAX_FILES_IN_ROOT),
    sector_count_16b := pread_field img fat_sector.sector_count_16b 2 (o + SECTOR_COUNT_16B),
    media_type := pread_field img fat_sector.media_type 1 (o + MEDIA_TYPE),
    fat_size_in_sectors :=
      pread_field img fat_sector.fat_size_in_sectors 2 (o + FAT_SIZE_IN_SECTORS),
    sectors_per_track :=
      pread_field img fat_sector.sectors_per_track 2 (o + SECTORS_PER_TRACK),
    head_number := pread_field img fat_sector.head_number 2 (o + HEAD_NUMBER),
    sectors_before_partition :=
      pread_field img fat_sector.sectors_before_partition 4 (o + SECTORS_BEFORE_PARTITION),
    sector_count_32b := pread_field img fat_sector.sector_count_32b 4 (o + SECTOR_COUNT_32B),
    bios_drive_number :=
      pread_field img fat_sector.bios_drive_number 1 (o + BIOS_DRIVE_NUMBER),
    extended_boot_sig :=
      pread_field img fat_sector.extended_boot_sig 1 (o + EXTENDED_BOOT_SIG),
    volume_serial := pread_field img fat_sector.volume_serial 4 (o + VOLUME_SERIAL),
    fs_signature := pread_field img fat_sector.fs_signature 2 (o + FS_SIGNATURE) }

/-- The block of `read_fat_boot_sector` under `if (fat_sector->is_fat32)`: the
`pread` calls that fill the FAT32 extension fields. -/
def read_fat32_fields (img : Bytes) (fat_sector : fat_boot_sector) (partition_offset : Nat) :
    fat_boot_sector :=
  let o := partition_offset
  { fat_sector with
    fat32_size_in_sectors :=
      pread_field img fat_sector.fat32_size_in_sectors 4 (o + FAT32_SIZE_IN_SECTORS),
    fat_mode := pread_field img fat_sector.fat_mode 2 (o + FAT_MODE),
    fat32_version := pread_field img fat_sector.fat32_version 2 (o + FAT32_VERSION),
    root_dir_cluster := pread_field img fat_sector.root_dir_cluster 4 (o + ROOT_DIR_CLUSTER),
    fsinfo_sector_addr := pread_field img fat_sector.fsinfo_sector_addr 2 (o + FSINFO_SECTOR),
    backup_boot_sector_addr :=
      pread_field img fat_sector.backup_boot_sector_addr 2 (o + BACKUP_BOOT_SECTOR_ADDR),
    fat32_bios_drive_number :=
      pread_field img fat_sector.fat32_bios_drive_number 1 (o + FAT32_BIOS_DRIVE_NUMBER),
    fat32_extended_boot_sig :=
      pread_field img fat_sector.fat32_extended_boot_sig 1 (o + FAT32_EXTENDED_BOOT_SIG),
    fat32_volume_serial :=
      pread_field img fat_sector.fat32_volume_serial 4 (o + FAT32_VOLUME_SERIAL) }

/-- The last block of `read_fat_boot_sector`, "Write Global VAR 'reserved_and_fats'":
two separate guarded assignments, `if (is_fat32)` and `if (is_fat16)`, each computed
in `uint32_t`.  When neither flag is set the global keeps its value. -/
def publish_reserved_and_fats (fat_sector : fat_boot_sector) (g : Globals) : Globals :=
  let g2 : Globals :=
    if fat_sector.is_fat32 then
      { g with
        reserved_and_fats :=
          ((fat_sector.reserved_area_size * g.bps) % 4294967296
            + (((fat_sector.fat32_size_in_sectors * g.bps) % 4294967296)
                * fat_sector.number_of_fats) % 4294967296) % 4294967296 }
    else g
  if fat_sector.is_fat16 then
    { g2 with
      reserved_and_fats :=
        ((fat_sector.reserved_area_size * g2.bps) % 4294967296
          + (((fat_sector.fat_size_in_sectors * g2.bps) % 4294967296)
              * fat_sector.number_of_fats) % 4294967296) % 4294967296 }
  else g2

/-- The function `read_fat_boot_sector`: decode the fields at their offsets from
`partition_offset`, publish `bps` and `spc`, classify with `calc_fat_type`, read the
FAT32 extension when `is_fat32`, then publish `reserved_and_fats`.  `none` when
`calc_fat_type` divides by zero.  The image is a regular file, so `pread` itself
does not fail. -/
def read_fat_boot_sector (img : Bytes) (fat_sector : fat_boot_sector) (partition_offset : Nat)
    (g : Globals) : Option (fat_boot_sector × Globals) :=
  let s0 := read_boot_fields img fat_sector partition_offset
  let g1 : Globals := { g with bps := s0.bytes_per_sector, spc := s0.sectors_per_cluster }
  match calc_fat_type g1.bps s0 with
  | none => none
  | some s1 =>
    let s2 := if s1.is_fat32 then read_fat32_fields img s1 partition_offset else s1
    some (s2, publish_reserved_and_fats s2 g1)

/-! ## Outcomes of calls that can fault or loop -/

/-- How a call of the C program can end in the model. -/
inductive Run (α : Type) where
  /-- The call returns this value. -/
  | ret : α → Run α
  /-- The call indexes an array outside its allocation (undefined behaviour in C). -/
  | oob : Run α
  /-- The call divides an integer by zero. -/
  | div_zero : Run α
  /-- The step budget given to the model ran out before the call returned. -/
  | out_of_fuel : Run α
deriving DecidableEq

/-- Sequencing of calls: the second call runs only when the first one returned. -/
def Run.bind {α β : Type} (r : Run α) (f : α → Run β) : Run β :=
  match r with
  | Run.ret a => f a
  | Run.oob => Run.oob
  | Run.div_zero => Run.div_zero
  | Run.out_of_fuel => Run.out_of_fuel

/-- Apply a function to the value a call returns. -/
def Run.map {α β : Type} (f : α → β) (r : Run α) : Run β :=
  r.bind (fun a => Run.ret (f a))

/-! ## `read_disk` -/

/-- The structure `struct read_parameters`.  `cluster_list` is the heap array the
callers allocate with `calloc(list_length, sizeof(uint32_t))`; indexing it at or past
its length is outside the allocation. -/
structure read_parameters where
  start_cluster : Nat
  cluster_list : List Nat
  list_length : Nat
  entry_offset : Nat

/-- One `pread` issued by `read_disk`: it dereferences `cluster_list[index]`, writes
`len` bytes to `buffer + dst`, and reads them at image offset
`cts(cluster_list[index]) + delta`. -/
structure disk_read where
  index : Nat
  dst : Nat
  len : Nat
  delta : Nat
deriving DecidableEq

/-- The product `bps * spc` as `read_disk` computes it (`uint32_t`). -/
def cluster_bytes (g : Globals) : Nat := (g.bps * g.spc) % 4294967296

/-- One pass through the body of the `do ... while` loop of `read_disk`, from the
loop variables `i` and `cluster_list_index`: the `pread` it issues and the new values
of `i` and `cluster_list_index`.  `length` is the (non-negative) `int` argument. -/
def read_disk_body (g : Globals) (read : read_parameters) (length field_offset : Nat)
    (i cluster_list_index : Nat) : disk_read × Nat × Nat :=
  let dst := (length + 4294967296 - i) % 4294967296
  if i = length then
    let iteration_read_len :=
      if i > cluster_bytes g then
        (cluster_bytes g + 4294967296 - field_offset + read.entry_offset) % 4294967296
      else i
    let delta :=
      if cluster_list_index = 0 then field_offset + read.entry_offset else field_offset
    ({ index := cluster_list_index, dst := dst, len := iteration_read_len, delta := delta },
      (i + 4294967296 - iteration_read_len) % 4294967296,
      (cluster_list_index + 1) % 4294967296)
  else
    let iteration_read_len := if cluster_bytes g < i then cluster_bytes g else i
    ({ index := cluster_list_index, dst := dst, len := iteration_read_len, delta := 0 },
      (i + 4294967296 - iteration_read_len) % 4294967296,
      (cluster_list_index + 1) % 4294967296)

/-- The passes of the loop of `read_disk` after the first one, guarded by
`i > 0 && cluster_list_index < read->list_length`.  Each pass raises
`cluster_list_index` by one, so `fuel = list_length` passes are never used up
(see `read_disk_loop_fuel`). -/
def read_disk_loop (g : Globals) (read : read_parameters) (length field_offset : Nat) :
    Nat → Nat → Nat → List disk_read
  | 0, _, _ => []
  | fuel + 1, i, cluster_list_index =>
    if i > 0 ∧ cluster_list_index < read.list_length then
      let step := read_disk_body g read length field_offset i cluster_list_index
      step.1 :: read_disk_loop g read length field_offset fuel step.2.1 step.2.2
    else []

/-- The `pread` calls of `read_disk`, in the order issued: the body runs once
unconditionally (`do`), then as long as the guard holds.  The starting index is the
`uint32_t` quotient `(field_offset + entry_offset) / (bps * spc)`; `read_disk` below
traps when the divisor is zero. -/
def read_disk_reads (g : Globals) (read : read_parameters) (length field_offset : Nat) :
    List disk_read :=
  let cluster_list_index :=
    ((field_offset + read.entry_offset) % 4294967296) / cluster_bytes g
  let step := read_disk_body g read length field_offset length cluster_list_index
  step.1 :: read_disk_loop g read length field_offset read.list_length step.2.1 step.2.2

/-- Carry out the `pread` calls of `read_disk` on the caller's buffer. -/
def read_disk_apply (img : Bytes) (g : Globals) (read : read_parameters) :
    List disk_read → (Nat → Nat) → Run (Nat → Nat)
  | [], buffer => Run.ret buffer
  | r :: rs, buffer =>
    match read.cluster_list.get? r.index with
    | none => Run.oob
    | some c =>
      read_disk_apply img g read rs
        (pread img buffer r.dst r.len ((cts g c + r.delta) % 4294967296))

/-- The function `read_disk`: the contents of `buffer` when it returns. -/
def read_disk (img : Bytes) (g : Globals) (buffer : Nat → Nat) (length field_offset : Nat)
    (read : read_parameters) : Run (Nat → Nat) :=
  if cluster_bytes g = 0 then Run.div_zero
  else read_disk_apply img g read (read_disk_reads g read length field_offset) buffer

/-- The image offset of the first `pread` of a `read_disk` call at `field_offset`:
`cts(cluster_list[k]) + field_offset + entry_offset` when the starting index
`k = (field_offset + entry_offset) / (bps * spc)` is 0 and
`cts(cluster_list[k]) + field_offset` otherwise, each sum in `uint32_t`; `none` when
`cluster_list[k]` is outside the list. -/
def read_disk_offset (g : Globals) (read : read_parameters) (field_offset : Nat) : Option Nat :=
  (read.cluster_list.get?
      (((field_offset + read.entry_offset) % 4294967296) / cluster_bytes g)).map
    (fun c =>
      (cts g c +
        (if ((field_offset + read.entry_offset) % 4294967296) / cluster_bytes g = 0
          then field_offset + read.entry_offset else field_offset)) % 4294967296)

/-! ## `read_alloctable` and `get_entry_size` -/

/-- The little-endian 16-bit value at bytes `[off, off + 2)` of a buffer. -/
def le16 (b : Bytes) (off : Nat) : Nat := b.byte off + 256 * b.byte (off + 1)

/-- The little-endian 32-bit value at bytes `[off, off + 4)` of a buffer. -/
def le32 (b : Bytes) (off : Nat) : Nat :=
  b.byte off + 256 * b.byte (off + 1) + 65536 * b.byte (off + 2) + 16777216 * b.byte (off + 3)

/-- The function `read_alloctable` on the primary copy `fat1`: `fat32[cluster]` or
`fat16[cluster]` of the buffer reinterpreted as an integer array, `0` for FAT12.
`none` when the entry lies outside the buffer (the source does not check). -/
def read_alloctable (fat_bs : fat_boot_sector) (fat1 : Bytes) (cluster : Nat) : Option Nat :=
  if fat_bs.is_fat32 then
    if 4 * cluster + 4 ≤ fat1.size then some (le32 fat1 (4 * cluster)) else none
  else if fat_bs.is_fat16 then
    if 2 * cluster + 2 ≤ fat1.size then some (le16 fat1 (2 * cluster)) else none
  else some 0

/-- The `do ... while (next_cluster < FAT32_EOF)` loop of `get_entry_size`, from the
loop variables `next_cluster` and `size`; one unit of fuel per lookup. -/
def get_entry_size_loop (fat_bs : fat_boot_sector) (fat1 : Bytes) : Nat → Nat → Nat → Run Nat
  | 0, _, _ => Run.out_of_fuel
  | fuel + 1, next_cluster, size =>
    match read_alloctable fat_bs fat1 next_cluster with
    | none => Run.oob
    | some v =>
      if v < FAT32_EOF then get_entry_size_loop fat_bs fat1 fuel v ((size + 1) % 4294967296)
      else Run.ret ((size + 1) % 4294967296)

/-- The function `get_entry_size`, run for at most `fuel` lookups. -/
def get_entry_size (fuel : Nat) (fat_bs : fat_boot_sector) (fat1 : Bytes) (cluster : Nat) :
    Run Nat :=
  if fat_bs.is_fat32 then get_entry_size_loop fat_bs fat1 fuel cluster 0 else Run.ret 0

/-! ## `get_cluster_list` and `get_last_cluster` -/

/-- The `do ... while (next_cluster < FAT32_EOF && size < read->list_length)` loop of
`get_cluster_list`, from the loop variables `next_cluster` and `size`: each pass
stores `next_cluster` at `cluster_list[size]` (outside the allocation when `size` is
not below the length of the array), looks up its successor and raises `size`. -/
def get_cluster_list_loop (fat_bs : fat_boot_sector) (fat1 : Bytes) (list_length : Nat) :
    Nat → Nat → Nat → List Nat → Run (List Nat)
  | 0, _, _, _ => Run.out_of_fuel
  | fuel + 1, next_cluster, size, cluster_list =>
    if size < cluster_list.length then
      match read_alloctable fat_bs fat1 next_cluster with
      | none => Run.oob
      | some v =>
        if v < FAT32_EOF ∧ (size + 1) % 4294967296 < list_length then
          get_cluster_list_loop fat_bs fat1 list_length fuel v ((size + 1) % 4294967296)
            (cluster_list.set size next_cluster)
        else Run.ret (cluster_list.set size next_cluster)
    else Run.oob

/-- The function `get_cluster_list`: the `read_parameters` with `cluster_list` filled.
The loop runs at most `max 1 list_length` passes, so the fuel `list_length + 1` is
never used up (see `get_cluster_list_loop_fuel`). -/
def get_cluster_list (fat_bs : fat_boot_sector) (fat1 : Bytes) (read : read_parameters) :
    Run read_parameters :=
  (get_cluster_list_loop fat_bs fat1 read.list_length (read.list_length + 1)
      read.start_cluster 0 read.cluster_list).map
    (fun l => { read with cluster_list := l })

/-- The function `get_last_cluster`: `get_entry_size`, a `calloc` of `list_length`
zeroed entries, `get_cluster_list`, then `cluster_list[list_length - 1]` (the index
is a `uint32_t` difference). -/
def get_last_cluster (fuel : Nat) (fat_bs : fat_boot_sector) (fat1 : Bytes)
    (first_cluster : Nat) : Run Nat :=
  (get_entry_size fuel fat_bs fat1 first_cluster).bind fun list_length =>
  (get_cluster_list fat_bs fat1
      { start_cluster := first_cluster, cluster_list := List.replicate list_length 0,
        list_length := list_length, entry_offset := 0 }).bind fun read =>
  match read.cluster_list.get? ((list_length + 4294967296 - 1) % 4294967296) with
  | some c => Run.ret c
  | none => Run.oob

/-! ## Directory entries: `walk_lfn_entries` and `read_fat_dir_entry` -/

def FILE_NAME : Nat := 0
def FILE_ATTRIBUTES : Nat := 11
def CREATED_TIME_TENTHS : Nat := 13
def CREATED_TIME_HMS : Nat := 14
def CREATED_DAY : Nat := 16
def ACCESSED_DAY : Nat := 18
def HIGH_CLUSTER_ADDR : Nat := 20
def WRITTEN_TIME_HMS : Nat := 22
def WRITTEN_DAY : Nat := 24
def LOW_CLUSTER_ADDR : Nat := 26
def FILE_SIZE : Nat := 28
def FLAG_FAT_LONG_FILE_NAME : Nat := 0x0F

/-- The value `UNALLOCATED = 0xe5` of `enum file_allocation_status`. -/
def UNALLOCATED : Nat := 0xe5

/-- The bytes of an integer variable holding `v`, least significant first. -/
def var_bytes (v : Nat) : Nat → Nat := fun i => v / 256 ^ i % 256

/-- The value of an integer variable of `width` bytes whose bytes are
`buffer 0, ..., buffer (width - 1)`, least significant first. -/
def var_value (buffer : Nat → Nat) : Nat → Nat
  | 0 => 0
  | width + 1 => var_value buffer width + buffer width % 256 * 256 ^ width

/-- A call `read_disk(fp, &var, length, field_offset, read)` whose destination is an
integer variable of `width` bytes that holds `old`: the value of the variable when
the call returns. -/
def read_disk_var (img : Bytes) (g : Globals) (old width length field_offset : Nat)
    (read : read_parameters) : Run Nat :=
  (read_disk img g (var_bytes old) length field_offset read).map
    (fun buffer => var_value buffer width)

/-- A call `read_disk(fp, &entry->info.filename, 11, field_offset, read)`: the twelve
bytes of `filename` when the call returns. -/
def read_disk_name (img : Bytes) (g : Globals) (old : List Nat) (field_offset : Nat)
    (read : read_parameters) : Run (List Nat) :=
  (read_disk img g (fun i => old.getD i 0) 11 field_offset read).map
    (fun buffer => (List.range 12).map buffer)

/-- The `do ... while (current_entry_attribute == FLAG_FAT_LONG_FILE_NAME)` loop of
`walk_lfn_entries`, from the loop variables `current_lfn_offset` and
`current_entry_attribute` (both `uint32_t`); one unit of fuel per slot probed. -/
def walk_lfn_entries_loop (img : Bytes) (g : Globals) (read : read_parameters) :
    Nat → Nat → Nat → Run Nat
  | 0, _, _ => Run.out_of_fuel
  | fuel + 1, current_lfn_offset, current_entry_attribute =>
    (read_disk_var img g current_entry_attribute 4 1
        ((FILE_ATTRIBUTES + current_lfn_offset) % 4294967296) read).bind fun probed =>
    if probed = FLAG_FAT_LONG_FILE_NAME then
      walk_lfn_entries_loop img g read fuel ((current_lfn_offset + 32) % 4294967296) probed
    else
      Run.ret (((current_lfn_offset + 32) % 4294967296 + 4294967296 - 32) % 4294967296)

/-- The function `walk_lfn_entries`, run for at most `fuel` slots. -/
def walk_lfn_entries (fuel : Nat) (img : Bytes) (g : Globals) (read : read_parameters) :
    Run Nat :=
  walk_lfn_entries_loop img g read fuel 0 0

/-- The structure `struct fat_dir_entry`.  `filename` is the 12-byte array
`info.filename` (the union member `info.alloc_status` is its first byte); the four
pointers are `none` for `NULL` and `some a` for the address of a node. -/
structure fat_dir_entry where
  is_directory : Bool
  filename : List Nat
  file_attributes : Nat
  created_time_tenths : Nat
  created_time_hms : Nat
  created_day : Nat
  accessed_day : Nat
  low_cluster_addr : Nat
  high_cluster_addr : Nat
  cluster_addr : Nat
  written_time_hms : Nat
  written_day : Nat
  file_size : Nat
  last_cluster : Nat
  parent_dir : Option Nat
  dir_contents : Option Nat
  next : Option Nat
  prev : Option Nat
deriving DecidableEq

/-- The entry `calloc(1, sizeof(struct fat_dir_entry))` returns: all bytes zero. -/
def fat_dir_entry.zero : fat_dir_entry :=
  { is_directory := false, filename := List.replicate 12 0, file_attributes := 0,
    created_time_tenths := 0, created_time_hms := 0, created_day := 0, accessed_day := 0,
    low_cluster_addr := 0, high_cluster_addr := 0, cluster_addr := 0,
    written_time_hms := 0, written_day := 0, file_size := 0, last_cluster := 0,
    parent_dir := none, dir_contents := none, next := none, prev := none }

/-- The function `read_fat_dir_entry`: the entry it fills and the offset it returns.
Each field is one `read_disk` call at `LFN + ` its offset (a `uint32_t` sum);
`cluster_addr` is `low_cluster_addr | (high_cluster_addr << 16)` in `uint32_t`. -/
def read_fat_dir_entry (fuel : Nat) (img : Bytes) (g : Globals) (entry : fat_dir_entry)
    (read : read_parameters) : Run (fat_dir_entry × Nat) :=
  (walk_lfn_entries fuel img g read).bind fun LFN =>
  (read_disk_name img g entry.filename ((LFN + FILE_NAME) % 4294967296) read).bind
    fun filename =>
  (read_disk_var img g entry.file_attributes 1 1
      ((LFN + FILE_ATTRIBUTES) % 4294967296) read).bind fun file_attributes =>
  (read_disk_var img g entry.created_time_tenths 1 1
      ((LFN + CREATED_TIME_TENTHS) % 4294967296) read).bind fun created_time_tenths =>
  (read_disk_var img g entry.created_time_hms 2 2
      ((LFN + CREATED_TIME_HMS) % 4294967296) read).bind fun created_time_hms =>
  (read_disk_var img g entry.created_day 2 2
      ((LFN + CREATED_DAY) % 4294967296) read).bind fun created_day =>
  (read_disk_var img g entry.accessed_day 2 2
      ((LFN + ACCESSED_DAY) % 4294967296) read).bind fun accessed_day =>
  (read_disk_var img g entry.low_cluster_addr 4 2
      ((LFN + LOW_CLUSTER_ADDR) % 4294967296) read).bind fun low_cluster_addr =>
  (read_disk_var img g entry.high_cluster_addr 4 2
      ((LFN + HIGH_CLUSTER_ADDR) % 4294967296) read).bind fun high_cluster_addr =>
  (read_disk_var img g entry.written_time_hms 2 2
      ((LFN + WRITTEN_TIME_HMS) % 4294967296) read).bind fun written_time_hms =>
  (read_disk_var img g entry.written_day 2 2
      ((LFN + WRITTEN_DAY) % 4294967296) read).bind fun written_day =>
  (read_disk_var img g entry.file_size 4 4
      ((LFN + FILE_SIZE) % 4294967296) read).bind fun file_size =>
  Run.ret
    ({ entry with
        filename := filename, file_attributes := file_attributes,
        created_time_tenths := created_time_tenths, created_time_hms := created_time_hms,
        created_day := created_day, accessed_day := accessed_day,
        low_cluster_addr := low_cluster_addr, high_cluster_addr := high_cluster_addr,
        cluster_addr := low_cluster_addr ||| ((high_cluster_addr * 65536) % 4294967296),
        written_time_hms := written_time_hms, written_day := written_day,
        file_size := file_size },
      (LFN + 32) % 4294967296)

/-! ## `check_for_hidden_data` -/

/-- The `for (i = slack_start; i < bps * spc; i++)` loop of `check_for_hidden_data`,
for the passes that remain, from the loop variable `i` and the locals `hidden_found`
and `buf`: each pass reads one byte at `last_sector_start + i` (a `uint32_t` sum) into
`buf` and ors it into `hidden_found`. -/
def check_for_hidden_data_loop (img : Bytes) (last_sector_start : Nat) :
    Nat → Nat → Nat → Nat → Nat
  | 0, _, hidden_found, _ => hidden_found
  | passes + 1, i, hidden_found, buf =>
    check_for_hidden_data_loop img last_sector_start passes (i + 1)
      (hidden_found ||| pread_field img buf 1 ((last_sector_start + i) % 4294967296))
      (pread_field img buf 1 ((last_sector_start + i) % 4294967296))

/-- The function `check_for_hidden_data`: the new value of the global
`hidden_data_found` and whether the "Possible hidden data found" line is printed.
The remainder `file_size % (bps * spc)` traps when the cluster size is zero. -/
def check_for_hidden_data (img : Bytes) (g : Globals) (entry : fat_dir_entry)
    (hidden_data_found : Bool) : Run (Bool × Bool) :=
  if cluster_bytes g = 0 then Run.div_zero
  else
    let slack_start := entry.file_size % cluster_bytes g
    let last_sector_start := cts g entry.last_cluster
    let hidden_found :=
      check_for_hidden_data_loop img last_sector_start (cluster_bytes g - slack_start)
        slack_start 0 0
    if hidden_found ≠ 0 then Run.ret (true, true) else Run.ret (hidden_data_found, false)

/-! ## `read_fat32_filesystem` -/

/-- The value of a `char` holding the octet `b`.  Plain `char` is signed on the
x86 Linux targets the tool is built for with GCC (the source relies on GNU C nested
functions), so octets from 128 up are negative. -/
def char_value (b : Nat) : Int :=
  if b % 256 < 128 then ((b % 256 : Nat) : Int) else ((b % 256 : Nat) : Int) - 256

/-- Whether `strncmp(s1, s2, n)` returns 0: the strings agree on their first `n`
characters, or up to and including a common terminating NUL before that. -/
def strncmp_zero : List Nat → List Nat → Nat → Bool
  | _, _, 0 => true
  | s1, s2, n + 1 =>
    if s1.headD 0 ≠ s2.headD 0 then false
    else if s1.headD 0 = 0 then true
    else strncmp_zero s1.tail s2.tail n

/-- The string literal `".          "` (a dot and 10 spaces) with its terminating NUL. -/
def dot_name : List Nat :=
  [0x2E, 0x20, 0x20, 0x20, 0x20, 0x20, 0x20, 0x20, 0x20, 0x20, 0x20, 0]

/-- The string literal `"..         "` (two dots and 9 spaces) with its terminating NUL. -/
def dotdot_name : List Nat :=
  [0x2E, 0x2E, 0x20, 0x20, 0x20, 0x20, 0x20, 0x20, 0x20, 0x20, 0x20, 0]

/-- The skip test of `read_fat32_filesystem`:
`alloc_status == 0 || alloc_status == UNALLOCATED || !strncmp(filename, ".          ", 12)
|| !strncmp(filename, "..         ", 12)`, where `alloc_status` is a `char` compared
with the `int` constants after integer promotion. -/
def skip_entry (sub_entry : fat_dir_entry) : Bool :=
  decide (char_value (sub_entry.filename.headD 0) = 0)
    || decide (char_value (sub_entry.filename.headD 0) = (UNALLOCATED : Int))
    || strncmp_zero sub_entry.filename dot_name 12
    || strncmp_zero sub_entry.filename dotdot_name 12

/-- The globals and options the directory walker reads: the image behind `fp`, the
geometry, the boot sector `fat_bs`, the primary table `fat1` and `args.h_flag`. -/
structure walker where
  img : Bytes
  g : Globals
  fat_bs : fat_boot_sector
  fat1 : Bytes
  h_flag : Bool

/-- What the walker does with a decoded slot, in the order it happens. -/
inductive walk_event where
  /-- The slot met the skip test: the node is freed and the scan moves on. -/
  | skip : fat_dir_entry → walk_event
  /-- The slot did not meet the skip test. -/
  | keep : fat_dir_entry → walk_event
  /-- The entry was marked `is_directory` and `read_fat32_filesystem` is called on it. -/
  | dir : fat_dir_entry → walk_event
  /-- The recursive call on the latest open directory returned. -/
  | dir_end : walk_event
  /-- The function `check_for_hidden_data` ran on the entry; the flag tells whether it
  reported hidden data. -/
  | check : fat_dir_entry → Bool → walk_event
deriving DecidableEq

/-- The state the walker changes: the global `hidden_data_found` and the record of
what it did so far. -/
structure walk_state where
  hidden_data_found : Bool
  events : List walk_event
deriving DecidableEq

/-- The body of `read_fat32_filesystem` for one directory, given the scan of its
slots: resolve the chain of `entry_start_cluster`, store
`cluster_list[list_length - 1]` in `entry->last_cluster`, scan the slots, return
`entry`. -/
def read_fat32_filesystem_body (w : walker) (fuel : Nat)
    (scan : read_parameters → Nat → walk_state → Run walk_state)
    (entry_start_cluster : Nat) (entry : fat_dir_entry) (st : walk_state) :
    Run (fat_dir_entry × walk_state) :=
  (get_entry_size fuel w.fat_bs w.fat1 entry_start_cluster).bind fun list_length =>
  (get_cluster_list w.fat_bs w.fat1
      { start_cluster := entry_start_cluster, cluster_list := List.replicate list_length 0,
        list_length := list_length, entry_offset := 0 }).bind fun read_info =>
  match read_info.cluster_list.get? ((read_info.list_length + 4294967296 - 1) % 4294967296) with
  | none => Run.oob
  | some last =>
    (scan read_info 0 st).bind fun st' => Run.ret ({ entry with last_cluster := last }, st')

/-- The `for (uint32_t i = 0; i < read_info.list_length * bps * spc;)` loop of
`read_fat32_filesystem`, from the loop variable `i` and the current `read_info`; one
unit of fuel per slot and per level of recursion. -/
def read_fat32_filesystem_loop (w : walker) :
    Nat → read_parameters → Nat → walk_state → Run walk_state
  | 0, _, _, _ => Run.out_of_fuel
  | fuel + 1, read_info, i, st =>
    if i < ((read_info.list_length * w.g.bps) % 4294967296 * w.g.spc) % 4294967296 then
      (read_fat_dir_entry fuel w.img w.g fat_dir_entry.zero read_info).bind fun decoded =>
      (get_last_cluster fuel w.fat_bs w.fat1 decoded.1.cluster_addr).bind fun last =>
      let sub_entry : fat_dir_entry := { decoded.1 with last_cluster := last }
      let x := decoded.2
      let next_info : read_parameters :=
        { read_info with entry_offset := (read_info.entry_offset + x) % 4294967296 }
      if skip_entry sub_entry then
        read_fat32_filesystem_loop w fuel next_info ((i + x) % 4294967296)
          { st with events := st.events ++ [walk_event.skip sub_entry] }
      else
        (if (sub_entry.file_attributes &&& 0x10) ≠ 0 then
          (read_fat32_filesystem_body w fuel (read_fat32_filesystem_loop w fuel)
              sub_entry.cluster_addr { sub_entry with is_directory := true }
              { st with
                events := st.events ++ [walk_event.keep sub_entry,
                  walk_event.dir { sub_entry with is_directory := true }] }).bind
            fun r => Run.ret (r.1, { r.2 with events := r.2.events ++ [walk_event.dir_end] })
        else
          Run.ret (sub_entry,
            { st with events := st.events ++ [walk_event.keep sub_entry] })).bind fun r =>
        (if w.h_flag && !r.1.is_directory then
          (check_for_hidden_data w.img w.g r.1 r.2.hidden_data_found).bind fun c =>
            Run.ret
              ({ hidden_data_found := c.1,
                 events := r.2.events ++ [walk_event.check r.1 c.2] } : walk_state)
        else Run.ret r.2).bind fun st2 =>
        read_fat32_filesystem_loop w fuel next_info ((i + x) % 4294967296) st2
    else Run.ret st

/-- The function `read_fat32_filesystem`, with `entry = none` for the `NULL` passed
by `main` (replaced by a zeroed node): the node it returns and the walker state. -/
def read_fat32_filesystem (fuel : Nat) (w : walker) (entry_start_cluster : Nat)
    (entry : Option fat_dir_entry) (st : walk_state) : Run (fat_dir_entry × walk_state) :=
  read_fat32_filesystem_body w fuel (read_fat32_filesystem_loop w fuel) entry_start_cluster
    (entry.getD fat_dir_entry.zero) st

/-! ## Calls that may end the process -/

/-- How a call that may end the process ends: it returns a value, or it prints an
error and calls `exit(EXIT_FAILURE)`. -/
inductive Outcome (α : Type) where
  /-- The call returns the value. -/
  | returns : α → Outcome α
  /-- The call ends the process with `exit(EXIT_FAILURE)`. -/
  | exit_failure : Outcome α
deriving DecidableEq

/-! ## Constants of `main.h`: partition types, signatures, MBR offsets -/

def FAT12 : Nat := 0x1
def FAT16 : Nat := 0x4
def FAT32 : Nat := 0x0C
def EXTENDED : Nat := 0x05
def EXTENDED_LBA : Nat := 0x0F
def NTFS : Nat := 0x7
def RAW : Nat := 0
def MBR_SIG_OFF : Nat := 0x1FE
def MBR_PART1_OFF : Nat := 0x1BE
def MBR_PART2_OFF : Nat := 0x1CE
def MBR_PART3_OFF : Nat := 0x1DE
def MBR_PART4_OFF : Nat := 0x1EE
def BOOT_INDICATOR : Nat := 0
def PARTITION_TYPE : Nat := 4
def STARTING_SECTOR : Nat := 8
def PARTITION_SIZE : Nat := 12
def REMOVABLE : Nat := 0xf0
def FIXED : Nat := 0xf8
def MBR_SIG : Nat := 0x55AA
def NTFS_SIG : Nat := 0xEB5290
def FAT12_SIG : Nat := 0xEB3F90
def FAT16_SIG : Nat := 0xEB3C90
def FAT32_SIG : Nat := 0xEB5890

/-! ## `read_mbr_sector` -/

/-- The structure `struct partition_table`, one MBR table entry; `ebr_table` is
`none` for `NULL`. -/
structure partition_table where
  boot_indicator : Nat
  partition_type : Nat
  starting_sector : Nat
  partition_size : Nat
  ebr_table : Option Nat
deriving DecidableEq

/-- The structure `struct mbr_sector`: the array `entry[4]`. -/
structure mbr_sector where
  entry : List partition_table
deriving DecidableEq

/-- One zeroed table entry. -/
def partition_table.zero : partition_table :=
  { boot_indicator := 0, partition_type := 0, starting_sector := 0, partition_size := 0,
    ebr_table := none }

/-- The structure `calloc(1, sizeof(struct mbr_sector))` returns in `main`. -/
def mbr_sector.zero : mbr_sector := { entry := List.replicate 4 partition_table.zero }

/-- The local array `mbr_sector_offsets` of `read_mbr_sector`. -/
def mbr_sector_offsets : List Nat := [MBR_PART1_OFF, MBR_PART2_OFF, MBR_PART3_OFF, MBR_PART4_OFF]

/-- The locals of `read_mbr_sector` that live across the passes of its loop: `buf[0]`,
`buf32[0]`, `extended_found` and `extended_entry[4]`. -/
structure read_mbr_locals where
  buf : Nat
  buf32 : Nat
  extended_found : Bool
  extended_entry : List Bool
deriving DecidableEq

/-- One pass of the `for (int i = 0; i < 4; i++)` loop of `read_mbr_sector`: the type
byte is read and tested for an extended partition, then type, boot indicator, starting
sector and size are read into `buf` / `buf32` and stored in `mbr->entry[i]`. -/
def read_mbr_sector_pass (img : Bytes) (i : Nat) (s : mbr_sector × read_mbr_locals) :
    mbr_sector × read_mbr_locals :=
  let off := mbr_sector_offsets.getD i 0
  let probe := pread_field img s.2.buf 1 (off + PARTITION_TYPE)
  let extended : Bool := decide (probe = EXTENDED) || decide (probe = EXTENDED_LBA)
  let partition_type := pread_field img probe 1 (off + PARTITION_TYPE)
  let boot_indicator := pread_field img partition_type 1 (off + BOOT_INDICATOR)
  let starting_sector := pread_field img s.2.buf32 4 (off + STARTING_SECTOR)
  let partition_size := pread_field img starting_sector 4 (off + PARTITION_SIZE)
  ({ entry :=
       s.1.entry.set i
         { (s.1.entry.getD i partition_table.zero) with
           partition_type := partition_type, boot_indicator := boot_indicator,
           starting_sector := starting_sector, partition_size := partition_size } },
   { buf := boot_indicator, buf32 := partition_size,
     extended_found := s.2.extended_found || extended,
     extended_entry :=
       if extended then s.2.extended_entry.set i true else s.2.extended_entry })

/-- The function `read_mbr_sector`: the table it leaves in `*mbr` and the `int` it
returns.  The closing loop over `extended_entry` has an empty body. -/
def read_mbr_sector (img : Bytes) (mbr : mbr_sector) : mbr_sector × Nat :=
  let start : mbr_sector × read_mbr_locals :=
    (mbr, { buf := 0, buf32 := 0, extended_found := false,
            extended_entry := List.replicate 4 false })
  ((List.range 4).foldl (fun s i => read_mbr_sector_pass img i s) start |>.1, 0)

/-! ## `verify_disk_image` -/

/-- The function `verify_disk_image`, from the image, the contents of the
uninitialised local `buf[3]` and `args->fs_type`: the signature at `MBR_SIG_OFF` is
compared with `MBR_SIG`, then the three bytes at offset 0 select the detected type,
which must equal the declared one. -/
def verify_disk_image (img : Bytes) (buf : Nat → Nat) (fs_type : Nat) : Outcome Nat :=
  let buf1 := pread img buf 0 2 MBR_SIG_OFF
  let mbr_sig := (((buf1 0 % 256) * 256) ||| (buf1 1 % 256)) % 65536
  if mbr_sig ≠ MBR_SIG then Outcome.exit_failure
  else
    let buf2 := pread img buf1 0 3 0
    let fs_type_sig :=
      (((buf2 0 % 256) * 65536) ||| ((buf2 1 % 256) * 256) ||| (buf2 2 % 256)) % 4294967296
    if fs_type_sig = NTFS_SIG then
      if fs_type ≠ NTFS then Outcome.exit_failure else Outcome.returns NTFS
    else if fs_type_sig = FAT32_SIG then
      if fs_type ≠ FAT32 then Outcome.exit_failure else Outcome.returns FAT32
    else if fs_type_sig = FAT16_SIG then
      if fs_type ≠ FAT16 then Outcome.exit_failure else Outcome.returns FAT16
    else if fs_type_sig = FAT12_SIG then
      if fs_type ≠ FAT12 then Outcome.exit_failure else Outcome.returns FAT12
    else
      if fs_type ≠ RAW then Outcome.exit_failure else Outcome.returns RAW

/-! ## `validate_fat_boot_sector` -/

/-- The warnings `validate_fat_boot_sector` prints without ending the process. -/
structure validate_warnings where
  conflicting_indicators : Bool
  media_type_unknown : Bool
  conflicting_sector_counts : Bool
deriving DecidableEq

/-- The function `validate_fat_boot_sector`.  The test on `sec_per_clus` is the
source's `!(sec_per_clus != 0) && ((sec_per_clus & (sec_per_clus - 1)) == 0)`, with
`sec_per_clus` a `uint8_t` promoted to `int` (the operands of `&` are taken in 32-bit
two's complement, so `sec_per_clus - 1` is `0xFFFFFFFF` when `sec_per_clus` is 0); the
product `sec_per_clus * bps` is a `uint32_t`. -/
def validate_fat_boot_sector (g : Globals) (fat_sector : fat_boot_sector) :
    Outcome validate_warnings :=
  if ¬ (g.bps = 512 ∨ g.bps = 1024 ∨ g.bps = 2048 ∨ g.bps = 4096) then Outcome.exit_failure
  else
    let sec_per_clus : Nat := fat_sector.sectors_per_cluster % 256
    if (¬ (sec_per_clus ≠ 0))
        ∧ (sec_per_clus &&& ((sec_per_clus + 4294967296 - 1) % 4294967296)) = 0
    then Outcome.exit_failure
    else if (sec_per_clus * g.bps) % 4294967296 > 32768 then Outcome.exit_failure
    else if fat_sector.number_of_fats < 1 then Outcome.exit_failure
    else
      Outcome.returns
        { conflicting_indicators :=
            decide (fat_sector.max_files_in_root ≠ 0) && decide (fat_sector.fat_size_in_sectors = 0),
          media_type_unknown :=
            decide (fat_sector.media_type ≠ FIXED) && decide (fat_sector.media_type ≠ REMOVABLE),
          conflicting_sector_counts :=
            decide (fat_sector.sector_count_16b ≠ 0) && decide (fat_sector.sector_count_32b ≠ 0) }

/-! ## `copy_fats_into_memory` -/

/-- What the comparison loop of `copy_fats_into_memory` has counted and printed: the
local `diff`, the pairs of offsets printed by the "Detected discrepency" line, and how
often the "More than 10 discrepencies" line was printed. -/
structure fat_diff where
  diff : Nat
  offsets : List (Nat × Nat)
  more_than_10 : Nat
deriving DecidableEq

/-- The body of the comparison loop of `copy_fats_into_memory` at index `i`, with
`R = reserved_area_size_in_bytes` and `S = fat_size_in_bytes`: a discrepancy is
counted, its two offsets (`uint32_t` sums) are printed while `diff <= 10`, and the
"More than 10" line is printed in every pass that ends with `diff == 11`. -/
def copy_fats_compare_pass (fat1 fat2 : Bytes) (R S i : Nat) (d : fat_diff) : fat_diff :=
  let d1 : fat_diff :=
    if (fat1.byte i ^^^ fat2.byte i) ≠ 0 then
      { d with
        diff := d.diff + 1,
        offsets :=
          if d.diff + 1 ≤ 10 then
            d.offsets ++ [((R + i) % 4294967296, (R + S + i) % 4294967296)]
          else d.offsets }
    else d
  if d1.diff = 11 then { d1 with more_than_10 := d1.more_than_10 + 1 } else d1

/-- The loop `for(int i = 0; i < fat_size_in_bytes; i++)` of `copy_fats_into_memory`,
for the passes that remain.  The counter is an `int` compared as `uint32_t`: in a pass
with `i ≥ 2^31` the index of `fat1[i]` is negative, an access outside the buffer.
`diff` is a `uint64_t` and counts at most `S < 2^32` passes. -/
def copy_fats_compare_loop (fat1 fat2 : Bytes) (R S : Nat) : Nat → Nat → fat_diff → Run fat_diff
  | 0, _, d => Run.ret d
  | passes + 1, i, d =>
    if 2147483648 ≤ i then Run.oob
    else
      copy_fats_compare_loop fat1 fat2 R S passes (i + 1)
        (copy_fats_compare_pass fat1 fat2 R S i d)

/-- What `copy_fats_into_memory` leaves behind: the global `fat_size_in_bytes`, the
buffers `*fat1_ptr` and `*fat2_ptr`, what the comparison printed, and the number on the
"Total # of discrepencies" line if that line was printed. -/
structure loaded_fats where
  fat_size_in_bytes : Nat
  fat1 : Bytes
  fat2 : Bytes
  report : fat_diff
  total : Option Nat

/-- The function `copy_fats_into_memory`: sizes and offsets are `uint32_t`, the FAT
size field is chosen by `fs_type == FAT32`, both buffers come zeroed from `calloc` and
are filled by one `pread` each. -/
def copy_fats_into_memory (img : Bytes) (g : Globals) (fs_type : Nat)
    (fat_sector : fat_boot_sector) : Run loaded_fats :=
  let reserved_area_size_in_bytes := (fat_sector.reserved_area_size * g.bps) % 4294967296
  let fat_size_in_bytes :=
    if fs_type = FAT32 then (fat_sector.fat32_size_in_sectors * g.bps) % 4294967296
    else (fat_sector.fat_size_in_sectors * g.bps) % 4294967296
  let fat1 : Bytes :=
    { size := fat_size_in_bytes,
      data := pread img (fun _ => 0) 0 fat_size_in_bytes reserved_area_size_in_bytes }
  let fat2 : Bytes :=
    { size := fat_size_in_bytes,
      data := pread img (fun _ => 0) 0 fat_size_in_bytes
        ((reserved_area_size_in_bytes + fat_size_in_bytes) % 4294967296) }
  (copy_fats_compare_loop fat1 fat2 reserved_area_size_in_bytes fat_size_in_bytes
      fat_size_in_bytes 0 { diff := 0, offsets := [], more_than_10 := 0 }).bind fun d =>
    Run.ret
      { fat_size_in_bytes := fat_size_in_bytes, fat1 := fat1, fat2 := fat2, report := d,
        total := if d.diff > 0 then some d.diff else none }

/-! ## `check_slack_space` -/

/-- The locals `buf` and `hidden_found` of `check_slack_space` (both `uint8_t`) and
the offsets of the `pread` calls made so far, in order. -/
structure slack_locals where
  buf : Nat
  hidden_found : Nat
  reads : List Nat
deriving DecidableEq

/-- What `check_slack_space` has done when it returns: the offsets it read, whether
the "before partition entry 0" line was printed, the indices `i` for which the
"between partition entries i and i+1" line was printed, and whether the closing "No
data was hidden" line was printed. -/
structure slack_report where
  reads : List Nat
  before_first : Bool
  between : List Nat
  none_found : Bool
deriving DecidableEq

/-- The loop `for (uint32_t i = 512; i < starting_sector * bps; i++)` of
`check_slack_space`, for the passes that remain: each pass reads one byte at offset
`i` into `buf` and ors it into `hidden_found`. -/
def slack_scan_loop (img : Bytes) : Nat → Nat → slack_locals → slack_locals
  | 0, _, s => s
  | passes + 1, i, s =>
    slack_scan_loop img passes (i + 1)
      { buf := pread_field img s.buf 1 i,
        hidden_found := s.hidden_found ||| pread_field img s.buf 1 i,
        reads := s.reads ++ [i] }

/-- The first block of `check_slack_space`, the space before the first partition:
the locals it leaves and whether the "before partition entry 0" line was printed. -/
def check_slack_space_first (img : Bytes) (g : Globals) (mbr : mbr_sector) :
    Run (slack_locals × Bool) :=
  match mbr.entry.get? 0 with
  | none => Run.oob
  | some first =>
    if first.starting_sector > 0 then
      let s := slack_scan_loop img ((first.starting_sector * g.bps) % 4294967296 - 512) 512
        { buf := 0, hidden_found := 0, reads := [] }
      Run.ret (s, decide (s.hidden_found ≠ 0))
    else Run.ret ({ buf := 0, hidden_found := 0, reads := [] }, false)

/-- The inner loop of the second block of `check_slack_space`,
`for (uint32_t i = ...; i < mbr->entry[i+1].starting_sector * bps; i++)`.  The inner
`i` hides the `i` of the enclosing loop, so the bound is taken from the table entry
whose index is the read offset plus one; an index from 4 on lies outside the array. -/
def check_slack_space_gap_loop (img : Bytes) (g : Globals) (mbr : mbr_sector) :
    Nat → Nat → slack_locals → Run slack_locals
  | 0, _, _ => Run.out_of_fuel
  | fuel + 1, i, s =>
    match mbr.entry.get? ((i + 1) % 4294967296) with
    | none => Run.oob
    | some bound =>
      if i < (bound.starting_sector * g.bps) % 4294967296 then
        check_slack_space_gap_loop img g mbr fuel ((i + 1) % 4294967296)
          { buf := pread_field img s.buf 1 i,
            hidden_found := s.hidden_found ||| pread_field img s.buf 1 i,
            reads := s.reads ++ [i] }
      else Run.ret s

/-- One pass of the loop `for (int i = 0; i < 3; i++)` of `check_slack_space`, from
the locals and the list of "between" lines printed so far.  In the initialiser
`uint32_t i = mbr->entry[i].starting_sector + mbr->entry[i].partition_size * bps` the
name `i` already denotes the new, uninitialised variable; `junk` is the value it
happens to hold.  The inner loop ends within 5 passes or faults. -/
def check_slack_space_gap (img : Bytes) (g : Globals) (mbr : mbr_sector) (junk i : Nat)
    (s : slack_locals × List Nat) : Run (slack_locals × List Nat) :=
  match mbr.entry.get? i, mbr.entry.get? (i + 1) with
  | some this, some next =>
    if (this.starting_sector + this.partition_size) % 4294967296 < next.starting_sector then
      match mbr.entry.get? (junk % 4294967296) with
      | none => Run.oob
      | some e =>
        (check_slack_space_gap_loop img g mbr 8
            ((e.starting_sector + (e.partition_size * g.bps) % 4294967296) % 4294967296)
            { buf := 0, hidden_found := 0, reads := s.1.reads }).bind fun s1 =>
          Run.ret
            ({ s1 with hidden_found := s1.hidden_found ||| s.1.hidden_found },
              if s1.hidden_found ≠ 0 then s.2 ++ [i] else s.2)
    else
      Run.ret ({ buf := 0, hidden_found := 0 ||| s.1.hidden_found, reads := s.1.reads }, s.2)
  | _, _ => Run.oob

/-- The function `check_slack_space`, with the value of the global `hidden_data_found`
before and after the call (no statement of the function names it); `junk i` is the
indeterminate initial value of the inner loop variable in pass `i` of the outer
loop. -/
def check_slack_space (img : Bytes) (g : Globals) (mbr : mbr_sector) (junk : Nat → Nat)
    (hidden_data_found : Bool) : Run (slack_report × Bool) :=
  (check_slack_space_first img g mbr).bind fun first =>
  (check_slack_space_gap img g mbr (junk 0) 0 (first.1, [])).bind fun s0 =>
  (check_slack_space_gap img g mbr (junk 1) 1 s0).bind fun s1 =>
  (check_slack_space_gap img g mbr (junk 2) 2 s1).bind fun s2 =>
  Run.ret
    ({ reads := s2.1.reads, before_first := first.2, between := s2.2,
       none_found := decide (s2.1.hidden_found = 0) },
     hidden_data_found)

/-! ## Reference definitions taken from the specification -/

/-- The sector count as the specification words it: the 32-bit field if it is
nonzero, else the 16-bit field. -/
def spec_sector_count (fat_sector : fat_boot_sector) : Nat :=
  if fat_sector.sector_count_32b ≠ 0 then fat_sector.sector_count_32b
  else fat_sector.sector_count_16b

/-- The root-directory sector count as the specification words it:
`ceil(max_files_in_root * 32 / bytes_per_sector)`, a ceiling of an exact quotient. -/
def spec_root_dir_sectors (max_files_in_root bytes_per_sector : Nat) : Nat :=
  ⌈((max_files_in_root * 32 : Nat) : ℚ) / (bytes_per_sector : ℚ)⌉₊

/-- Following successor entries from cluster `c`, the first entry `≥ 0x0FFFFFF8` is
read at the `n`-th lookup: lookups `1 .. n-1` read entries below the sentinel (each
names the cluster of the next lookup), lookup `n` reads an entry at or above it. -/
def chain_ends_at (fat_bs : fat_boot_sector) (fat1 : Bytes) : Nat → Nat → Prop
  | _, 0 => False
  | c, n + 1 =>
    ∃ v, read_alloctable fat_bs fat1 c = some v ∧
      ((n = 0 ∧ FAT32_EOF ≤ v) ∨ (v < FAT32_EOF ∧ chain_ends_at fat_bs fat1 v n))

/-- The cluster of the `(k+1)`-th lookup when successor entries are followed from `c`
(`none` once a lookup has left the table). -/
def chain_at (fat_bs : fat_boot_sector) (fat1 : Bytes) (c : Nat) : Nat → Option Nat
  | 0 => some c
  | k + 1 => (chain_at fat_bs fat1 c k).bind (read_alloctable fat_bs fat1)


/-- The byte the specification places at `buffer[j]` after a cluster-aware read that
starts at logical position `p` of the chain: the image byte at physical offset
`cts(cluster_list[(p + j) div C]) + ((p + j) mod C)`, with `C = bps * spc`. -/
def spec_read_byte (img : Bytes) (g : Globals) (read : read_parameters) (p j : Nat) :
    Option Nat :=
  (read.cluster_list.get? ((p + j) / (g.bps * g.spc))).map
    (fun c => img.byte (cts g c + (p + j) % (g.bps * g.spc)))

/-- The length the specification gives the first physical read of a cluster-aware
read of `length` bytes at logical position `p`: clipped to the bytes that remain in
the starting cluster, `min(length, C - (p mod C))`. -/
def spec_first_read_len (g : Globals) (p length : Nat) : Nat :=
  min length (g.bps * g.spc - p % (g.bps * g.spc))

/-- The globals `fat1` and `fat2`: the primary and the secondary copy of the table. -/
structure fat_copies where
  fat1 : Bytes
  fat2 : Bytes

/-- The value of `current_entry_attribute` after `walk_lfn_entries` has probed slot
`j`: the attribute byte of slot `j` as `read_disk` delivers it at field offset
`11 + 32 * j` (a `uint32_t`) into the variable left by the probe of slot `j - 1`. -/
def lfn_probe (img : Bytes) (g : Globals) (read : read_parameters) : Nat → Run Nat
  | 0 => read_disk_var img g 0 4 1 ((FILE_ATTRIBUTES + (32 * 0) % 4294967296) % 4294967296) read
  | j + 1 =>
    (lfn_probe img g read j).bind fun previous =>
      read_disk_var img g previous 4 1
        ((FILE_ATTRIBUTES + (32 * (j + 1)) % 4294967296) % 4294967296) read

/-- The octet at image offset `off`, and 0 where the image has ended (what a `pread`
into zeroed memory leaves). -/
def byte_or_zero (img : Bytes) (off : Nat) : Nat := if off < img.size then img.byte off else 0

/-- The little-endian 16-bit value at image offset `off`, bytes past the end of the
image counting as 0. -/
def le16_or_zero (img : Bytes) (off : Nat) : Nat :=
  byte_or_zero img off + 256 * byte_or_zero img (off + 1)

/-- The little-endian 32-bit value at image offset `off`, bytes past the end of the
image counting as 0. -/
def le32_or_zero (img : Bytes) (off : Nat) : Nat :=
  byte_or_zero img off + 256 * byte_or_zero img (off + 1)
    + 65536 * byte_or_zero img (off + 2) + 16777216 * byte_or_zero img (off + 3)

/-- The image offset at which `read_disk` reads the field at offset `k` of the record
at `S` (0 when the read would leave the cluster list). -/
def record_offset (g : Globals) (read : read_parameters) (S k : Nat) : Nat :=
  (read_disk_offset g read (S + k)).getD 0

/-- The fields of the short-name record at offset `S` in the layout of the
specification (name = 11 bytes at S+0, attributes = byte at S+11, creation tenths at
S+13, creation time at S+14, creation day at S+16, access day at S+18, cluster-high =
LE16 at S+20, written time at S+22, written day at S+24, cluster-low = LE16 at S+26,
file size = LE32 at S+28, and `cluster_addr = low + 65536 * high`), each taken at the
image offset `record_offset` at which `read_disk` reads it.  That offset is the place
of the record in the directory only for a position in the first cluster of the chain
(see `read_fat_dir_entry_second_cluster`). -/
def spec_record (img : Bytes) (g : Globals) (read : read_parameters) (S : Nat) :
    fat_dir_entry :=
  { fat_dir_entry.zero with
    filename :=
      (List.range 11).map (fun i => byte_or_zero img (record_offset g read S 0 + i)) ++ [0],
    file_attributes := byte_or_zero img (record_offset g read S 11),
    created_time_tenths := byte_or_zero img (record_offset g read S 13),
    created_time_hms := le16_or_zero img (record_offset g read S 14),
    created_day := le16_or_zero img (record_offset g read S 16),
    accessed_day := le16_or_zero img (record_offset g read S 18),
    low_cluster_addr := le16_or_zero img (record_offset g read S 26),
    high_cluster_addr := le16_or_zero img (record_offset g read S 20),
    cluster_addr :=
      le16_or_zero img (record_offset g read S 26)
        + 65536 * le16_or_zero img (record_offset g read S 20),
    written_time_hms := le16_or_zero img (record_offset g read S 22),
    written_day := le16_or_zero img (record_offset g read S 24),
    file_size := le32_or_zero img (record_offset g read S 28) }

/-- All four tree pointers of a node are `NULL`. -/
def fat_dir_entry.unlinked (e : fat_dir_entry) : Prop :=
  e.parent_dir = none ∧ e.dir_contents = none ∧ e.next = none ∧ e.prev = none

/-- The node an event of the walker is about, if any. -/
def walk_event.entry : walk_event → Option fat_dir_entry
  | walk_event.skip e => some e
  | walk_event.keep e => some e
  | walk_event.dir e => some e
  | walk_event.dir_end => none
  | walk_event.check e _ => some e

/-- Every node the walker has handled so far has all four tree pointers `NULL`. -/
def walk_state.unlinked (st : walk_state) : Prop :=
  ∀ ev, ev ∈ st.events → ∀ e, ev.entry = some e → e.unlinked

/-- The type detected from the 3 bytes at offset 0 of the image: EB 52 90 is NTFS,
EB 58 90 is FAT32, EB 3C 90 is FAT16, EB 3F 90 is FAT12, anything else is RAW. -/
def detected_type (img : Bytes) : Nat :=
  if img.byte 0 = 0xEB ∧ img.byte 1 = 0x52 ∧ img.byte 2 = 0x90 then NTFS
  else if img.byte 0 = 0xEB ∧ img.byte 1 = 0x58 ∧ img.byte 2 = 0x90 then FAT32
  else if img.byte 0 = 0xEB ∧ img.byte 1 = 0x3C ∧ img.byte 2 = 0x90 then FAT16
  else if img.byte 0 = 0xEB ∧ img.byte 1 = 0x3F ∧ img.byte 2 = 0x90 then FAT12
  else RAW

/-- The number of indices `i < S` at which two buffers differ. -/
def discrepancies (fat1 fat2 : Bytes) (S : Nat) : Nat :=
  (List.range S).countP (fun i => decide (fat1.byte i ≠ fat2.byte i))

/-- The FAT size field, in sectors, that goes with a file-system type: the FAT32 field
for FAT32, the legacy 16-bit field otherwise. -/
def selected_fat_size (fs_type : Nat) (fat_sector : fat_boot_sector) : Nat :=
  if fs_type = FAT32 then fat_sector.fat32_size_in_sectors else fat_sector.fat_size_in_sectors

/-- The indices `i < S` at which two buffers differ, in ascending order. -/
def differing_indices (fat1 fat2 : Bytes) (S : Nat) : List Nat :=
  (List.range S).filter (fun i => decide (fat1.byte i ≠ fat2.byte i))

/-! ## Concrete inputs used by the evaluation theorems -/

/-- A boot sector with 512-byte sectors, one sector per cluster, one reserved sector,
two FATs of 12 sectors, 224 root entries (14 root-directory sectors) and `total`
sectors in the 16-bit field: its cluster count is `total - 39`. -/
def small_volume (total : Nat) : fat_boot_sector :=
  { fat_boot_sector.zero with
    bytes_per_sector := 512, sectors_per_cluster := 1, reserved_area_size := 1,
    number_of_fats := 2, max_files_in_root := 224, sector_count_16b := total,
    fat_size_in_sectors := 12 }

/-- A boot sector in which both sector-count fields are populated: 1000 sectors in
the 16-bit field, 1000000 in the 32-bit field, 32 reserved sectors. -/
def conflicting_counts : fat_boot_sector :=
  { fat_boot_sector.zero with
    bytes_per_sector := 512, sectors_per_cluster := 1, reserved_area_size := 32,
    number_of_fats := 2, sector_count_16b := 1000, sector_count_32b := 1000000 }

/-- An image (or buffer) of the given size whose listed positions hold the listed
octets and whose other positions hold zero. -/
def sparse_bytes (size : Nat) (contents : List (Nat × Nat)) : Bytes :=
  { size := size, data := fun i => (contents.lookup i).getD 0 }

/-- What `read_fat_boot_sector` decodes from `fat12_floppy`. -/
def fat12_floppy_sector : fat_boot_sector :=
  { fat_boot_sector.zero with
    is_fat12 := true, bytes_per_sector := 512, sectors_per_cluster := 1,
    reserved_area_size := 1, number_of_fats := 2, max_files_in_root := 224,
    sector_count_16b := 2880, media_type := 0xF0, fat_size_in_sectors := 9,
    fs_signature := 0xAA55 }

/-- An image of 16 sectors of 512 bytes in which every byte holds the number of the
sector it lies in. -/
def sector_stamp : Bytes := { size := 8192, data := fun i => i / 512 }

/-- A geometry with 512-byte clusters whose data region starts at byte 1024, so that
cluster `n` is sector `n` of the image. -/
def g512 : Globals := { bps := 512, spc := 1, reserved_and_fats := 1024 }

/-- A chain of two clusters that are not adjacent on disk, read from its start. -/
def two_cluster_chain : read_parameters :=
  { start_cluster := 2, cluster_list := [2, 5], list_length := 2, entry_offset := 0 }

/-- A chain of three clusters, positioned 500 bytes into its first cluster. -/
def three_cluster_chain : read_parameters :=
  { start_cluster := 2, cluster_list := [2, 5, 9], list_length := 3, entry_offset := 500 }

/-- A one-cluster directory, positioned at its last 32-byte slot (offset 480). -/
def one_cluster_chain : read_parameters :=
  { start_cluster := 2, cluster_list := [2], list_length := 1, entry_offset := 480 }

/-- A boot sector classified FAT32 (only the flag matters to the table accessor). -/
def fat32_bs : fat_boot_sector := { fat_boot_sector.zero with is_fat32 := true }

/-- A FAT32 table of five entries: entry 2 names cluster 3, entry 3 is an
end-of-chain mark (a two-cluster file starting at 2), entry 4 is an end-of-chain
mark (a one-cluster file starting at 4). -/
def short_chain_fat : Bytes :=
  sparse_bytes 20
    [(0, 0xF8), (1, 0xFF), (2, 0xFF), (3, 0x0F), (4, 0xFF), (5, 0xFF), (6, 0xFF), (7, 0x0F),
      (8, 3), (12, 0xFF), (13, 0xFF), (14, 0xFF), (15, 0x0F),
      (16, 0xF8), (17, 0xFF), (18, 0xFF), (19, 0x0F)]

/-- A FAT32 table of four entries in which entry 2 names its own cluster 2. -/
def self_loop_fat : Bytes := sparse_bytes 16 [(8, 2)]

/-- A decoded directory entry with the given 11-byte name, attribute byte, first
cluster, size and last cluster; every other field zero. -/
def mk_entry (name : List Nat) (attributes cluster size last : Nat) : fat_dir_entry :=
  { fat_dir_entry.zero with
    filename := name ++ [0], file_attributes := attributes,
    low_cluster_addr := cluster % 65536, high_cluster_addr := cluster / 65536,
    cluster_addr := cluster, file_size := size, last_cluster := last }

/-- The FAT32 table of `tiny_volume`: entries 0 and 1 are the reserved marks, the
chains of clusters 2 (root directory), 3 (A.TXT), 4 (SUB) and 5 (a deleted file) are
one cluster long. -/
def tiny_fat : Bytes :=
  sparse_bytes 32
    [(0, 0xF8), (1, 0xFF), (2, 0xFF), (3, 0x0F), (4, 0xFF), (5, 0xFF), (6, 0xFF), (7, 0x0F),
      (8, 0xFF), (9, 0xFF), (10, 0xFF), (11, 0x0F), (12, 0xFF), (13, 0xFF), (14, 0xFF), (15, 0x0F),
      (16, 0xFF), (17, 0xFF), (18, 0xFF), (19, 0x0F), (20, 0xFF), (21, 0xFF), (22, 0xFF),
      (23, 0x0F)]

/-- The short name `A       TXT`. -/
def name_a : List Nat := [0x41, 0x20, 0x20, 0x20, 0x20, 0x20, 0x20, 0x20, 0x54, 0x58, 0x54]

/-- The short name of a deleted `OLD     TXT`: its first byte is the mark 0xE5. -/
def name_deleted : List Nat :=
  [0xE5, 0x4C, 0x44, 0x20, 0x20, 0x20, 0x20, 0x20, 0x54, 0x58, 0x54]

/-- The short name `SUB        `. -/
def name_sub : List Nat := [0x53, 0x55, 0x42, 0x20, 0x20, 0x20, 0x20, 0x20, 0x20, 0x20, 0x20]

/-- The bytes of a 32-byte directory slot at image offset `at_offset`: name, attribute
byte, low half of the first cluster (below 256) and size (below 256). -/
def slot_bytes (at_offset : Nat) (name : List Nat) (attributes cluster size : Nat) :
    List (Nat × Nat) :=
  (List.range 11).map (fun i => (at_offset + i, name.getD i 0))
    ++ [(at_offset + 11, attributes), (at_offset + 26, cluster), (at_offset + 28, size)]

/-- A small FAT32 data region with 512-byte clusters, cluster `n` at sector `n`.
Cluster 2 is the root directory: `A.TXT` (cluster 3, 100 bytes), a deleted file
(first name byte 0xE5, cluster 5, 10 bytes) and the directory `SUB` (cluster 4), which
holds only `.` and `..`.  Cluster 3 has the byte 0x61 at its start and the byte 0x99
at offset 200, past the 100 bytes of the file. -/
def tiny_volume : Bytes :=
  sparse_bytes 8192
    (slot_bytes 1024 name_a 0x20 3 100 ++ slot_bytes 1056 name_deleted 0x20 5 10
      ++ slot_bytes 1088 name_sub 0x10 4 0
      ++ slot_bytes 2048 (dot_name.take 11) 0x10 4 0
      ++ slot_bytes 2080 (dotdot_name.take 11) 0x10 0 0
      ++ [(1536, 0x61), (1736, 0x99)])

/-- The walker over `tiny_volume` with the hidden-data option as given. -/
def tiny_walker (h_flag : Bool) : walker :=
  { img := tiny_volume, g := g512, fat_bs := fat32_bs, fat1 := tiny_fat, h_flag := h_flag }

/-- The node of an all-zero slot as the walker leaves it: first cluster 0, whose
table entry is the end mark, so its last cluster is 0. -/
def blank_entry : fat_dir_entry := mk_entry (List.replicate 11 0) 0 0 0 0

/-- A directory cluster (cluster 2, image offset 1024) whose first two slots are
long-file-name entries (attribute 0x0F) followed by the short-name record
`A       TXT` (attribute 0x20, first cluster 0x00030004, size 0x01020304, creation
time bytes 0x11 0x22). -/
def lfn_volume : Bytes :=
  sparse_bytes 8192
    ([(1035, 0x0F), (1067, 0x0F)]
      ++ (List.range 11).map (fun i => (1088 + i, name_a.getD i 0))
      ++ [(1099, 0x20), (1102, 0x11), (1103, 0x22), (1108, 0x03), (1114, 0x04),
          (1116, 0x04), (1117, 0x03), (1118, 0x02), (1119, 0x01)])

/-- The one-cluster directory chain [2], positioned at its first slot. -/
def first_slot : read_parameters :=
  { start_cluster := 2, cluster_list := [2], list_length := 1, entry_offset := 0 }

/-- A geometry with 32768-byte clusters whose data region starts at image offset 0. -/
def wrap_geometry : Globals := { bps := 32768, spc := 1, reserved_and_fats := 0 }

/-- A directory chain of 131072 clusters (4 GiB of directory slots): the clusters
2, 4, 6, ..., positioned at the first slot. -/
def wrap_chain : read_parameters :=
  { start_cluster := 2, cluster_list := (List.range 131072).map (fun i => 2 + 2 * i),
    list_length := 131072, entry_offset := 0 }

/-- A 4 GiB image in which every byte is 0x0F except the byte at offset 4294901739,
which is 0x20: read through `wrap_chain`, the first `2^27 - 1` directory slots are
long-file-name entries and the last slot (at directory offset `2^32 - 32`) is not. -/
def wrap_image : Bytes :=
  { size := 4294967296, data := fun i => if i = 4294901739 then 0x20 else 0x0F }

/-- What the walker does on `tiny_volume` with the hidden-data option on, in order:
`A.TXT` is kept and checked (hidden data found), the deleted file is kept and checked,
`SUB` is kept and entered, its `.` and `..` and 14 blank slots are skipped, and the
13 blank slots left in the root are skipped. -/
def tiny_walk_events : List walk_event :=
  [walk_event.keep (mk_entry name_a 0x20 3 100 3),
   walk_event.check (mk_entry name_a 0x20 3 100 3) true,
   walk_event.keep (mk_entry name_deleted 0x20 5 10 5),
   walk_event.check (mk_entry name_deleted 0x20 5 10 5) false,
   walk_event.keep (mk_entry name_sub 0x10 4 0 4),
   walk_event.dir { mk_entry name_sub 0x10 4 0 4 with is_directory := true },
   walk_event.skip (mk_entry (dot_name.take 11) 0x10 4 0 4),
   walk_event.skip (mk_entry (dotdot_name.take 11) 0x10 0 0 0)]
    ++ List.replicate 14 (walk_event.skip blank_entry)
    ++ [walk_event.dir_end]
    ++ List.replicate 13 (walk_event.skip blank_entry)

/-- The root node and the walker state the walk of `tiny_volume` ends with. -/
def tiny_walk_result : fat_dir_entry × walk_state :=
  ({ fat_dir_entry.zero with last_cluster := 2 },
    { hidden_data_found := true, events := tiny_walk_events })

/-- The walker state at the start of a run. -/
def walk_start : walk_state := { hidden_data_found := false, events := [] }

/-- The chain of the directory `SUB` of `tiny_volume`, positioned at its first slot. -/
def sub_slot : read_parameters :=
  { start_cluster := 4, cluster_list := [4], list_length := 1, entry_offset := 0 }

/-- A geometry with 1024-byte clusters (512-byte sectors, 2 per cluster) whose data
region starts at byte 16896: cluster 4194289 starts at byte `2^32 - 512`, so its
second half lies past the 4 GiB mark. -/
def straddle_geometry : Globals := { bps := 512, spc := 2, reserved_and_fats := 16896 }

/-- An image of 4 GiB + 1024 bytes that is zero everywhere but at offset `2^32 + 500`,
where it holds 0x99. -/
def straddle_image : Bytes :=
  { size := 4294968320, data := fun i => if i = 4294967796 then 0x99 else 0 }

/-- A file of 1000 bytes whose only cluster is cluster 4194289. -/
def straddle_file : fat_dir_entry := mk_entry name_a 0x20 4194289 1000 4194289

/-- A file of 512 bytes, exactly one cluster of `g512`, stored in cluster 3. -/
def full_cluster_file : fat_dir_entry := mk_entry name_a 0x20 3 512 3

/-- A 1 MiB disk image with an MBR: entry 0 is a bootable FAT32 partition (type 0x0C)
of 4096 sectors starting at sector 2048, entry 1 an extended partition (type 0x05) of
2048 sectors starting at sector 8192, entries 2 and 3 are empty; the signature 55 AA
is in place. -/
def mbr_image : Bytes :=
  sparse_bytes 1048576
    [(446, 0x80), (450, 0x0C), (455, 0x08), (459, 0x10),
      (466, 0x05), (471, 0x20), (475, 0x08), (510, 0x55), (511, 0xAA)]

/-- A 40 MB volume image whose jump instruction is `EB jump 90`: 512-byte sectors, 1
sector per cluster, 32 reserved sectors, 2 FATs, no root-directory entries, 0 in the
16-bit FAT size, 70000 sectors in the 32-bit count (69968 clusters, so the volume is
classified FAT32), 547 sectors in the FAT32 size field, root directory in cluster 2,
media type 0xF8, signature 55 AA. -/
def volume_image (jump : Nat) : Bytes :=
  sparse_bytes 41943040
    [(0, 0xEB), (1, jump), (2, 0x90), (11, 0x00), (12, 0x02), (13, 1), (14, 32), (16, 2),
      (21, 0xF8), (32, 0x70), (33, 0x11), (34, 0x01), (36, 0x23), (37, 0x02), (44, 2),
      (510, 0x55), (511, 0xAA)]

/-- A decoded boot sector with 512-byte sectors, the given sectors per cluster and
number of FATs, 32 reserved sectors, 70000 sectors in the 32-bit count and media type
0xF8. -/
def plain_sector (sectors_per_cluster number_of_fats : Nat) : fat_boot_sector :=
  { fat_boot_sector.zero with
    bytes_per_sector := 512, sectors_per_cluster := sectors_per_cluster,
    reserved_area_size := 32, number_of_fats := number_of_fats, media_type := 0xF8,
    sector_count_32b := 70000 }

/-- The geometry `read_fat_boot_sector` publishes for `plain_sector spc _`. -/
def plain_geometry (spc : Nat) : Globals := { bps := 512, spc := spc, reserved_and_fats := 0 }

/-- What `read_fat_boot_sector` decodes from `volume_image jump`, for any `jump`: the
volume is classified FAT32 (the legacy drive-number byte at offset 36 is the low byte
of the FAT32 size field). -/
def volume_sector : fat_boot_sector :=
  { fat_boot_sector.zero with
    is_fat32 := true, bytes_per_sector := 512, sectors_per_cluster := 1,
    reserved_area_size := 32, number_of_fats := 2, media_type := 0xF8,
    sector_count_32b := 70000, bios_drive_number := 0x23, fs_signature := 0xAA55,
    fat32_size_in_sectors := 547, root_dir_cluster := 2 }

/-- The geometry `read_fat_boot_sector` publishes for `volume_image jump`:
`reserved_and_fats = 32 * 512 + 547 * 512 * 2`. -/
def volume_geometry : Globals := { bps := 512, spc := 1, reserved_and_fats := 576512 }

/-- A boot sector classified FAT32 whose FAT32 size field holds 4194305 sectors: with
512-byte sectors the table has `2^31 + 512` bytes. -/
def big_fat_sector : fat_boot_sector :=
  { plain_sector 1 2 with is_fat32 := true, fat32_size_in_sectors := 4194305 }

/-- A table entry of type 0x0C with the given first sector and size in sectors. -/
def mk_partition (starting_sector partition_size : Nat) : partition_table :=
  { partition_table.zero with
    partition_type := 0x0C, starting_sector := starting_sector,
    partition_size := partition_size }

/-- A table whose first partition covers sector 1 and whose second partition starts at
sector 4: sectors 2 and 3 (image bytes 1024 to 2047) lie between them. -/
def gap_mbr : mbr_sector :=
  { entry := [mk_partition 1 1, mk_partition 4 1, partition_table.zero, partition_table.zero] }

/-- A table whose only partition starts at sector 2: sector 1 (image bytes 512 to 1023)
lies before it. -/
def small_mbr : mbr_sector :=
  { entry := [mk_partition 2 1, partition_table.zero, partition_table.zero,
      partition_table.zero] }

/-- A table whose only partition starts at sector 8388608, that is at byte `2^32`. -/
def far_mbr : mbr_sector :=
  { entry := [mk_partition 8388608 2048, partition_table.zero, partition_table.zero,
      partition_table.zero] }

/-- What `check_slack_space` returns on `small_mbr` over `sector_stamp` when the global
flag is false before the call. -/
def slack_small_result : slack_report × Bool :=
  ({ reads := List.range' 512 512, before_first := true, between := [],
     none_found := false }, false)

/-- A volume image with the FAT32 jump and the signature 55 AA whose bytes-per-sector
field is 0 (1 sector per cluster, 2 FATs). -/
def zero_bps_image : Bytes :=
  sparse_bytes 41943040
    [(0, 0xEB), (1, 0x58), (2, 0x90), (13, 1), (14, 32), (16, 2), (21, 0xF8),
      (32, 0x70), (33, 0x11), (34, 0x01), (510, 0x55), (511, 0xAA)]

/-- A volume image with the FAT32 jump and the signature 55 AA whose sectors-per-cluster
field is 0 (512-byte sectors, 2 FATs). -/
def zero_spc_image : Bytes :=
  sparse_bytes 41943040
    [(0, 0xEB), (1, 0x58), (2, 0x90), (12, 0x02), (14, 32), (16, 2), (21, 0xF8),
      (32, 0x70), (33, 0x11), (34, 0x01), (510, 0x55), (511, 0xAA)]

/-- A data region like that of `tiny_volume` whose root directory (cluster 2) holds one
file, `A.TXT` of 10 bytes, with first cluster 100: the table `tiny_fat` has 8 entries. -/
def stray_volume : Bytes := sparse_bytes 8192 (slot_bytes 1024 name_a 0x20 100 10)

/-- The table `tiny_fat` with entry 3 replaced by the bad-cluster mark 0x0FFFFFF7. -/
def bad_mark_fat : Bytes :=
  sparse_bytes 32
    [(0, 0xF8), (1, 0xFF), (2, 0xFF), (3, 0x0F), (4, 0xFF), (5, 0xFF), (6, 0xFF), (7, 0x0F),
      (8, 0xFF), (9, 0xFF), (10, 0xFF), (11, 0x0F), (12, 0xF7), (13, 0xFF), (14, 0xFF), (15, 0x0F)]

/-- An image whose boot sector starts with the jump `EB 58 90` and whose root directory
(cluster 2, image offset 1024) holds one file, `A.TXT`, of size 0 with first cluster
0. -/
def empty_file_volume : Bytes :=
  sparse_bytes 8192
    ([(0, 0xEB), (1, 0x58), (2, 0x90), (510, 0x55), (511, 0xAA)]
      ++ slot_bytes 1024 name_a 0x20 0 0)

/-- The walker over `empty_file_volume` with the hidden-data option on. -/
def empty_file_walker : walker :=
  { img := empty_file_volume, g := g512, fat_bs := fat32_bs, fat1 := tiny_fat, h_flag := true }

/-- The walker over `stray_volume` with the hidden-data option on. -/
def stray_walker : walker :=
  { img := stray_volume, g := g512, fat_bs := fat32_bs, fat1 := tiny_fat, h_flag := true }

/-- A decoded boot sector that meets every warning condition of
`validate_fat_boot_sector`: 512-byte sectors, 8 sectors per cluster, 2 FATs, 512 root
entries with a 16-bit FAT size of 0, media type 0x00, and both sector counts
populated. -/
def noisy_sector : fat_boot_sector :=
  { fat_boot_sector.zero with
    bytes_per_sector := 512, sectors_per_cluster := 8, reserved_area_size := 32,
    number_of_fats := 2, max_files_in_root := 512, sector_count_16b := 1000,
    media_type := 0, sector_count_32b := 70000 }

/-- A decoded boot sector whose 16-bit sector count (1000) is smaller than its reserved
area (32 sectors) plus its two FATs of 600 sectors: 512-byte sectors, 1 sector per
cluster, no root-directory entries. -/
def overfull_sector : fat_boot_sector :=
  { fat_boot_sector.zero with
    bytes_per_sector := 512, sectors_per_cluster := 1, reserved_area_size := 32,
    number_of_fats := 2, sector_count_16b := 1000, fat_size_in_sectors := 600 }

/-- The one-cluster chain of cluster 4194289, positioned at its first slot. -/
def straddle_slot : read_parameters :=
  { start_cluster := 4194289, cluster_list := [4194289], list_length := 1, entry_offset := 0 }

/-- A boot sector classified FAT32 whose FAT32 size field holds 4194304 sectors: with
512-byte sectors each table has `2^31` bytes, the first at image offset 16384 and the
second at image offset `16384 + 2^31`. -/
def half_fat_sector : fat_boot_sector :=
  { plain_sector 1 2 with is_fat32 := true, fat32_size_in_sectors := 4194304 }

/-- An image of `16384 + 2^32` bytes that is zero everywhere but at offset
`16384 + 2^31 - 1`, the last byte of the first table of `half_fat_sector`. -/
def half_fat_image : Bytes :=
  { size := 4294983680, data := fun i => if i = 2147500031 then 1 else 0 }

/-- A boot sector classified FAT32 whose two tables have 8 sectors (4096 bytes) each,
at image offsets 16384 and 20480. -/
def three_diff_sector : fat_boot_sector :=
  { plain_sector 1 2 with is_fat32 := true, fat32_size_in_sectors := 8 }

/-- An image whose first table has nonzero bytes at its indices 5, 10 and 4000 and
whose second table is zero. -/
def three_diff_image : Bytes := sparse_bytes 24576 [(16389, 1), (16394, 2), (20384, 3)]

/-- A geometry with 4096-byte sectors and 8 sectors per cluster (32768-byte clusters)
whose data region starts at image offset 0. -/
def wide_geometry : Globals := { bps := 4096, spc := 8, reserved_and_fats := 0 }

/-- The walker over `wrap_image` in `wide_geometry` with the hidden-data option on. -/
def wrap_walker : walker :=
  { img := wrap_image, g := wide_geometry, fat_bs := fat32_bs, fat1 := tiny_fat, h_flag := true }

/-- A boot sector classified FAT32 with 4096-byte sectors, 8 sectors per cluster,
32768 reserved sectors (the tables start at R = 2^27) and 524287 sectors in the FAT32
size field: each table has `2^31 - 4096` bytes, which one `pread` call transfers in
full. -/
def far_fat_sector : fat_boot_sector :=
  { fat_boot_sector.zero with
    is_fat32 := true, bytes_per_sector := 4096, sectors_per_cluster := 8,
    reserved_area_size := 32768, number_of_fats := 2, media_type := 0xF8,
    sector_count_32b := 1641342, fat32_size_in_sectors := 524287 }

/-- An image that holds the reserved area and the two tables of `far_fat_sector`
(`2^27 + 2 * (2^31 - 4096)` bytes) and is zero everywhere but at offset
`2^27 + 2013270016`, inside the first table. -/
def far_fat_image : Bytes :=
  { size := 4429176832, data := fun i => if i = 2147487744 then 1 else 0 }

/-- A directory of two clusters, 2 and 5 (image offsets 1024 and 2560 in `g512`).  The
first slot of cluster 5 holds `A.TXT` (cluster 3, 100 bytes), its second slot, at
directory offset 544 and image offset 2592, holds the directory `SUB` (cluster 4). -/
def two_cluster_dir : Bytes :=
  sparse_bytes 8192 (slot_bytes 2560 name_a 0x20 3 100 ++ slot_bytes 2592 name_sub 0x10 4 0)

/-- The chain [2, 5] positioned at directory offset 544, the second slot of its
second cluster. -/
def second_cluster_slot : read_parameters :=
  { start_cluster := 2, cluster_list := [2, 5], list_length := 2, entry_offset := 544 }

/-! ## Classification (`calc_fat_type`) -/

/-- The result of `calc_fat_type` in closed form: each flag is or-ed with its test
on the cluster count, every other field is untouched. -/
theorem calc_fat_type_eq (bps : Nat) (fat_sector : fat_boot_sector) :
    calc_fat_type bps fat_sector =
      (final_value bps fat_sector).map (fun v =>
        { fat_sector with
          is_fat12 := fat_sector.is_fat12 || decide (v < 4085),
          is_fat16 := fat_sector.is_fat16 || decide (4085 ≤ v ∧ v < 65525),
          is_fat32 := fat_sector.is_fat32 || decide (65525 ≤ v) }) := by
  unfold calc_fat_type
  cases hv : final_value bps fat_sector with
  | none => rfl
  | some v =>
    simp only [Option.map_some']
    by_cases h1 : v < 4085
    · have h2 : ¬ (v ≥ 4085 ∧ v < 65525) := by omega
      have h2' : ¬ (4085 ≤ v ∧ v < 65525) := by omega
      have h3 : ¬ (v ≥ 65525) := by omega
      have h3' : ¬ (65525 ≤ v) := by omega
      simp [h1, h2, h3, h2', h3']
    · by_cases h3 : v ≥ 65525
      · have h2 : ¬ (v ≥ 4085 ∧ v < 65525) := by omega
        have h2' : ¬ (4085 ≤ v ∧ v < 65525) := by omega
        have h3' : 65525 ≤ v := h3
        simp [h1, h2, h3, h2', h3']
      · have h2 : (v ≥ 4085 ∧ v < 65525) := by omega
        have h2' : (4085 ≤ v ∧ v < 65525) := by omega
        have h3' : ¬ 65525 ≤ v := h3
        simp [h1, h2, h3, h2', h3']

/-- The cluster count exists as soon as neither divisor is zero. -/
theorem final_value_eq_some (bps : Nat) (fat_sector : fat_boot_sector) (hbps : 0 < bps)
    (hspc : 0 < fat_sector.sectors_per_cluster) :
    final_value bps fat_sector
      = some (sectors_to_clusters bps fat_sector / fat_sector.sectors_per_cluster) := by
  unfold final_value
  rw [if_neg (by omega), if_neg (by omega)]

/-- C1: for every boot sector whose three type flags are initially false, with
bytes-per-sector > 0 and sectors-per-cluster > 0, `calc_fat_type` returns and sets
exactly one flag: `is_fat12` iff cluster_count < 4085, `is_fat16` iff
4085 ≤ cluster_count < 65525, `is_fat32` iff cluster_count ≥ 65525, where
cluster_count is the value `final_value` the function divides out. -/
theorem calc_fat_type_classification (bps : Nat) (fat_sector : fat_boot_sector)
    (h12 : fat_sector.is_fat12 = false) (h16 : fat_sector.is_fat16 = false)
    (h32 : fat_sector.is_fat32 = false) (hbps : 0 < bps)
    (hspc : 0 < fat_sector.sectors_per_cluster) :
    ∃ v s, final_value bps fat_sector = some v ∧ calc_fat_type bps fat_sector = some s ∧
      (s.is_fat12 = true ↔ v < 4085) ∧
      (s.is_fat16 = true ↔ 4085 ≤ v ∧ v < 65525) ∧
      (s.is_fat32 = true ↔ 65525 ≤ v) ∧
      s.is_fat12.toNat + s.is_fat16.toNat + s.is_fat32.toNat = 1 := by
  have hv := final_value_eq_some bps fat_sector hbps hspc
  refine ⟨_, _, hv, by rw [calc_fat_type_eq, hv]; rfl, ?_⟩
  generalize sectors_to_clusters bps fat_sector / fat_sector.sectors_per_cluster = v
  refine ⟨by simp [h12], by simp [h16], by simp [h32], ?_⟩
  simp only [h12, h16, h32, Bool.false_or]
  by_cases h1 : v < 4085
  · have h2 : ¬ (4085 ≤ v ∧ v < 65525) := by omega
    have h3 : ¬ (65525 ≤ v) := by omega
    simp [h1, h2, h3]
  · by_cases h3 : 65525 ≤ v
    · have h2 : ¬ (4085 ≤ v ∧ v < 65525) := by omega
      simp [h1, h2, h3]
    · have h2 : (4085 ≤ v ∧ v < 65525) := by omega
      simp [h1, h2, h3]

/-- C1 at a concrete boot sector: 4124 sectors give a cluster count of 4085. -/
theorem calc_fat_type_classification_witness :
    ((small_volume 4124).is_fat12 = false ∧ (small_volume 4124).is_fat16 = false ∧
      (small_volume 4124).is_fat32 = false ∧ 0 < 512 ∧
      0 < (small_volume 4124).sectors_per_cluster) ∧
    ∃ v s, final_value 512 (small_volume 4124) = some v ∧
      calc_fat_type 512 (small_volume 4124) = some s ∧
      (s.is_fat12 = true ↔ v < 4085) ∧
      (s.is_fat16 = true ↔ 4085 ≤ v ∧ v < 65525) ∧
      (s.is_fat32 = true ↔ 65525 ≤ v) ∧
      s.is_fat12.toNat + s.is_fat16.toNat + s.is_fat32.toNat = 1 :=
  ⟨⟨rfl, rfl, rfl, by decide, by decide⟩,
    calc_fat_type_classification 512 (small_volume 4124) rfl rfl rfl (by decide) (by decide)⟩

/-- The four boundary cluster counts of the classification, evaluated:
4084 is FAT12, 4085 and 65524 are FAT16, 65525 is FAT32. -/
theorem calc_fat_type_boundaries :
    final_value 512 (small_volume 4123) = some 4084 ∧
    calc_fat_type 512 (small_volume 4123) = some { small_volume 4123 with is_fat12 := true } ∧
    final_value 512 (small_volume 4124) = some 4085 ∧
    calc_fat_type 512 (small_volume 4124) = some { small_volume 4124 with is_fat16 := true } ∧
    final_value 512 (small_volume 65563) = some 65524 ∧
    calc_fat_type 512 (small_volume 65563)
      = some { small_volume 65563 with is_fat16 := true } ∧
    final_value 512 { small_volume 0 with sector_count_32b := 65564 } = some 65525 ∧
    calc_fat_type 512 { small_volume 0 with sector_count_32b := 65564 }
      = some { small_volume 0 with sector_count_32b := 65564, is_fat32 := true } := by
  refine ⟨?_, ?_, ?_, ?_, ?_, ?_, ?_, ?_⟩ <;> decide

/-- C2 (evaluation at the failing input): with 1000 in the 16-bit field and 1000000
in the 32-bit field, `calc_fat_type` subtracts from the 16-bit field, gets a cluster
count of 968 and sets `is_fat12`; the same boot sector with only the 32-bit field
populated has a cluster count of 999968 and is classified FAT32. -/
theorem calc_fat_type_conflicting_counts :
    conflicting_counts.sector_count_16b = 1000 ∧
    conflicting_counts.sector_count_32b = 1000000 ∧
    spec_sector_count conflicting_counts = 1000000 ∧
    selected_sector_count conflicting_counts = 1000 ∧
    final_value 512 conflicting_counts = some 968 ∧
    calc_fat_type 512 conflicting_counts = some { conflicting_counts with is_fat12 := true } ∧
    final_value 512 { conflicting_counts with sector_count_16b := 0 } = some 999968 ∧
    calc_fat_type 512 { conflicting_counts with sector_count_16b := 0 }
      = some { conflicting_counts with sector_count_16b := 0, is_fat32 := true } := by
  refine ⟨?_, ?_, ?_, ?_, ?_, ?_, ?_, ?_⟩ <;> decide

/-- The rounded-up quotient `(a + (b - 1)) / b` is the ceiling of `a / b`. -/
theorem ceil_div_eq (a b : Nat) (hb : 0 < b) :
    ⌈((a : Nat) : ℚ) / (b : ℚ)⌉₊ = (a + (b - 1)) / b := by
  have hbq : (0 : ℚ) < (b : ℚ) := by exact_mod_cast hb
  apply le_antisymm
  · rw [Nat.ceil_le, div_le_iff₀ hbq]
    have h : a ≤ (a + (b - 1)) / b * b := by
      have h1 := Nat.div_add_mod (a + (b - 1)) b
      have h2 := Nat.mod_lt (a + (b - 1)) hb
      have h3 : b * ((a + (b - 1)) / b) = (a + (b - 1)) / b * b := Nat.mul_comm _ _
      omega
    exact_mod_cast h
  · have h : (a : ℚ) / (b : ℚ) ≤ ((⌈((a : Nat) : ℚ) / (b : ℚ)⌉₊ : Nat) : ℚ) := Nat.le_ceil _
    rw [div_le_iff₀ hbq] at h
    have h' : a ≤ ⌈((a : Nat) : ℚ) / (b : ℚ)⌉₊ * b := by exact_mod_cast h
    generalize ⌈((a : Nat) : ℚ) / (b : ℚ)⌉₊ = n at h'
    have : (a + (b - 1)) / b < n + 1 := by
      rw [Nat.div_lt_iff_lt_mul hb]
      have : (n + 1) * b = n * b + b := by ring
      omega
    omega

/-- C3: for every boot sector (fields in the range of their C types, bps one of
512, 1024, 2048, 4096, sectors-per-cluster nonzero) in which exactly one of the two
sector-count fields is nonzero and reserved + FATs + root-directory sectors do not
exceed that count, the root-directory sector count is exactly
ceil(max_files_in_root * 32 / bps) and the cluster count of `calc_fat_type` is
floor((sector_count - reserved - number_of_fats * fat_size - root_dir_sectors) /
sectors_per_cluster). -/
theorem final_value_exact (bps : Nat) (fat_sector : fat_boot_sector)
    (hr : fat_sector.in_range)
    (hbps : bps = 512 ∨ bps = 1024 ∨ bps = 2048 ∨ bps = 4096)
    (hspc : 0 < fat_sector.sectors_per_cluster)
    (hone : (fat_sector.sector_count_16b ≠ 0 ∧ fat_sector.sector_count_32b = 0) ∨
      (fat_sector.sector_count_16b = 0 ∧ fat_sector.sector_count_32b ≠ 0))
    (hfit : fat_sector.reserved_area_size
        + fat_sector.number_of_fats * fat_sector.fat_size_in_sectors
        + spec_root_dir_sectors fat_sector.max_files_in_root bps
      ≤ spec_sector_count fat_sector) :
    selected_sector_count fat_sector = spec_sector_count fat_sector ∧
    root_dir_sectors bps fat_sector = spec_root_dir_sectors fat_sector.max_files_in_root bps ∧
    final_value bps fat_sector =
      some ((spec_sector_count fat_sector - fat_sector.reserved_area_size
          - fat_sector.number_of_fats * fat_sector.fat_size_in_sectors
          - spec_root_dir_sectors fat_sector.max_files_in_root bps)
        / fat_sector.sectors_per_cluster) := by
  obtain ⟨-, -, -, -, hmfr, h16, -, h32, -⟩ := hr
  have hb : 0 < bps := by omega
  have hsel : selected_sector_count fat_sector = spec_sector_count fat_sector := by
    unfold selected_sector_count spec_sector_count
    rcases hone with ⟨ha, hb⟩ | ⟨ha, hb⟩
    · rw [if_pos ha, if_neg (by simpa using hb)]
    · rw [if_neg (by simpa using ha), if_pos hb]
  have hsc : spec_sector_count fat_sector < 4294967296 := by
    unfold spec_sector_count
    split <;> omega
  have hrds : root_dir_sectors bps fat_sector
      = spec_root_dir_sectors fat_sector.max_files_in_root bps := by
    unfold root_dir_sectors spec_root_dir_sectors
    rw [ceil_div_eq _ _ hb, Nat.mod_eq_of_lt (by omega)]
  refine ⟨hsel, hrds, ?_⟩
  rw [final_value_eq_some bps fat_sector hb hspc]
  unfold sectors_to_clusters
  rw [hsel, hrds]
  congr 2
  generalize spec_root_dir_sectors fat_sector.max_files_in_root bps = r at hfit
  generalize spec_sector_count fat_sector = sc at hfit hsc
  generalize fat_sector.number_of_fats * fat_sector.fat_size_in_sectors = p at hfit
  omega

/-- C3 at a concrete boot sector (2880 sectors in the 16-bit field). -/
theorem final_value_exact_witness :
    ((small_volume 2880).in_range ∧
      ((512 : Nat) = 512 ∨ (512 : Nat) = 1024 ∨ (512 : Nat) = 2048 ∨ (512 : Nat) = 4096) ∧
      0 < (small_volume 2880).sectors_per_cluster ∧
      (((small_volume 2880).sector_count_16b ≠ 0 ∧ (small_volume 2880).sector_count_32b = 0) ∨
        ((small_volume 2880).sector_count_16b = 0 ∧
          (small_volume 2880).sector_count_32b ≠ 0)) ∧
      (small_volume 2880).reserved_area_size
          + (small_volume 2880).number_of_fats * (small_volume 2880).fat_size_in_sectors
          + spec_root_dir_sectors (small_volume 2880).max_files_in_root 512
        ≤ spec_sector_count (small_volume 2880)) ∧
    (selected_sector_count (small_volume 2880) = spec_sector_count (small_volume 2880) ∧
    root_dir_sectors 512 (small_volume 2880)
      = spec_root_dir_sectors (small_volume 2880).max_files_in_root 512 ∧
    final_value 512 (small_volume 2880) =
      some ((spec_sector_count (small_volume 2880) - (small_volume 2880).reserved_area_size
          - (small_volume 2880).number_of_fats * (small_volume 2880).fat_size_in_sectors
          - spec_root_dir_sectors (small_volume 2880).max_files_in_root 512)
        / (small_volume 2880).sectors_per_cluster)) := by
  have hr : (small_volume 2880).in_range := by
    unfold fat_boot_sector.in_range small_volume fat_boot_sector.zero
    decide
  have hrd : spec_root_dir_sectors (small_volume 2880).max_files_in_root 512 = 14 := by
    unfold spec_root_dir_sectors
    rw [ceil_div_eq _ _ (by decide)]
    decide
  have hfit : (small_volume 2880).reserved_area_size
          + (small_volume 2880).number_of_fats * (small_volume 2880).fat_size_in_sectors
          + spec_root_dir_sectors (small_volume 2880).max_files_in_root 512
        ≤ spec_sector_count (small_volume 2880) := by
    rw [hrd]
    decide
  exact ⟨⟨hr, Or.inl rfl, by decide, Or.inl ⟨by decide, rfl⟩, hfit⟩,
    final_value_exact 512 (small_volume 2880) hr (Or.inl rfl) (by decide)
      (Or.inl ⟨by decide, rfl⟩) hfit⟩

/-! ## Cluster to byte offset (`cts`) -/

/-- C4: for every geometry and every cluster ≥ 2,
`cts(cluster) = ((cluster - 2) * spc * bps + reserved_and_fats) mod 2^32`, and
`cts(2) = reserved_and_fats` (a `uint32_t` value). -/
theorem cts_formula (g : Globals) (cluster : Nat) (hc : 2 ≤ cluster)
    (hraf : g.reserved_and_fats < 4294967296) :
    cts g cluster = ((cluster - 2) * g.spc * g.bps + g.reserved_and_fats) % 4294967296 ∧
    cts g 2 = g.reserved_and_fats := by
  constructor
  · unfold cts
    have h1 : (cluster + 4294967296 - 2) % 4294967296 = (cluster - 2) % 4294967296 := by
      omega
    rw [h1, ← Nat.mul_mod, Nat.add_mod, Nat.mod_mod, ← Nat.add_mod, Nat.mul_assoc]
  · unfold cts
    simp
    omega

/-- C4 at a concrete geometry: cluster 5 of a volume with 512-byte sectors, 8
sectors per cluster and a data region starting at byte 16384. -/
theorem cts_formula_witness :
    (2 ≤ 5 ∧ (16384 : Nat) < 4294967296) ∧
    (cts { bps := 512, spc := 8, reserved_and_fats := 16384 } 5
        = ((5 - 2) * 8 * 512 + 16384) % 4294967296 ∧
      cts { bps := 512, spc := 8, reserved_and_fats := 16384 } 2 = 16384) :=
  ⟨⟨by decide, by decide⟩,
    cts_formula { bps := 512, spc := 8, reserved_and_fats := 16384 } 5 (by decide) (by decide)⟩

/-! ## Boot-sector decoding (`read_fat_boot_sector`) -/

/-- The `uint32_t` computation of `reserved_and_fats` is the exact sum reduced
modulo `2^32`. -/
theorem reserved_and_fats_mod (r f b n : Nat) :
    ((r * b) % 4294967296 + (((f * b) % 4294967296) * n) % 4294967296) % 4294967296
      = (r * b + f * b * n) % 4294967296 := by
  have h1 : (((f * b) % 4294967296) * n) % 4294967296 = (f * b * n) % 4294967296 := by
    rw [Nat.mul_mod, Nat.mod_mod, ← Nat.mul_mod]
  rw [h1, ← Nat.add_mod]

/-- What `publish_reserved_and_fats` leaves in the globals, by classification. -/
theorem publish_reserved_and_fats_spec (s : fat_boot_sector) (g : Globals) :
    (publish_reserved_and_fats s g).bps = g.bps ∧
    (publish_reserved_and_fats s g).spc = g.spc ∧
    (s.is_fat16 = true → (publish_reserved_and_fats s g).reserved_and_fats
        = (s.reserved_area_size * g.bps + s.fat_size_in_sectors * g.bps * s.number_of_fats)
            % 4294967296) ∧
    (s.is_fat16 = false → s.is_fat32 = true →
      (publish_reserved_and_fats s g).reserved_and_fats
        = (s.reserved_area_size * g.bps + s.fat32_size_in_sectors * g.bps * s.number_of_fats)
            % 4294967296) ∧
    (s.is_fat16 = false → s.is_fat32 = false →
      (publish_reserved_and_fats s g).reserved_and_fats = g.reserved_and_fats) := by
  unfold publish_reserved_and_fats
  cases h16 : s.is_fat16 <;> cases h32 : s.is_fat32 <;> simp [reserved_and_fats_mod]

/-- Every pass of the loop body of `read_disk` raises `cluster_list_index` by one. -/
theorem read_disk_body_index (g : Globals) (read : read_parameters)
    (length field_offset i idx : Nat) :
    (read_disk_body g read length field_offset i idx).2.2 = (idx + 1) % 4294967296 := by
  unfold read_disk_body
  split <;> rfl

/-- The fuel `list_length` given to `read_disk_loop` is never used up: more fuel
does not change the reads. -/
theorem read_disk_loop_fuel (g : Globals) (read : read_parameters) (length field_offset : Nat)
    (hl : read.list_length < 4294967296) :
    ∀ fuel i idx, read.list_length - idx ≤ fuel →
      read_disk_loop g read length field_offset (fuel + 1) i idx
        = read_disk_loop g read length field_offset fuel i idx := by
  intro fuel
  induction fuel with
  | zero =>
    intro i idx h
    have : ¬ (i > 0 ∧ idx < read.list_length) := by omega
    simp [read_disk_loop, this]
  | succ fuel ih =>
    intro i idx h
    rw [read_disk_loop, read_disk_loop]
    by_cases hg : i > 0 ∧ idx < read.list_length
    · rw [if_pos hg, if_pos hg]
      have hidx := read_disk_body_index g read length field_offset i idx
      have h1 : (idx + 1) % 4294967296 = idx + 1 := Nat.mod_eq_of_lt (by omega)
      simp only []
      rw [ih _ _ (by rw [hidx, h1]; omega)]
    · rw [if_neg hg, if_neg hg]

/-- C6 (evaluation at the failing input): a 20-byte read that starts 10 bytes before
the end of the first cluster of the chain [2, 5] is issued as a single `pread` of 20
bytes at image offset `cts(2) + 502`; `buffer[10]` receives the first byte of the
physically next sector 3, where the specification places the first byte of cluster 5. -/
theorem read_disk_ignores_cluster_boundary :
    read_disk_reads g512 two_cluster_chain 20 502
      = [{ index := 0, dst := 0, len := 20, delta := 502 }] ∧
    read_disk sector_stamp g512 (fun _ => 0) 20 502 two_cluster_chain
      = Run.ret (pread sector_stamp (fun _ => 0) 0 20 1526) ∧
    pread sector_stamp (fun _ => 0) 0 20 1526 9 = 2 ∧
    spec_read_byte sector_stamp g512 two_cluster_chain 502 9 = some 2 ∧
    pread sector_stamp (fun _ => 0) 0 20 1526 10 = 3 ∧
    spec_read_byte sector_stamp g512 two_cluster_chain 502 10 = some 5 := by
  refine ⟨by decide, rfl, by decide, by decide, by decide, by decide⟩

/-- C7 (evaluation at the failing inputs): for a 20-byte read at position 502 of a
512-byte cluster the first `pread` has length 20, not 10; for a 600-byte read at
position 500 the first `pread` has length `512 - 0 + 500 = 1012`, not 12.  The later
reads do start at the next clusters of the chain, 512 bytes each. -/
theorem read_disk_first_read_not_clipped :
    (read_disk_reads g512 two_cluster_chain 20 502).map disk_read.len = [20] ∧
    spec_first_read_len g512 (0 + 502) 20 = 10 ∧
    read_disk_reads g512 three_cluster_chain 600 0
      = [{ index := 0, dst := 0, len := 1012, delta := 500 },
         { index := 1, dst := 1012, len := 512, delta := 0 },
         { index := 2, dst := 1524, len := 512, delta := 0 }] ∧
    spec_first_read_len g512 (500 + 0) 600 = 12 := by
  refine ⟨by decide, by decide, by decide, by decide⟩

/-- C8 (evaluation at the failing inputs): reading the attribute byte of the slot
after the last one of a one-cluster directory (position 480 + 43 = 523) dereferences
`cluster_list[1]` although `list_length = 1`; and a 600-byte read at position 500 of
a three-cluster chain transfers 1012 + 512 + 512 = 2036 bytes. -/
theorem read_disk_overruns :
    one_cluster_chain.cluster_list.length = one_cluster_chain.list_length ∧
    one_cluster_chain.list_length = 1 ∧
    (read_disk_reads g512 one_cluster_chain 1 43).map disk_read.index = [1] ∧
    read_disk sector_stamp g512 (fun _ => 0) 1 43 one_cluster_chain = Run.oob ∧
    ((read_disk_reads g512 three_cluster_chain 600 0).map disk_read.len).sum = 2036 := by
  refine ⟨rfl, rfl, by decide, rfl, by decide⟩

/-! ## Chain length (`get_entry_size`) -/

/-- A chain that ends at the `n`-th lookup makes the loop of `get_entry_size` return
after `n` passes, as long as the `uint32_t` counter does not wrap. -/
theorem get_entry_size_loop_of_chain (fat_bs : fat_boot_sector) (fat1 : Bytes) :
    ∀ n c fuel size, chain_ends_at fat_bs fat1 c n → n ≤ fuel → size + n < 4294967296 →
      get_entry_size_loop fat_bs fat1 fuel c size = Run.ret (size + n) := by
  intro n
  induction n with
  | zero => intro c fuel size h; exact absurd h (by simp [chain_ends_at])
  | succ n ih =>
    intro c fuel size h hf hs
    obtain ⟨v, hv, hcase⟩ := h
    cases fuel with
    | zero => omega
    | succ fuel =>
      rw [get_entry_size_loop, hv]
      have hmod : (size + 1) % 4294967296 = size + 1 := Nat.mod_eq_of_lt (by omega)
      rcases hcase with ⟨hn, hge⟩ | ⟨hlt, hrest⟩
      · subst hn
        simp only [if_neg (not_lt.mpr hge), hmod]
      · simp only [if_pos hlt, hmod]
        rw [ih v fuel (size + 1) hrest (by omega) (by omega)]
        congr 1
        omega

/-- The lookup at which a chain ends is unique. -/
theorem chain_ends_at_unique (fat_bs : fat_boot_sector) (fat1 : Bytes) :
    ∀ n m c, chain_ends_at fat_bs fat1 c n → chain_ends_at fat_bs fat1 c m → n = m := by
  intro n
  induction n with
  | zero => intro m c h; exact absurd h (by simp [chain_ends_at])
  | succ n ih =>
    intro m c h h'
    cases m with
    | zero => exact absurd h' (by simp [chain_ends_at])
    | succ m =>
      obtain ⟨v, hv, hcase⟩ := h
      obtain ⟨w, hw, hcase'⟩ := h'
      rw [hv] at hw
      cases hw
      rcases hcase with ⟨hn, hge⟩ | ⟨hlt, hrest⟩
      · rcases hcase' with ⟨hm, _⟩ | ⟨hlt', _⟩
        · omega
        · omega
      · rcases hcase' with ⟨_, hge'⟩ | ⟨_, hrest'⟩
        · omega
        · rw [ih m v hrest hrest']

/-- The cluster of every lookup of a chain that ends: it exists, and the chain from
it ends after the remaining lookups. -/
theorem chain_at_of_chain_ends (fat_bs : fat_boot_sector) (fat1 : Bytes) (c n : Nat)
    (h : chain_ends_at fat_bs fat1 c n) :
    ∀ k, k < n → ∃ ck, chain_at fat_bs fat1 c k = some ck ∧
      chain_ends_at fat_bs fat1 ck (n - k) := by
  intro k
  induction k with
  | zero => intro _; exact ⟨c, rfl, h⟩
  | succ k ih =>
    intro hk
    obtain ⟨ck, hck, hrest⟩ := ih (by omega)
    obtain ⟨m, hm⟩ : ∃ m, n - k = m + 1 + 1 := ⟨n - k - 2, by omega⟩
    rw [hm] at hrest
    obtain ⟨v, hv, hcase⟩ := hrest
    rcases hcase with ⟨h0, _⟩ | ⟨_, hrest'⟩
    · omega
    · refine ⟨v, ?_, ?_⟩
      · simp [chain_at, hck, hv]
      · have : n - (k + 1) = m + 1 := by omega
        rw [this]
        exact hrest'

/-- The start cluster of a FAT32 chain that ends is an index into the table. -/
theorem chain_start_in_table (fat_bs : fat_boot_sector) (fat1 : Bytes) (c n : Nat)
    (h32 : fat_bs.is_fat32 = true) (h : chain_ends_at fat_bs fat1 c n) :
    c < fat1.size / 4 := by
  cases n with
  | zero => exact absurd h (by simp [chain_ends_at])
  | succ n =>
    obtain ⟨v, hv, _⟩ := h
    unfold read_alloctable at hv
    rw [if_pos h32] at hv
    by_cases hin : 4 * c + 4 ≤ fat1.size
    · omega
    · rw [if_neg hin] at hv
      cases hv

/-- A FAT32 chain that ends visits pairwise distinct table entries, so it is no
longer than the table. -/
theorem chain_length_le_table (fat_bs : fat_boot_sector) (fat1 : Bytes) (c n : Nat)
    (h32 : fat_bs.is_fat32 = true) (h : chain_ends_at fat_bs fat1 c n) :
    n ≤ fat1.size / 4 := by
  have key := chain_at_of_chain_ends fat_bs fat1 c n h
  have hcard := Finset.card_le_card_of_injOn (s := Finset.range n)
    (t := Finset.range (fat1.size / 4)) (fun k => (chain_at fat_bs fat1 c k).getD 0)
    (by
      intro k hk
      obtain ⟨ck, hck, hrest⟩ := key k (Finset.mem_range.mp hk)
      simp only [hck, Option.getD_some, Finset.mem_range]
      exact chain_start_in_table fat_bs fat1 ck _ h32 hrest)
    (by
      intro i hi j hj hij
      have hi' : i < n := Finset.mem_range.mp hi
      have hj' : j < n := Finset.mem_range.mp hj
      obtain ⟨ci, hci, hri⟩ := key i hi'
      obtain ⟨cj, hcj, hrj⟩ := key j hj'
      simp only [hci, hcj, Option.getD_some] at hij
      subst hij
      have := chain_ends_at_unique fat_bs fat1 _ _ _ hri hrj
      omega)
  simpa using hcard

/-- C9: for every FAT32 table (a buffer whose size is a `uint32_t`) and start cluster
`c` such that following successor entries from `c` first reads an entry
≥ 0x0FFFFFF8 at the `n`-th lookup (n ≥ 1), `get_entry_size(c)` returns `n` (given
fuel for `n` lookups); in particular it returns 1 when the entry of `c` itself is
≥ 0x0FFFFFF8. -/
theorem get_entry_size_chain_length (fat_bs : fat_boot_sector) (fat1 : Bytes) (c n : Nat)
    (h32 : fat_bs.is_fat32 = true) (hsize : fat1.size < 4294967296) (hn : 1 ≤ n)
    (h : chain_ends_at fat_bs fat1 c n) :
    (∀ fuel, n ≤ fuel → get_entry_size fuel fat_bs fat1 c = Run.ret n) ∧
    (∀ v, read_alloctable fat_bs fat1 c = some v → FAT32_EOF ≤ v →
      n = 1 ∧ ∀ fuel, 1 ≤ fuel → get_entry_size fuel fat_bs fat1 c = Run.ret 1) := by
  have hle := chain_length_le_table fat_bs fat1 c n h32 h
  have hret : ∀ fuel, n ≤ fuel → get_entry_size fuel fat_bs fat1 c = Run.ret n := by
    intro fuel hf
    unfold get_entry_size
    rw [if_pos h32, get_entry_size_loop_of_chain fat_bs fat1 n c fuel 0 h hf (by omega)]
    simp
  refine ⟨hret, ?_⟩
  intro v hv hge
  have h1 : chain_ends_at fat_bs fat1 c 1 := ⟨v, hv, Or.inl ⟨rfl, hge⟩⟩
  have hn1 : n = 1 := chain_ends_at_unique fat_bs fat1 _ _ _ h h1
  subst hn1
  exact ⟨rfl, hret⟩

/-- C9 at a concrete table: the two-cluster chain 2 → 3 → end of `short_chain_fat`. -/
theorem get_entry_size_chain_length_witness :
    (fat32_bs.is_fat32 = true ∧ short_chain_fat.size < 4294967296 ∧ 1 ≤ 2 ∧
      chain_ends_at fat32_bs short_chain_fat 2 2) ∧
    ((∀ fuel, 2 ≤ fuel → get_entry_size fuel fat32_bs short_chain_fat 2 = Run.ret 2) ∧
    (∀ v, read_alloctable fat32_bs short_chain_fat 2 = some v → FAT32_EOF ≤ v →
      2 = 1 ∧ ∀ fuel, 1 ≤ fuel → get_entry_size fuel fat32_bs short_chain_fat 2 = Run.ret 1)) :=
  have hchain : chain_ends_at fat32_bs short_chain_fat 2 2 :=
    ⟨3, by decide, Or.inr ⟨by decide, ⟨0x0FFFFFFF, by decide, Or.inl ⟨rfl, by decide⟩⟩⟩⟩
  ⟨⟨rfl, by decide, by decide, hchain⟩,
    get_entry_size_chain_length fat32_bs short_chain_fat 2 2 rfl (by decide) (by decide) hchain⟩

/-- The chain lengths of `short_chain_fat`, evaluated: the file starting at cluster 2
has two clusters, the synthetic one-cluster file at cluster 4 has length 1. -/
theorem get_entry_size_examples :
    get_entry_size 10 fat32_bs short_chain_fat 2 = Run.ret 2 ∧
    read_alloctable fat32_bs short_chain_fat 4 = some 0x0FFFFFF8 ∧
    get_entry_size 10 fat32_bs short_chain_fat 4 = Run.ret 1 := by
  refine ⟨by decide, by decide, by decide⟩

/-- On `self_loop_fat` the loop of `get_entry_size` started at cluster 2 uses up any
amount of fuel. -/
theorem get_entry_size_loop_self_loop :
    ∀ fuel size, get_entry_size_loop fat32_bs self_loop_fat fuel 2 size = Run.out_of_fuel := by
  intro fuel
  induction fuel with
  | zero => intro size; rfl
  | succ fuel ih =>
    intro size
    have hv : read_alloctable fat32_bs self_loop_fat 2 = some 2 := by decide
    rw [get_entry_size_loop, hv]
    simp only [if_pos (show 2 < FAT32_EOF by decide)]
    exact ih _

/-- C10 (counterexample): in `self_loop_fat` the start cluster 2 is inside the table
and its entry names cluster 2 itself; `get_entry_size` does not return there, whatever
number of lookups it is given. -/
theorem get_entry_size_cycle_counterexample :
    (4 * 2 + 4 ≤ self_loop_fat.size ∧ read_alloctable fat32_bs self_loop_fat 2 = some 2) ∧
    (∀ fuel, get_entry_size fuel fat32_bs self_loop_fat 2 = Run.out_of_fuel) ∧
    ¬ ∃ fuel n, get_entry_size fuel fat32_bs self_loop_fat 2 = Run.ret n := by
  have hloop : ∀ fuel, get_entry_size fuel fat32_bs self_loop_fat 2 = Run.out_of_fuel := by
    intro fuel
    unfold get_entry_size
    rw [if_pos (show fat32_bs.is_fat32 = true from rfl)]
    exact get_entry_size_loop_self_loop fuel 0
  refine ⟨⟨by decide, by decide⟩, hloop, ?_⟩
  rintro ⟨fuel, n, h⟩
  rw [hloop fuel] at h
  cases h

/-- With less fuel than the chain has lookups, the loop of `get_entry_size` runs out
of fuel. -/
theorem get_entry_size_loop_short (fat_bs : fat_boot_sector) (fat1 : Bytes) :
    ∀ n c fuel size, chain_ends_at fat_bs fat1 c n → fuel < n →
      get_entry_size_loop fat_bs fat1 fuel c size = Run.out_of_fuel := by
  intro n
  induction n with
  | zero => intro c fuel size h; exact absurd h (by simp [chain_ends_at])
  | succ n ih =>
    intro c fuel size h hf
    cases fuel with
    | zero => rfl
    | succ fuel =>
      obtain ⟨v, hv, hcase⟩ := h
      rw [get_entry_size_loop, hv]
      rcases hcase with ⟨hn, _⟩ | ⟨hlt, hrest⟩
      · omega
      · simp only [if_pos hlt]
        exact ih v fuel _ hrest (by omega)

/-- A start cluster that belongs to a set of clusters closed under the successor
relation, each with its entry inside the table and below the sentinel: the loop of
`get_entry_size` uses up any amount of fuel. -/
theorem get_entry_size_loop_cycle (fat_bs : fat_boot_sector) (fat1 : Bytes) (cyc : List Nat)
    (hcyc : ∀ d, d ∈ cyc →
      ∃ v, read_alloctable fat_bs fat1 d = some v ∧ v < FAT32_EOF ∧ v ∈ cyc) :
    ∀ fuel c size, c ∈ cyc →
      get_entry_size_loop fat_bs fat1 fuel c size = Run.out_of_fuel := by
  intro fuel
  induction fuel with
  | zero => intro c size _; rfl
  | succ fuel ih =>
    intro c size hc
    obtain ⟨v, hv, hlt, hmem⟩ := hcyc c hc
    rw [get_entry_size_loop, hv]
    simp only [if_pos hlt]
    exact ih v _ hmem

/-- C10 (amended): for every FAT32 table (a buffer whose size is a `uint32_t`) and
every start cluster from which following successor entries reaches an entry
≥ 0x0FFFFFF8 inside the table at the `n`-th lookup, `get_entry_size` returns after
exactly `n` lookups (it returns `n` for every fuel ≥ n and runs out of fuel below);
on a table whose successor entries form a cycle (the start cluster belongs to a set
of clusters closed under the successor relation, each entry inside the table and
below the sentinel), such as an entry that names its own cluster, it does not return,
whatever number of lookups it is given. -/
theorem get_entry_size_returns (fat_bs : fat_boot_sector) (fat1 : Bytes) (c : Nat)
    (h32 : fat_bs.is_fat32 = true) (hsize : fat1.size < 4294967296) :
    (∀ n, chain_ends_at fat_bs fat1 c n →
      (∀ fuel, n ≤ fuel → get_entry_size fuel fat_bs fat1 c = Run.ret n) ∧
      ∀ fuel, fuel < n → get_entry_size fuel fat_bs fat1 c = Run.out_of_fuel) ∧
    (∀ cyc : List Nat, c ∈ cyc →
      (∀ d, d ∈ cyc →
        ∃ v, read_alloctable fat_bs fat1 d = some v ∧ v < FAT32_EOF ∧ v ∈ cyc) →
      ∀ fuel, get_entry_size fuel fat_bs fat1 c = Run.out_of_fuel) := by
  have hret : ∀ n, chain_ends_at fat_bs fat1 c n → ∀ fuel, n ≤ fuel →
      get_entry_size fuel fat_bs fat1 c = Run.ret n := by
    intro n h fuel hf
    have hle := chain_length_le_table fat_bs fat1 c n h32 h
    unfold get_entry_size
    rw [if_pos h32, get_entry_size_loop_of_chain fat_bs fat1 n c fuel 0 h hf (by omega)]
    simp
  refine ⟨?_, ?_⟩
  · intro n h
    refine ⟨hret n h, ?_⟩
    intro fuel hf
    unfold get_entry_size
    rw [if_pos h32]
    exact get_entry_size_loop_short fat_bs fat1 n c fuel 0 h hf
  · intro cyc hc hcyc fuel
    unfold get_entry_size
    rw [if_pos h32]
    exact get_entry_size_loop_cycle fat_bs fat1 cyc hcyc fuel c 0 hc

/-- C10 (amended) at a concrete table: the two-cluster chain of `short_chain_fat`. -/
theorem get_entry_size_returns_witness :
    (fat32_bs.is_fat32 = true ∧ short_chain_fat.size < 4294967296) ∧
    ((∀ n, chain_ends_at fat32_bs short_chain_fat 2 n →
      (∀ fuel, n ≤ fuel → get_entry_size fuel fat32_bs short_chain_fat 2 = Run.ret n) ∧
      ∀ fuel, fuel < n → get_entry_size fuel fat32_bs short_chain_fat 2 = Run.out_of_fuel) ∧
    (∀ cyc : List Nat, 2 ∈ cyc →
      (∀ d, d ∈ cyc →
        ∃ v, read_alloctable fat32_bs short_chain_fat d = some v ∧ v < FAT32_EOF ∧ v ∈ cyc) →
      ∀ fuel, get_entry_size fuel fat32_bs short_chain_fat 2 = Run.out_of_fuel)) :=
  ⟨⟨rfl, by decide⟩, get_entry_size_returns fat32_bs short_chain_fat 2 rfl (by decide)⟩

/-- The two cases of the chain walk at concrete tables: the chain of cluster 2 in
`short_chain_fat` ends at the second lookup, and in `self_loop_fat` the set {2} is
closed under the successor relation. -/
theorem get_entry_size_cases :
    chain_ends_at fat32_bs short_chain_fat 2 2 ∧
    (∀ d, d ∈ [2] →
      ∃ v, read_alloctable fat32_bs self_loop_fat d = some v ∧ v < FAT32_EOF ∧ v ∈ [2]) := by
  constructor
  · exact ⟨3, by decide, Or.inr ⟨by decide, 0x0FFFFFFF, by decide, Or.inl ⟨rfl, by decide⟩⟩⟩
  · intro d hd
    rw [List.mem_singleton] at hd
    subst hd
    exact ⟨2, by decide, by decide, List.mem_singleton.mpr rfl⟩

/-! ## Chain materialisation (`get_cluster_list`, `get_last_cluster`) -/

@[simp] theorem Run.ret_bind {α β : Type} (a : α) (f : α → Run β) :
    (Run.ret a).bind f = f a := rfl

@[simp] theorem Run.map_ret {α β : Type} (f : α → β) (a : α) :
    (Run.ret a).map f = Run.ret (f a) := rfl

/-- A sequence of two calls returns exactly when both calls return. -/
theorem Run.bind_eq_ret {α β : Type} (r : Run α) (f : α → Run β) (b : β) :
    r.bind f = Run.ret b ↔ ∃ a, r = Run.ret a ∧ f a = Run.ret b := by
  cases r with
  | ret a => simp
  | oob => simp [Run.bind]
  | div_zero => simp [Run.bind]
  | out_of_fuel => simp [Run.bind]

/-- Storing at one index of an array leaves the other indices as they were. -/
theorem get?_set_other (l : List Nat) (i j a : Nat) (h : i ≠ j) :
    (l.set i a).get? j = l.get? j := by
  simp [List.getElem?_set_ne h]

/-- Storing at an index inside an array puts the value there. -/
theorem get?_set_same (l : List Nat) (i a : Nat) (h : i < l.length) :
    (l.set i a).get? i = some a := by
  simp [h]

/-- Following a chain one lookup further from its start. -/
theorem chain_at_succ (fat_bs : fat_boot_sector) (fat1 : Bytes) (c v : Nat)
    (hv : read_alloctable fat_bs fat1 c = some v) :
    ∀ k, chain_at fat_bs fat1 c (k + 1) = chain_at fat_bs fat1 v k := by
  intro k
  induction k with
  | zero => simp [chain_at, hv]
  | succ k ih => rw [chain_at, ih, chain_at]

/-- The loop of `get_cluster_list` on a chain that ends after `m` more lookups, with
room for exactly those clusters: it returns, keeps the entries below `size` and stores
the clusters of the chain from `size` on. -/
theorem get_cluster_list_loop_spec (fat_bs : fat_boot_sector) (fat1 : Bytes) (n : Nat)
    (hn : n < 4294967296) :
    ∀ m ck size fuel (cl : List Nat), chain_ends_at fat_bs fat1 ck m → size + m = n →
      cl.length = n → m ≤ fuel →
      ∃ l, get_cluster_list_loop fat_bs fat1 n fuel ck size cl = Run.ret l ∧ l.length = n ∧
        (∀ j, j < size → l.get? j = cl.get? j) ∧
        (∀ j, j < m → l.get? (size + j) = chain_at fat_bs fat1 ck j) := by
  intro m
  induction m with
  | zero => intro ck size fuel cl h; exact absurd h (by simp [chain_ends_at])
  | succ m ih =>
    intro ck size fuel cl h hsum hlen hfuel
    obtain ⟨v, hv, hcase⟩ := h
    cases fuel with
    | zero => omega
    | succ fuel =>
      have hin : size < cl.length := by omega
      have hmod : (size + 1) % 4294967296 = size + 1 := Nat.mod_eq_of_lt (by omega)
      rw [get_cluster_list_loop, if_pos hin, hv]
      simp only [hmod]
      rcases hcase with ⟨hm, hge⟩ | ⟨hlt, hrest⟩
      · subst hm
        have hg : ¬ (v < FAT32_EOF ∧ size + 1 < n) := by omega
        rw [if_neg hg]
        refine ⟨_, rfl, by simp [hlen], ?_, ?_⟩
        · intro j hj
          rw [get?_set_other _ _ _ _ (by omega)]
        · intro j hj
          have : j = 0 := by omega
          subst this
          exact get?_set_same _ _ _ hin
      · have hm1 : 1 ≤ m := by
          cases m with
          | zero => exact absurd hrest (by simp [chain_ends_at])
          | succ m => omega
        have hg : v < FAT32_EOF ∧ size + 1 < n := ⟨hlt, by omega⟩
        rw [if_pos hg]
        obtain ⟨l, hl, hll, hlow, hhigh⟩ :=
          ih v (size + 1) fuel (cl.set size ck) hrest (by omega) (by simp [hlen]) (by omega)
        refine ⟨l, hl, hll, ?_, ?_⟩
        · intro j hj
          rw [hlow j (by omega), get?_set_other _ _ _ _ (by omega)]
        · intro j hj
          cases j with
          | zero =>
            rw [Nat.add_zero, hlow size (by omega)]
            exact get?_set_same _ _ _ hin
          | succ j =>
            rw [chain_at_succ fat_bs fat1 ck v hv j, ← hhigh j (by omega)]
            congr 1
            omega

/-- C11: for every FAT32 table (a buffer whose size is a `uint32_t`) and start cluster
`c` whose chain reaches an end marker at the `n`-th lookup, `get_entry_size(c)` is
`n`, and with `list_length = n` (and an array of `n` entries) `get_cluster_list`
returns with `cluster_list[0] = c`, `cluster_list[k+1] = read_alloctable(cluster_list[k])`
for every `k + 1 < n` and `read_alloctable(cluster_list[n-1]) ≥ 0x0FFFFFF8`;
`get_last_cluster(c)` returns `cluster_list[n-1]`. -/
theorem get_cluster_list_chain (fat_bs : fat_boot_sector) (fat1 : Bytes) (c n : Nat)
    (cl0 : List Nat) (entry_offset : Nat)
    (h32 : fat_bs.is_fat32 = true) (hsize : fat1.size < 4294967296)
    (h : chain_ends_at fat_bs fat1 c n) (hlen : cl0.length = n) :
    get_entry_size n fat_bs fat1 c = Run.ret n ∧
    ∃ l last,
      get_cluster_list fat_bs fat1
          { start_cluster := c, cluster_list := cl0, list_length := n,
            entry_offset := entry_offset }
        = Run.ret { start_cluster := c, cluster_list := l, list_length := n,
                    entry_offset := entry_offset } ∧
      l.length = n ∧ l.get? 0 = some c ∧
      (∀ k, k + 1 < n → ∃ a, l.get? k = some a ∧
        l.get? (k + 1) = read_alloctable fat_bs fat1 a) ∧
      l.get? (n - 1) = some last ∧
      (∃ v, read_alloctable fat_bs fat1 last = some v ∧ FAT32_EOF ≤ v) ∧
      ∀ fuel, n ≤ fuel → get_last_cluster fuel fat_bs fat1 c = Run.ret last := by
  have hle := chain_length_le_table fat_bs fat1 c n h32 h
  have hn : n < 4294967296 := by omega
  have hn1 : 1 ≤ n := by
    cases n with
    | zero => exact absurd h (by simp [chain_ends_at])
    | succ n => omega
  have hsz : ∀ fuel, n ≤ fuel → get_entry_size fuel fat_bs fat1 c = Run.ret n := by
    intro fuel hf
    unfold get_entry_size
    rw [if_pos h32, get_entry_size_loop_of_chain fat_bs fat1 n c fuel 0 h hf (by omega)]
    simp
  have key := chain_at_of_chain_ends fat_bs fat1 c n h
  have hspec : ∀ cl : List Nat, cl.length = n →
      ∃ l, get_cluster_list_loop fat_bs fat1 n (n + 1) c 0 cl = Run.ret l ∧ l.length = n ∧
        (∀ j, j < n → l.get? j = chain_at fat_bs fat1 c j) := by
    intro cl hcl
    obtain ⟨l, hl, hll, -, hhigh⟩ :=
      get_cluster_list_loop_spec fat_bs fat1 n hn n c 0 (n + 1) cl h (by omega) hcl (by omega)
    refine ⟨l, hl, hll, ?_⟩
    intro j hj
    have := hhigh j hj
    rwa [Nat.zero_add] at this
  obtain ⟨l, hl, hll, hget⟩ := hspec cl0 hlen
  obtain ⟨last, hlast, hend⟩ := key (n - 1) (by omega)
  have hend1 : chain_ends_at fat_bs fat1 last 1 := by
    have : n - (n - 1) = 1 := by omega
    rwa [this] at hend
  refine ⟨hsz n (Nat.le_refl n), l, last, ?_, hll, ?_, ?_, ?_, ?_, ?_⟩
  · simp [get_cluster_list, hl]
  · rw [hget 0 (by omega)]; rfl
  · intro k hk
    obtain ⟨a, ha, _⟩ := key k (by omega)
    refine ⟨a, by rw [hget k (by omega), ha], ?_⟩
    rw [hget (k + 1) hk, chain_at, ha]
    rfl
  · rw [hget (n - 1) (by omega), hlast]
  · obtain ⟨v, hv, hcase⟩ := hend1
    rcases hcase with ⟨_, hge⟩ | ⟨_, hrest⟩
    · exact ⟨v, hv, hge⟩
    · exact absurd hrest (by simp [chain_ends_at])
  · intro fuel hf
    obtain ⟨l', hl', hll', hget'⟩ := hspec (List.replicate n 0) (by simp)
    have hidx : (n + 4294967296 - 1) % 4294967296 = n - 1 := by omega
    simp only [get_last_cluster, hsz fuel hf, Run.ret_bind, get_cluster_list, hl', Run.map_ret,
      hidx]
    rw [hget' (n - 1) (by omega), hlast]

/-- C11 at a concrete table: the chain 2 → 3 → end of `short_chain_fat`. -/
theorem get_cluster_list_chain_witness :
    (fat32_bs.is_fat32 = true ∧ short_chain_fat.size < 4294967296 ∧
      chain_ends_at fat32_bs short_chain_fat 2 2 ∧ [0, 0].length = 2) ∧
    (get_entry_size 2 fat32_bs short_chain_fat 2 = Run.ret 2 ∧
    ∃ l last,
      get_cluster_list fat32_bs short_chain_fat
          { start_cluster := 2, cluster_list := [0, 0], list_length := 2, entry_offset := 0 }
        = Run.ret { start_cluster := 2, cluster_list := l, list_length := 2,
                    entry_offset := 0 } ∧
      l.length = 2 ∧ l.get? 0 = some 2 ∧
      (∀ k, k + 1 < 2 → ∃ a, l.get? k = some a ∧
        l.get? (k + 1) = read_alloctable fat32_bs short_chain_fat a) ∧
      l.get? (2 - 1) = some last ∧
      (∃ v, read_alloctable fat32_bs short_chain_fat last = some v ∧ FAT32_EOF ≤ v) ∧
      ∀ fuel, 2 ≤ fuel → get_last_cluster fuel fat32_bs short_chain_fat 2 = Run.ret last) :=
  have hchain : chain_ends_at fat32_bs short_chain_fat 2 2 :=
    ⟨3, by decide, Or.inr ⟨by decide, ⟨0x0FFFFFFF, by decide, Or.inl ⟨rfl, by decide⟩⟩⟩⟩
  ⟨⟨rfl, by decide, hchain, rfl⟩,
    get_cluster_list_chain fat32_bs short_chain_fat 2 2 [0, 0] 0 rfl (by decide) hchain rfl⟩

/-- The chain of `short_chain_fat` materialised, evaluated: the list is [2, 3] and the
last cluster is 3. -/
theorem get_cluster_list_example :
    (get_cluster_list fat32_bs short_chain_fat
        { start_cluster := 2, cluster_list := [0, 0], list_length := 2,
          entry_offset := 0 }).map read_parameters.cluster_list = Run.ret [2, 3] ∧
    get_last_cluster 5 fat32_bs short_chain_fat 2 = Run.ret 3 := by
  refine ⟨by decide, by decide⟩

/-- The fuel `list_length + 1` given to the loop of `get_cluster_list` is never used
up: the loop stops by itself once `size` reaches `list_length`. -/
theorem get_cluster_list_loop_fuel (fat_bs : fat_boot_sector) (fat1 : Bytes) (list_length : Nat)
    (hl : list_length < 4294967296) :
    ∀ fuel next_cluster size (cl : List Nat), 1 ≤ fuel → list_length ≤ size + fuel →
      (size < list_length ∨ size = 0) →
      get_cluster_list_loop fat_bs fat1 list_length fuel next_cluster size cl
        ≠ Run.out_of_fuel := by
  intro fuel
  induction fuel with
  | zero => intro _ _ _ h; omega
  | succ fuel ih =>
    intro next_cluster size cl _ hle hsz
    rw [get_cluster_list_loop]
    by_cases hin : size < cl.length
    · rw [if_pos hin]
      cases hv : read_alloctable fat_bs fat1 next_cluster with
      | none => simp
      | some v =>
        have hmod : (size + 1) % 4294967296 = size + 1 := Nat.mod_eq_of_lt (by omega)
        simp only [hmod]
        by_cases hg : v < FAT32_EOF ∧ size + 1 < list_length
        · rw [if_pos hg]
          exact ih v (size + 1) _ (by omega) (by omega) (Or.inl hg.2)
        · rw [if_neg hg]
          simp
    · rw [if_neg hin]
      simp

/-! ## Table lookup (`read_alloctable`) -/

/-- C12: for every primary FAT buffer and in-range cluster number `c`,
`read_alloctable(c)` returns the little-endian 32-bit value at bytes `[4c, 4c+4)` of
the primary buffer, all 32 bits of it, when `is_fat32` is set; the little-endian
16-bit value at bytes `[2c, 2c+2)`, zero-extended, when only `is_fat16` is set; and 0
when neither is set (FAT12).  The result is the same whatever the secondary copy
holds. -/
theorem read_alloctable_value (fat_bs : fat_boot_sector) (t : fat_copies) (c : Nat) :
    (fat_bs.is_fat32 = true → 4 * c + 4 ≤ t.fat1.size →
      read_alloctable fat_bs t.fat1 c
        = some (t.fat1.byte (4 * c) + 256 * t.fat1.byte (4 * c + 1)
            + 65536 * t.fat1.byte (4 * c + 2) + 16777216 * t.fat1.byte (4 * c + 3))) ∧
    (fat_bs.is_fat32 = false → fat_bs.is_fat16 = true → 2 * c + 2 ≤ t.fat1.size →
      read_alloctable fat_bs t.fat1 c
        = some (t.fat1.byte (2 * c) + 256 * t.fat1.byte (2 * c + 1)) ∧
      t.fat1.byte (2 * c) + 256 * t.fat1.byte (2 * c + 1) < 65536) ∧
    (fat_bs.is_fat32 = false → fat_bs.is_fat16 = false →
      read_alloctable fat_bs t.fat1 c = some 0) ∧
    (∀ t' : fat_copies, t'.fat1 = t.fat1 →
      read_alloctable fat_bs t'.fat1 c = read_alloctable fat_bs t.fat1 c) := by
  refine ⟨?_, ?_, ?_, ?_⟩
  · intro h32 hin
    simp [read_alloctable, h32, hin, le32]
  · intro h32 h16 hin
    refine ⟨by simp [read_alloctable, h32, h16, hin, le16], ?_⟩
    have h1 : t.fat1.byte (2 * c) < 256 := Nat.mod_lt _ (by decide)
    have h2 : t.fat1.byte (2 * c + 1) < 256 := Nat.mod_lt _ (by decide)
    omega
  · intro h32 h16
    simp [read_alloctable, h32, h16]
  · intro t' h
    rw [h]

/-- C12 at concrete tables: entry 4 of `short_chain_fat` read as FAT32 keeps its top
four bits (0x0FFFFFF8), the same bytes read as FAT16 give entry 4 = 3, and the
secondary copy is irrelevant. -/
theorem read_alloctable_value_witness :
    (fat32_bs.is_fat32 = true ∧ 4 * 4 + 4 ≤ short_chain_fat.size) ∧
    read_alloctable fat32_bs short_chain_fat 4 = some 0x0FFFFFF8 ∧
    read_alloctable { fat_boot_sector.zero with is_fat16 := true } short_chain_fat 4 = some 3 ∧
    read_alloctable fat_boot_sector.zero short_chain_fat 4 = some 0 ∧
    read_alloctable fat32_bs short_chain_fat 4
      = some (short_chain_fat.byte (4 * 4) + 256 * short_chain_fat.byte (4 * 4 + 1)
          + 65536 * short_chain_fat.byte (4 * 4 + 2)
          + 16777216 * short_chain_fat.byte (4 * 4 + 3)) :=
  ⟨⟨rfl, by decide⟩, by decide, by decide, by decide,
    (read_alloctable_value fat32_bs { fat1 := short_chain_fat, fat2 := self_loop_fat } 4).1
      rfl (by decide)⟩

/-! ## Reads that fit in one cluster -/

/-- Once nothing is outstanding the loop of `read_disk` issues no further read. -/
theorem read_disk_loop_done (g : Globals) (read : read_parameters) (length field_offset : Nat)
    (fuel idx : Nat) : read_disk_loop g read length field_offset fuel 0 idx = [] := by
  cases fuel <;> simp [read_disk_loop]

/-- A `read_disk` call for no more bytes than a cluster holds issues exactly one
`pread`, of the whole length, at `read_disk_offset`. -/
theorem read_disk_single (img : Bytes) (g : Globals) (buffer : Nat → Nat)
    (length field_offset : Nat) (read : read_parameters)
    (hC : cluster_bytes g ≠ 0) (hlen : length ≤ cluster_bytes g) :
    read_disk img g buffer length field_offset read =
      match read_disk_offset g read field_offset with
      | none => Run.oob
      | some off => Run.ret (pread img buffer 0 length off) := by
  have hnot : ¬ length > cluster_bytes g := by omega
  have hdst : (length + 4294967296 - length) % 4294967296 = 0 := by
    rw [Nat.add_sub_cancel_left]
  unfold read_disk read_disk_reads read_disk_body read_disk_offset
  simp only [if_neg hC, if_true, if_neg hnot, hdst, read_disk_loop_done, read_disk_apply]
  cases read.cluster_list.get?
      (((field_offset + read.entry_offset) % 4294967296) / cluster_bytes g) with
  | none => rfl
  | some c => rfl

/-- A one-byte `read_disk` into a 32-bit variable that holds an octet: the variable
receives the image byte at `read_disk_offset`, or keeps its value when that offset is
past the end of the image. -/
theorem read_disk_var_byte (img : Bytes) (g : Globals) (old field_offset : Nat)
    (read : read_parameters) (hC : cluster_bytes g ≠ 0) (hold : old < 256) :
    read_disk_var img g old 4 1 field_offset read =
      match read_disk_offset g read field_offset with
      | none => Run.oob
      | some off => Run.ret (if off < img.size then img.byte off else old) := by
  unfold read_disk_var
  rw [read_disk_single img g _ 1 field_offset read hC (by omega)]
  cases read_disk_offset g read field_offset with
  | none => rfl
  | some off =>
    have hb : img.byte off % 256 = img.byte off := by
      unfold Bytes.byte
      omega
    have h1 : old / 256 = 0 := by omega
    have h2 : old / 65536 = 0 := by omega
    have h3 : old / 16777216 = 0 := by omega
    have h0 : old % 256 = old := by omega
    by_cases hin : off < img.size
    · simp [Run.map, var_value, pread, MAX_RW_COUNT, var_bytes, hin, hb, h1, h2, h3]
    · simp [Run.map, var_value, pread, MAX_RW_COUNT, var_bytes, hin, h1, h2, h3, h0]

/-! ## Skipping long-file-name slots (`walk_lfn_entries`) -/

/-- The loop of `walk_lfn_entries` about to probe slot `j`, when the `m` slots from
`j` on deliver the attribute 0x0F and slot `j + m` delivers something else: it
returns the offset of slot `j + m`. -/
theorem walk_lfn_entries_loop_spec (img : Bytes) (g : Globals) (read : read_parameters) :
    ∀ m j fuel attr,
      lfn_probe img g read j
        = read_disk_var img g attr 4 1
            ((FILE_ATTRIBUTES + (32 * j) % 4294967296) % 4294967296) read →
      (∀ i, j ≤ i → i < j + m → lfn_probe img g read i = Run.ret FLAG_FAT_LONG_FILE_NAME) →
      (∃ a, lfn_probe img g read (j + m) = Run.ret a ∧ a ≠ FLAG_FAT_LONG_FILE_NAME) →
      m < fuel →
      walk_lfn_entries_loop img g read fuel ((32 * j) % 4294967296) attr
        = Run.ret ((32 * (j + m)) % 4294967296) := by
  intro m
  induction m with
  | zero =>
    intro j fuel attr hj _ hend hfuel
    obtain ⟨a, ha, hne⟩ := hend
    cases fuel with
    | zero => omega
    | succ fuel =>
      rw [Nat.add_zero] at ha
      rw [walk_lfn_entries_loop, ← hj, ha, Run.ret_bind, if_neg hne]
      have hoff : (((32 * j) % 4294967296 + 32) % 4294967296 + 4294967296 - 32) % 4294967296
          = (32 * (j + 0)) % 4294967296 := by
        omega
      rw [hoff]
  | succ m ih =>
    intro j fuel attr hj hall hend hfuel
    cases fuel with
    | zero => omega
    | succ fuel =>
      have hjv := hall j (Nat.le_refl j) (by omega)
      rw [walk_lfn_entries_loop, ← hj, hjv, Run.ret_bind, if_pos rfl]
      have hoff : ((32 * j) % 4294967296 + 32) % 4294967296 = (32 * (j + 1)) % 4294967296 := by
        omega
      rw [hoff]
      have hnext : lfn_probe img g read (j + 1)
          = read_disk_var img g FLAG_FAT_LONG_FILE_NAME 4 1
              ((FILE_ATTRIBUTES + (32 * (j + 1)) % 4294967296) % 4294967296) read := by
        rw [lfn_probe, hjv, Run.ret_bind]
      have := ih (j + 1) fuel FLAG_FAT_LONG_FILE_NAME hnext
        (fun i h1 h2 => hall i (by omega) (by omega))
        (by
          obtain ⟨a, ha, hne⟩ := hend
          exact ⟨a, by rw [← ha]; congr 1; omega, hne⟩)
        (by omega)
      rw [this]
      congr 2
      omega

/-- A probe that delivers 0x0F into a variable holding 0 or 0x0F delivers 0x0F into a
variable holding 0x0F as well. -/
theorem probe_lfn_again (img : Bytes) (g : Globals) (read : read_parameters)
    (old field_offset : Nat) (hold : old = 0 ∨ old = FLAG_FAT_LONG_FILE_NAME)
    (h : read_disk_var img g old 4 1 field_offset read = Run.ret FLAG_FAT_LONG_FILE_NAME) :
    read_disk_var img g FLAG_FAT_LONG_FILE_NAME 4 1 field_offset read
      = Run.ret FLAG_FAT_LONG_FILE_NAME := by
  have hC : cluster_bytes g ≠ 0 := by
    intro h0
    simp [read_disk_var, read_disk, h0, Run.map, Run.bind] at h
  have hold' : old < 256 := by
    rcases hold with h | h <;> rw [h] <;> decide
  rw [read_disk_var_byte img g old field_offset read hC hold'] at h
  rw [read_disk_var_byte img g FLAG_FAT_LONG_FILE_NAME field_offset read hC (by decide)]
  cases hoff : read_disk_offset g read field_offset with
  | none => rw [hoff] at h; simp at h
  | some off =>
    rw [hoff] at h
    simp only [Run.ret.injEq] at h ⊢
    by_cases hin : off < img.size
    · rw [if_pos hin] at h ⊢
      exact h
    · rw [if_neg hin]

/-- Slot offsets are `uint32_t`: the probe of slot `2^27 + t` is at the field offset
of slot `t`.  A run of 0x0F probes as long as `2^27` slots therefore never ends. -/
theorem lfn_probe_periodic (img : Bytes) (g : Globals) (read : read_parameters) (k : Nat)
    (hall : ∀ j, j < k → lfn_probe img g read j = Run.ret FLAG_FAT_LONG_FILE_NAME)
    (hk : 134217728 ≤ k) :
    ∀ t, t ≤ k - 134217728 →
      lfn_probe img g read (134217728 + t) = Run.ret FLAG_FAT_LONG_FILE_NAME := by
  intro t
  induction t with
  | zero =>
    intro _
    have h0 := hall 0 (by omega)
    have hprev := hall 134217727 (by omega)
    show lfn_probe img g read (134217727 + 1) = _
    rw [lfn_probe, hprev, Run.ret_bind]
    have hoff : (FILE_ATTRIBUTES + (32 * (134217727 + 1)) % 4294967296) % 4294967296
        = (FILE_ATTRIBUTES + (32 * 0) % 4294967296) % 4294967296 := by
      norm_num
    rw [hoff]
    exact probe_lfn_again img g read 0 _ (Or.inl rfl) h0
  | succ t ih =>
    intro ht
    have hprev := ih (by omega)
    have hlow := hall t (by omega)
    have hnext := hall (t + 1) (by omega)
    rw [lfn_probe, hlow, Run.ret_bind] at hnext
    show lfn_probe img g read (134217728 + t + 1) = _
    rw [lfn_probe, hprev, Run.ret_bind]
    have hoff : (FILE_ATTRIBUTES + (32 * (134217728 + t + 1)) % 4294967296) % 4294967296
        = (FILE_ATTRIBUTES + (32 * (t + 1)) % 4294967296) % 4294967296 := by
      omega
    rw [hoff]
    exact hnext

/-- C13: for every directory position at which `k` consecutive slots, starting at the
current entry, deliver the attribute byte 0x0F (read through `read_disk` at field
offset 11 + 32*j) and slot `k` delivers a different attribute byte,
`walk_lfn_entries` returns `32 * k` (given fuel for `k + 1` probes), the offset of the
first non-LFN slot; it is 0 when the current slot is not an LFN entry. -/
theorem walk_lfn_entries_skips_lfn (img : Bytes) (g : Globals) (read : read_parameters)
    (k : Nat)
    (hlfn : ∀ j, j < k → lfn_probe img g read j = Run.ret FLAG_FAT_LONG_FILE_NAME)
    (hend : ∃ a, lfn_probe img g read k = Run.ret a ∧ a ≠ FLAG_FAT_LONG_FILE_NAME) :
    32 * k < 4294967296 ∧
    (∀ fuel, k < fuel → walk_lfn_entries fuel img g read = Run.ret (32 * k)) ∧
    ((∃ a, lfn_probe img g read 0 = Run.ret a ∧ a ≠ FLAG_FAT_LONG_FILE_NAME) →
      k = 0 ∧ ∀ fuel, 0 < fuel → walk_lfn_entries fuel img g read = Run.ret 0) := by
  have hk : k < 134217728 := by
    by_contra hge
    have := lfn_probe_periodic img g read k hlfn (by omega) (k - 134217728) (Nat.le_refl _)
    have hidx : 134217728 + (k - 134217728) = k := by omega
    rw [hidx] at this
    obtain ⟨a, ha, hne⟩ := hend
    rw [this] at ha
    cases ha
    exact hne rfl
  have hret : ∀ fuel, k < fuel → walk_lfn_entries fuel img g read = Run.ret (32 * k) := by
    intro fuel hf
    have := walk_lfn_entries_loop_spec img g read k 0 fuel 0 rfl
      (fun i _ h2 => hlfn i (by omega)) (by rw [Nat.zero_add]; exact hend) hf
    have h1 : (32 * 0) % 4294967296 = 0 := rfl
    have h2 : (32 * (0 + k)) % 4294967296 = 32 * k := by omega
    rw [h1, h2] at this
    exact this
  refine ⟨by omega, hret, ?_⟩
  rintro ⟨a, ha, hne⟩
  have hk0 : k = 0 := by
    by_contra hpos
    have := hlfn 0 (by omega)
    rw [this] at ha
    cases ha
    exact hne rfl
  subst hk0
  exact ⟨rfl, hret⟩

/-- C13 at a concrete directory: two LFN slots precede the short-name record of
`lfn_volume`, and `walk_lfn_entries` returns 64. -/
theorem walk_lfn_entries_skips_lfn_witness :
    ((∀ j, j < 2 → lfn_probe lfn_volume g512 first_slot j = Run.ret FLAG_FAT_LONG_FILE_NAME) ∧
      (∃ a, lfn_probe lfn_volume g512 first_slot 2 = Run.ret a ∧
        a ≠ FLAG_FAT_LONG_FILE_NAME)) ∧
    (32 * 2 < 4294967296 ∧
    (∀ fuel, 2 < fuel → walk_lfn_entries fuel lfn_volume g512 first_slot = Run.ret (32 * 2)) ∧
    ((∃ a, lfn_probe lfn_volume g512 first_slot 0 = Run.ret a ∧
        a ≠ FLAG_FAT_LONG_FILE_NAME) →
      2 = 0 ∧ ∀ fuel, 0 < fuel → walk_lfn_entries fuel lfn_volume g512 first_slot
        = Run.ret 0)) :=
  have hlfn : ∀ j, j < 2 →
      lfn_probe lfn_volume g512 first_slot j = Run.ret FLAG_FAT_LONG_FILE_NAME := by
    intro j hj
    interval_cases j <;> decide
  have hend : ∃ a, lfn_probe lfn_volume g512 first_slot 2 = Run.ret a ∧
      a ≠ FLAG_FAT_LONG_FILE_NAME := ⟨0x20, by decide, by decide⟩
  ⟨⟨hlfn, hend⟩, walk_lfn_entries_skips_lfn lfn_volume g512 first_slot 2 hlfn hend⟩

/-! ## Decoding a directory record (`read_fat_dir_entry`) -/

/-- An octet of the image is below 256. -/
theorem byte_or_zero_lt (img : Bytes) (off : Nat) : byte_or_zero img off < 256 := by
  unfold byte_or_zero Bytes.byte
  split <;> omega

/-- A one-byte `read_disk` into a zeroed one-byte field. -/
theorem read_disk_var_u8 (img : Bytes) (g : Globals) (field_offset : Nat)
    (read : read_parameters) (hC : 1 ≤ cluster_bytes g) :
    read_disk_var img g 0 1 1 field_offset read =
      match read_disk_offset g read field_offset with
      | none => Run.oob
      | some off => Run.ret (byte_or_zero img off) := by
  unfold read_disk_var
  rw [read_disk_single img g _ 1 field_offset read (by omega) (by omega)]
  cases read_disk_offset g read field_offset with
  | none => rfl
  | some off =>
    by_cases h0 : off < img.size <;>
      simp [Run.map, var_value, pread, MAX_RW_COUNT, var_bytes, byte_or_zero, Bytes.byte,
        h0]

/-- A two-byte `read_disk` into a zeroed field of two or four bytes. -/
theorem read_disk_var_u16 (img : Bytes) (g : Globals) (width field_offset : Nat)
    (read : read_parameters) (hC : 2 ≤ cluster_bytes g) (hw : width = 2 ∨ width = 4) :
    read_disk_var img g 0 width 2 field_offset read =
      match read_disk_offset g read field_offset with
      | none => Run.oob
      | some off => Run.ret (le16_or_zero img off) := by
  unfold read_disk_var
  rw [read_disk_single img g _ 2 field_offset read (by omega) (by omega)]
  cases read_disk_offset g read field_offset with
  | none => rfl
  | some off =>
    rcases hw with hw | hw <;> subst hw <;>
    by_cases h0 : off < img.size <;> by_cases h1 : off + 1 < img.size <;>
      simp [Run.map, var_value, pread, MAX_RW_COUNT, var_bytes, byte_or_zero, le16_or_zero,
        Bytes.byte,
        h0, h1] <;> omega

/-- A four-byte `read_disk` into a zeroed four-byte field. -/
theorem read_disk_var_u32 (img : Bytes) (g : Globals) (field_offset : Nat)
    (read : read_parameters) (hC : 4 ≤ cluster_bytes g) :
    read_disk_var img g 0 4 4 field_offset read =
      match read_disk_offset g read field_offset with
      | none => Run.oob
      | some off => Run.ret (le32_or_zero img off) := by
  unfold read_disk_var
  rw [read_disk_single img g _ 4 field_offset read (by omega) (by omega)]
  cases read_disk_offset g read field_offset with
  | none => rfl
  | some off =>
    by_cases h0 : off < img.size <;> by_cases h1 : off + 1 < img.size <;>
    by_cases h2 : off + 2 < img.size <;> by_cases h3 : off + 3 < img.size <;>
      simp [Run.map, var_value, pread, MAX_RW_COUNT, var_bytes, byte_or_zero, le32_or_zero,
        Bytes.byte,
        h0, h1, h2, h3] <;> omega

/-- An eleven-byte `read_disk` into the zeroed twelve-byte `filename`. -/
theorem read_disk_name_zero (img : Bytes) (g : Globals) (field_offset : Nat)
    (read : read_parameters) (hC : 11 ≤ cluster_bytes g) :
    read_disk_name img g (List.replicate 12 0) field_offset read =
      match read_disk_offset g read field_offset with
      | none => Run.oob
      | some off =>
        Run.ret ((List.range 11).map (fun i => byte_or_zero img (off + i)) ++ [0]) := by
  unfold read_disk_name
  rw [read_disk_single img g _ 11 field_offset read (by omega) (by omega)]
  cases read_disk_offset g read field_offset with
  | none => rfl
  | some off =>
    have h12 : List.range 12 = [0, 1, 2, 3, 4, 5, 6, 7, 8, 9, 10, 11] := by decide
    have h11 : List.range 11 = [0, 1, 2, 3, 4, 5, 6, 7, 8, 9, 10] := by decide
    simp [Run.map, h12, h11, pread, MAX_RW_COUNT, byte_or_zero]

/-- A little-endian 16-bit value is below 65536. -/
theorem le16_or_zero_lt (img : Bytes) (off : Nat) : le16_or_zero img off < 65536 := by
  have h0 := byte_or_zero_lt img off
  have h1 := byte_or_zero_lt img (off + 1)
  unfold le16_or_zero
  omega

/-- The `uint32_t` expression `low | (high << 16)` on two 16-bit halves is
`low + 65536 * high`. -/
theorem cluster_addr_combine (low high : Nat) (hl : low < 65536) (hh : high < 65536) :
    low ||| ((high * 65536) % 4294967296) = low + 65536 * high := by
  have h1 : (high * 65536) % 4294967296 = 2 ^ 16 * high := by
    have : (2 : Nat) ^ 16 = 65536 := by norm_num
    omega
  rw [h1, Nat.or_comm, ← Nat.mul_add_lt_is_or (by norm_num; exact hl) high]
  have : (2 : Nat) ^ 16 = 65536 := by norm_num
  omega

/-- The offset `walk_lfn_entries` returns is a multiple of 32 below `2^32`. -/
theorem walk_lfn_entries_loop_result (img : Bytes) (g : Globals) (read : read_parameters) :
    ∀ fuel off attr S, off % 32 = 0 → off < 4294967296 →
      walk_lfn_entries_loop img g read fuel off attr = Run.ret S →
      S % 32 = 0 ∧ S < 4294967296 := by
  intro fuel
  induction fuel with
  | zero => intro off attr S _ _ h; simp [walk_lfn_entries_loop] at h
  | succ fuel ih =>
    intro off attr S h32 hlt h
    rw [walk_lfn_entries_loop, Run.bind_eq_ret] at h
    obtain ⟨probed, _, h⟩ := h
    by_cases hp : probed = FLAG_FAT_LONG_FILE_NAME
    · rw [if_pos hp] at h
      exact ih _ _ S (by omega) (Nat.mod_lt _ (by decide)) h
    · rw [if_neg hp] at h
      simp only [Run.ret.injEq] at h
      omega

/-- What `read_fat_dir_entry` returns, given the record offset `S` found by
`walk_lfn_entries`, when a cluster holds at least the 11 bytes of a name and every
field of the record is read at a cluster of the list. -/
theorem read_fat_dir_entry_eq (fuel : Nat) (img : Bytes) (g : Globals)
    (read : read_parameters) (S : Nat) (hC : 11 ≤ cluster_bytes g)
    (hwalk : walk_lfn_entries fuel img g read = Run.ret S)
    (hoff : ∀ k, k < 32 → (read_disk_offset g read (S + k)).isSome = true) :
    S % 32 = 0 ∧ S + 32 ≤ 4294967296 ∧
    read_fat_dir_entry fuel img g fat_dir_entry.zero read
      = Run.ret (spec_record img g read S, (S + 32) % 4294967296) := by
  obtain ⟨hS32, hSlt⟩ :=
    walk_lfn_entries_loop_result img g read fuel 0 0 S rfl (by decide) hwalk
  have hmod : ∀ k, k < 32 → (S + k) % 4294967296 = S + k := fun k hk =>
    Nat.mod_eq_of_lt (by omega)
  have hget : ∀ k, k < 32 →
      read_disk_offset g read (S + k) = some (record_offset g read S k) := by
    intro k hk
    obtain ⟨o, ho⟩ := Option.isSome_iff_exists.mp (hoff k hk)
    simp [record_offset, ho]
  refine ⟨hS32, by omega, ?_⟩
  unfold read_fat_dir_entry
  simp only [hwalk, Run.ret_bind, FILE_NAME, FILE_ATTRIBUTES, CREATED_TIME_TENTHS,
    CREATED_TIME_HMS, CREATED_DAY, ACCESSED_DAY, LOW_CLUSTER_ADDR, HIGH_CLUSTER_ADDR,
    WRITTEN_TIME_HMS, WRITTEN_DAY, FILE_SIZE]
  rw [hmod 0 (by omega), hmod 11 (by omega), hmod 13 (by omega), hmod 14 (by omega),
    hmod 16 (by omega), hmod 18 (by omega), hmod 26 (by omega), hmod 20 (by omega),
    hmod 22 (by omega), hmod 24 (by omega), hmod 28 (by omega)]
  have hname := read_disk_name_zero img g (S + 0) read hC
  rw [hget 0 (by omega)] at hname
  have hzn : fat_dir_entry.zero.filename = List.replicate 12 0 := rfl
  simp only [hzn, hname, Run.ret_bind,
    show fat_dir_entry.zero.file_attributes = 0 from rfl,
    show fat_dir_entry.zero.created_time_tenths = 0 from rfl,
    show fat_dir_entry.zero.created_time_hms = 0 from rfl,
    show fat_dir_entry.zero.created_day = 0 from rfl,
    show fat_dir_entry.zero.accessed_day = 0 from rfl,
    show fat_dir_entry.zero.low_cluster_addr = 0 from rfl,
    show fat_dir_entry.zero.high_cluster_addr = 0 from rfl,
    show fat_dir_entry.zero.written_time_hms = 0 from rfl,
    show fat_dir_entry.zero.written_day = 0 from rfl,
    show fat_dir_entry.zero.file_size = 0 from rfl,
    read_disk_var_u8 img g _ read (by omega : 1 ≤ cluster_bytes g),
    read_disk_var_u16 img g 2 _ read (by omega : 2 ≤ cluster_bytes g) (Or.inl rfl),
    read_disk_var_u16 img g 4 _ read (by omega : 2 ≤ cluster_bytes g) (Or.inr rfl),
    read_disk_var_u32 img g _ read (by omega : 4 ≤ cluster_bytes g),
    hget 11 (by omega), hget 13 (by omega), hget 14 (by omega), hget 16 (by omega),
    hget 18 (by omega), hget 26 (by omega), hget 20 (by omega), hget 22 (by omega),
    hget 24 (by omega), hget 28 (by omega),
    cluster_addr_combine _ _ (le16_or_zero_lt img _) (le16_or_zero_lt img _)]
  rfl

/-- Where `read_disk` reads through `wrap_chain`: the cluster of index
`field_offset / 32768` is cluster `2 + 2 * index`, and the whole field offset is added
to its start. -/
theorem wrap_chain_offset (field_offset : Nat) (h : field_offset < 4294967296) :
    read_disk_offset wrap_geometry wrap_chain field_offset
      = some ((65536 * (field_offset / 32768) + field_offset) % 4294967296) := by
  have hidx : field_offset / 32768 < 131072 := by omega
  have hC : cluster_bytes wrap_geometry = 32768 := by decide
  have hmod : (field_offset + 0) % 4294967296 = field_offset := by omega
  unfold read_disk_offset
  rw [hC, show wrap_chain.entry_offset = 0 from rfl, hmod]
  have hget : wrap_chain.cluster_list.get? (field_offset / 32768)
      = some (2 + 2 * (field_offset / 32768)) := by
    simp [wrap_chain, List.getElem?_range, hidx]
  rw [hget]
  have hcts : cts wrap_geometry (2 + 2 * (field_offset / 32768))
      = (65536 * (field_offset / 32768)) % 4294967296 := by
    have h1 : (2 + 2 * (field_offset / 32768) + 4294967296 - 2) % 4294967296
        = 2 * (field_offset / 32768) := by omega
    have h2 : (wrap_geometry.spc * wrap_geometry.bps) % 4294967296 = 32768 := by decide
    have h3 : wrap_geometry.reserved_and_fats = 0 := rfl
    unfold cts
    have h4 : 2 * (field_offset / 32768) * 32768 = 65536 * (field_offset / 32768) := by
      omega
    rw [h1, h2, h3, Nat.add_zero, Nat.mod_mod, h4]
  simp only [Option.map_some', hcts, ite_self, Nat.add_zero]
  rw [Nat.add_mod, Nat.mod_mod, ← Nat.add_mod]

/-- Every slot of `wrap_chain` before the last one delivers the attribute 0x0F. -/
theorem wrap_probe_lfn :
    ∀ j, j < 134217727 →
      lfn_probe wrap_image wrap_geometry wrap_chain j = Run.ret FLAG_FAT_LONG_FILE_NAME := by
  have hC : cluster_bytes wrap_geometry ≠ 0 := by decide
  have hstep : ∀ j old, j < 134217727 → old < 256 →
      read_disk_var wrap_image wrap_geometry old 4 1
          ((FILE_ATTRIBUTES + (32 * j) % 4294967296) % 4294967296) wrap_chain
        = Run.ret FLAG_FAT_LONG_FILE_NAME := by
    intro j old hj hold
    have hfo : (FILE_ATTRIBUTES + (32 * j) % 4294967296) % 4294967296 = 11 + 32 * j := by
      unfold FILE_ATTRIBUTES
      omega
    rw [read_disk_var_byte _ _ _ _ _ hC hold, hfo, wrap_chain_offset _ (by omega)]
    have hin : (65536 * ((11 + 32 * j) / 32768) + (11 + 32 * j)) % 4294967296
        < wrap_image.size := Nat.mod_lt _ (by decide)
    have hne : (65536 * ((11 + 32 * j) / 32768) + (11 + 32 * j)) % 4294967296
        ≠ 4294901739 := by omega
    simp only [if_pos hin]
    simp [Bytes.byte, wrap_image, hne, FLAG_FAT_LONG_FILE_NAME]
  intro j
  induction j with
  | zero => intro h; exact hstep 0 0 h (by decide)
  | succ j ih =>
    intro h
    rw [lfn_probe, ih (by omega), Run.ret_bind]
    exact hstep (j + 1) _ h (by decide)

/-- The last slot of `wrap_chain` delivers the attribute 0x20. -/
theorem wrap_probe_last :
    lfn_probe wrap_image wrap_geometry wrap_chain 134217727 = Run.ret 0x20 := by
  have hC : cluster_bytes wrap_geometry ≠ 0 := by decide
  show lfn_probe wrap_image wrap_geometry wrap_chain (134217726 + 1) = _
  rw [lfn_probe, wrap_probe_lfn 134217726 (by decide), Run.ret_bind,
    read_disk_var_byte _ _ _ _ _ hC (by decide)]
  have hfo : (FILE_ATTRIBUTES + (32 * (134217726 + 1)) % 4294967296) % 4294967296
      = 4294967275 := by decide
  rw [hfo, wrap_chain_offset _ (by decide)]
  decide

/-- The offset `read_fat_dir_entry` returns is a `uint32_t` sum: in a directory whose
first `2^27 - 1` slots are long-file-name entries, `walk_lfn_entries` returns
S = 4294967264 and `read_fat_dir_entry` returns the offset 0, not
S + 32 = 4294967296. -/
theorem read_fat_dir_entry_offset_wraps :
    walk_lfn_entries 134217728 wrap_image wrap_geometry wrap_chain = Run.ret 4294967264 ∧
    (read_fat_dir_entry 134217728 wrap_image wrap_geometry fat_dir_entry.zero wrap_chain).map
        Prod.snd = Run.ret 0 ∧
    4294967264 + 32 = 4294967296 := by
  have hwalk : walk_lfn_entries 134217728 wrap_image wrap_geometry wrap_chain
      = Run.ret 4294967264 := by
    have := walk_lfn_entries_loop_spec wrap_image wrap_geometry wrap_chain 134217727 0
      134217728 0 rfl (fun i _ h2 => wrap_probe_lfn i (by omega))
      ⟨0x20, wrap_probe_last, by decide⟩ (by decide)
    exact this
  have hoff : ∀ k, k < 32 →
      (read_disk_offset wrap_geometry wrap_chain (4294967264 + k)).isSome = true := by
    intro k hk
    rw [wrap_chain_offset _ (by omega)]
    rfl
  obtain ⟨-, -, h⟩ := read_fat_dir_entry_eq 134217728 wrap_image wrap_geometry wrap_chain
    4294967264 (by decide) hwalk hoff
  refine ⟨hwalk, ?_, rfl⟩
  rw [h]
  rfl

/-- The record of `lfn_volume` decoded, evaluated: name `A       TXT`, attribute
0x20, creation time 0x2211, high half 3 and low half 4 of the first cluster
(`cluster_addr` 0x00030004), size 0x01020304, and the next slot at offset 96. -/
theorem read_fat_dir_entry_example :
    read_fat_dir_entry 5 lfn_volume g512 fat_dir_entry.zero first_slot
      = Run.ret
        ({ fat_dir_entry.zero with
            filename := name_a ++ [0], file_attributes := 0x20, created_time_hms := 0x2211,
            low_cluster_addr := 4, high_cluster_addr := 3, cluster_addr := 0x00030004,
            file_size := 0x01020304 }, 96) := by
  decide

/-! ## The directory walker (`read_fat32_filesystem`) -/

set_option maxRecDepth 100000 in
/-- The walk of `tiny_volume` with the hidden-data option on, evaluated: the node
returned for the root and the walker state. -/
theorem tiny_walk_eval :
    read_fat32_filesystem 24 (tiny_walker true) 2 none walk_start
      = Run.ret
        ({ fat_dir_entry.zero with last_cluster := 2 },
          { hidden_data_found := true, events := tiny_walk_events }) := by
  decide!

/-- A slot whose first name byte is 0xE5 never meets the skip test: as a `char` the
byte is -27, which equals neither 0 nor the `int` constant 0xe5 = 229, and it is not a
dot. -/
theorem skip_entry_deleted (e : fat_dir_entry) (h : e.filename.headD 0 = 0xE5) :
    skip_entry e = false := by
  unfold skip_entry
  rw [h]
  have h1 : strncmp_zero e.filename dot_name 12 = false := by
    rw [strncmp_zero, h]
    rfl
  have h2 : strncmp_zero e.filename dotdot_name 12 = false := by
    rw [strncmp_zero, h]
    rfl
  rw [h1, h2]
  decide

/-- A slot whose first name byte is 0 meets the skip test. -/
theorem skip_entry_blank (e : fat_dir_entry) (h : e.filename.headD 0 = 0) :
    skip_entry e = true := by
  unfold skip_entry
  rw [h]
  simp [char_value]

/-- C15 (evaluation at the failing input): the slot of `tiny_volume` whose first name
byte is 0xE5 does not meet the skip test (the `char` holds -27, not 229), while an
all-zero slot does; in the walk the deleted entry is kept and passed to
`check_for_hidden_data` like a live file. -/
theorem deleted_entry_not_skipped :
    (mk_entry name_deleted 0x20 5 10 5).filename.headD 0 = 0xE5 ∧
    char_value 0xE5 = -27 ∧
    skip_entry (mk_entry name_deleted 0x20 5 10 5) = false ∧
    skip_entry blank_entry = true ∧
    read_fat32_filesystem 24 (tiny_walker true) 2 none walk_start
      = Run.ret
        ({ fat_dir_entry.zero with last_cluster := 2 },
          { hidden_data_found := true, events := tiny_walk_events }) ∧
    tiny_walk_events.get? 2 = some (walk_event.keep (mk_entry name_deleted 0x20 5 10 5)) ∧
    tiny_walk_events.get? 3
      = some (walk_event.check (mk_entry name_deleted 0x20 5 10 5) false) :=
  ⟨rfl, by decide, by decide, by decide, tiny_walk_eval, rfl, rfl⟩

/-- The result of `strncmp` on two strings of equal length, the second without an
embedded NUL, each followed by its terminating NUL and compared over the whole length:
0 exactly when the strings are equal. -/
theorem strncmp_zero_eq (l2 : List Nat) :
    ∀ l1 : List Nat, (∀ b, b ∈ l2 → b ≠ 0) → l1.length = l2.length →
      strncmp_zero (l1 ++ [0]) (l2 ++ [0]) (l2.length + 1) = decide (l1 = l2) := by
  induction l2 with
  | nil =>
    intro l1 _ hlen
    have : l1 = [] := List.length_eq_zero.mp hlen
    subst this
    simp [strncmp_zero]
  | cons b bs ih =>
    intro l1 hnz hlen
    cases l1 with
    | nil => simp at hlen
    | cons a as =>
      have hb : b ≠ 0 := hnz b (List.mem_cons_self _ _)
      have hrec := ih as (fun c hc => hnz c (List.mem_cons_of_mem _ hc))
        (by simpa using hlen)
      rw [List.length_cons, strncmp_zero]
      simp only [List.cons_append, List.headD_cons, List.tail_cons]
      by_cases hab : a = b
      · subst hab
        simp [hb, hrec]
      · simp [hab]

/-- The function `read_fat_dir_entry` writes the decoded fields only: `is_directory`,
`last_cluster` and the four tree pointers of the entry stay as they were. -/
theorem read_fat_dir_entry_preserves (fuel : Nat) (img : Bytes) (g : Globals)
    (entry : fat_dir_entry) (read : read_parameters) (e : fat_dir_entry) (x : Nat)
    (h : read_fat_dir_entry fuel img g entry read = Run.ret (e, x)) :
    e.is_directory = entry.is_directory ∧ e.last_cluster = entry.last_cluster ∧
    e.parent_dir = entry.parent_dir ∧ e.dir_contents = entry.dir_contents ∧
    e.next = entry.next ∧ e.prev = entry.prev := by
  simp only [read_fat_dir_entry, Run.bind_eq_ret, Run.ret.injEq, Prod.mk.injEq] at h
  obtain ⟨_, _, _, _, _, _, _, _, _, _, _, _, _, _, _, _, _, _, _, _, _, _, _, _, he, _⟩ := h
  subst he
  exact ⟨rfl, rfl, rfl, rfl, rfl, rfl⟩

/-- One pass of the scan loop over a slot that meets the skip test: nothing but the
skip is recorded and the scan continues `x` bytes further. -/
theorem read_fat32_filesystem_loop_skip (w : walker) (fuel : Nat) (read_info : read_parameters)
    (i : Nat) (st : walk_state) (e0 : fat_dir_entry) (x last : Nat)
    (hi : i < ((read_info.list_length * w.g.bps) % 4294967296 * w.g.spc) % 4294967296)
    (hdec : read_fat_dir_entry fuel w.img w.g fat_dir_entry.zero read_info = Run.ret (e0, x))
    (hlast : get_last_cluster fuel w.fat_bs w.fat1 e0.cluster_addr = Run.ret last)
    (hskip : skip_entry { e0 with last_cluster := last } = true) :
    read_fat32_filesystem_loop w (fuel + 1) read_info i st
      = read_fat32_filesystem_loop w fuel
          { read_info with entry_offset := (read_info.entry_offset + x) % 4294967296 }
          ((i + x) % 4294967296)
          { st with events := st.events ++ [walk_event.skip { e0 with last_cluster := last }] } := by
  rw [read_fat32_filesystem_loop, if_pos hi, hdec, Run.ret_bind, hlast, Run.ret_bind]
  simp only [hskip, if_true]

/-- The node `read_fat32_filesystem` returns is the node it was given with
`last_cluster` updated. -/
theorem read_fat32_filesystem_body_entry (w : walker) (fuel : Nat)
    (scan : read_parameters → Nat → walk_state → Run walk_state) (c : Nat)
    (entry : fat_dir_entry) (st : walk_state) (r : fat_dir_entry × walk_state)
    (h : read_fat32_filesystem_body w fuel scan c entry st = Run.ret r) :
    r.1 = { entry with last_cluster := r.1.last_cluster } := by
  simp only [read_fat32_filesystem_body, Run.bind_eq_ret] at h
  obtain ⟨n, _, read_info, _, h⟩ := h
  cases hl : read_info.cluster_list.get?
      ((read_info.list_length + 4294967296 - 1) % 4294967296) with
  | none => rw [hl] at h; simp at h
  | some last =>
    rw [hl] at h
    simp only [Run.bind_eq_ret, Run.ret.injEq] at h
    obtain ⟨st', _, h⟩ := h
    subst h
    rfl

/-- One pass of the scan loop over a slot that does not meet the skip test and has
attribute bit 0x10 set. -/
theorem read_fat32_filesystem_loop_dir (w : walker) (fuel : Nat) (read_info : read_parameters)
    (i : Nat) (st : walk_state) (e0 : fat_dir_entry) (x last : Nat)
    (hi : i < ((read_info.list_length * w.g.bps) % 4294967296 * w.g.spc) % 4294967296)
    (hdec : read_fat_dir_entry fuel w.img w.g fat_dir_entry.zero read_info = Run.ret (e0, x))
    (hlast : get_last_cluster fuel w.fat_bs w.fat1 e0.cluster_addr = Run.ret last)
    (hskip : skip_entry { e0 with last_cluster := last } = false)
    (hdir : (e0.file_attributes &&& 0x10) ≠ 0) :
    read_fat32_filesystem_loop w (fuel + 1) read_info i st
      = (read_fat32_filesystem fuel w e0.cluster_addr
            (some { e0 with last_cluster := last, is_directory := true })
            { st with
              events := st.events ++ [walk_event.keep { e0 with last_cluster := last },
                walk_event.dir { e0 with last_cluster := last, is_directory := true }] }).bind
          fun r =>
            read_fat32_filesystem_loop w fuel
              { read_info with entry_offset := (read_info.entry_offset + x) % 4294967296 }
              ((i + x) % 4294967296)
              { r.2 with events := r.2.events ++ [walk_event.dir_end] } := by
  rw [read_fat32_filesystem_loop, if_pos hi, hdec, Run.ret_bind, hlast, Run.ret_bind]
  simp only [hskip, Bool.false_eq_true, if_false, if_pos hdir, read_fat32_filesystem,
    Option.getD_some]
  cases hbody : read_fat32_filesystem_body w fuel (read_fat32_filesystem_loop w fuel)
      e0.cluster_addr { e0 with last_cluster := last, is_directory := true }
      { st with
        events := st.events ++ [walk_event.keep { e0 with last_cluster := last },
          walk_event.dir { e0 with last_cluster := last, is_directory := true }] } with
  | ret r =>
    have hr := read_fat32_filesystem_body_entry w fuel _ _ _ _ r hbody
    have hd : r.1.is_directory = true := by rw [hr]
    simp [Run.bind, hd]
  | oob => rfl
  | div_zero => rfl
  | out_of_fuel => rfl

/-- One pass of the scan loop over a slot that does not meet the skip test and has
attribute bit 0x10 clear. -/
theorem read_fat32_filesystem_loop_file (w : walker) (fuel : Nat) (read_info : read_parameters)
    (i : Nat) (st : walk_state) (e0 : fat_dir_entry) (x last : Nat)
    (hi : i < ((read_info.list_length * w.g.bps) % 4294967296 * w.g.spc) % 4294967296)
    (hdec : read_fat_dir_entry fuel w.img w.g fat_dir_entry.zero read_info = Run.ret (e0, x))
    (hlast : get_last_cluster fuel w.fat_bs w.fat1 e0.cluster_addr = Run.ret last)
    (hskip : skip_entry { e0 with last_cluster := last } = false)
    (hfile : (e0.file_attributes &&& 0x10) = 0) :
    read_fat32_filesystem_loop w (fuel + 1) read_info i st
      = if w.h_flag = true then
          (check_for_hidden_data w.img w.g { e0 with last_cluster := last }
              st.hidden_data_found).bind fun c =>
            read_fat32_filesystem_loop w fuel
              { read_info with entry_offset := (read_info.entry_offset + x) % 4294967296 }
              ((i + x) % 4294967296)
              { hidden_data_found := c.1,
                events := st.events ++ [walk_event.keep { e0 with last_cluster := last },
                  walk_event.check { e0 with last_cluster := last } c.2] }
        else
          read_fat32_filesystem_loop w fuel
            { read_info with entry_offset := (read_info.entry_offset + x) % 4294967296 }
            ((i + x) % 4294967296)
            { st with
              events := st.events ++ [walk_event.keep { e0 with last_cluster := last }] } := by
  have hd : e0.is_directory = false :=
    (read_fat_dir_entry_preserves fuel w.img w.g _ read_info e0 x hdec).1
  have hne : ¬ ((e0.file_attributes &&& 0x10) ≠ 0) := by simp [hfile]
  rw [read_fat32_filesystem_loop, if_pos hi, hdec, Run.ret_bind, hlast, Run.ret_bind]
  simp only [hskip, Bool.false_eq_true, if_false]
  simp only [if_neg hne, Run.ret_bind]
  cases hh : w.h_flag with
  | false => simp
  | true =>
    simp only [hd, Bool.not_false, Bool.and_true, if_true]
    cases check_for_hidden_data w.img w.g
        { e0 with last_cluster := last, is_directory := false } st.hidden_data_found with
    | ret c => simp [Run.bind]
    | oob => rfl
    | div_zero => rfl
    | out_of_fuel => rfl

/-- C16: in `read_fat32_filesystem`, every decoded slot whose 11-byte name is exactly
`.` followed by 10 spaces or `..` followed by 9 spaces meets the skip test whatever
its attribute byte is (the directory bit 0x10 included): the pass of the scan loop
only records the skip and continues at the next slot, without recursion and without
the slack scanner.  An 11-byte name that differs from both in any byte fails both
`strncmp` tests, so it is not skipped by this rule. -/
theorem dot_entries_skipped (w : walker) (fuel : Nat) (read_info : read_parameters)
    (i : Nat) (st : walk_state) (e0 : fat_dir_entry) (x last : Nat)
    (hi : i < ((read_info.list_length * w.g.bps) % 4294967296 * w.g.spc) % 4294967296)
    (hdec : read_fat_dir_entry fuel w.img w.g fat_dir_entry.zero read_info = Run.ret (e0, x))
    (hlast : get_last_cluster fuel w.fat_bs w.fat1 e0.cluster_addr = Run.ret last)
    (hname : e0.filename = dot_name ∨ e0.filename = dotdot_name) :
    skip_entry { e0 with last_cluster := last } = true ∧
    read_fat32_filesystem_loop w (fuel + 1) read_info i st
      = read_fat32_filesystem_loop w fuel
          { read_info with entry_offset := (read_info.entry_offset + x) % 4294967296 }
          ((i + x) % 4294967296)
          { st with
            events := st.events ++ [walk_event.skip { e0 with last_cluster := last }] } ∧
    (∀ name : List Nat, name.length = 11 →
      (strncmp_zero (name ++ [0]) dot_name 12 = true ↔ name = dot_name.take 11) ∧
      (strncmp_zero (name ++ [0]) dotdot_name 12 = true ↔ name = dotdot_name.take 11)) := by
  have hskip : skip_entry { e0 with last_cluster := last } = true := by
    unfold skip_entry
    rcases hname with h | h <;>
      simp only [show ({ e0 with last_cluster := last } : fat_dir_entry).filename
        = e0.filename from rfl, h] <;> decide
  refine ⟨hskip,
    read_fat32_filesystem_loop_skip w fuel read_info i st e0 x last hi hdec hlast hskip, ?_⟩
  intro name hlen
  have h1 := strncmp_zero_eq (dot_name.take 11) name (by decide) (by rw [hlen]; rfl)
  have h2 := strncmp_zero_eq (dotdot_name.take 11) name (by decide) (by rw [hlen]; rfl)
  have e1 : dot_name.take 11 ++ [0] = dot_name := by decide
  have e2 : dotdot_name.take 11 ++ [0] = dotdot_name := by decide
  have l1 : (dot_name.take 11).length + 1 = 12 := by decide
  have l2 : (dotdot_name.take 11).length + 1 = 12 := by decide
  rw [e1, l1] at h1
  rw [e2, l2] at h2
  rw [h1, h2]
  simp

/-- C16 at a concrete slot: the `.` entry of the directory `SUB` of `tiny_volume`,
whose attribute byte is 0x10. -/
theorem dot_entries_skipped_witness :
    (0 < ((sub_slot.list_length * (tiny_walker true).g.bps) % 4294967296
        * (tiny_walker true).g.spc) % 4294967296 ∧
      read_fat_dir_entry 5 (tiny_walker true).img (tiny_walker true).g fat_dir_entry.zero
        sub_slot = Run.ret (mk_entry (dot_name.take 11) 0x10 4 0 0, 32) ∧
      get_last_cluster 5 (tiny_walker true).fat_bs (tiny_walker true).fat1
        (mk_entry (dot_name.take 11) 0x10 4 0 0).cluster_addr = Run.ret 4 ∧
      ((mk_entry (dot_name.take 11) 0x10 4 0 0).filename = dot_name ∨
        (mk_entry (dot_name.take 11) 0x10 4 0 0).filename = dotdot_name)) ∧
    (skip_entry { mk_entry (dot_name.take 11) 0x10 4 0 0 with last_cluster := 4 } = true ∧
    read_fat32_filesystem_loop (tiny_walker true) (5 + 1) sub_slot 0 walk_start
      = read_fat32_filesystem_loop (tiny_walker true) 5
          { sub_slot with entry_offset := (sub_slot.entry_offset + 32) % 4294967296 }
          ((0 + 32) % 4294967296)
          { walk_start with
            events := walk_start.events
              ++ [walk_event.skip
                    { mk_entry (dot_name.take 11) 0x10 4 0 0 with last_cluster := 4 }] } ∧
    (∀ name : List Nat, name.length = 11 →
      (strncmp_zero (name ++ [0]) dot_name 12 = true ↔ name = dot_name.take 11) ∧
      (strncmp_zero (name ++ [0]) dotdot_name 12 = true ↔ name = dotdot_name.take 11))) :=
  ⟨⟨by decide, by decide, by decide, Or.inl (by decide)⟩,
    dot_entries_skipped (tiny_walker true) 5 sub_slot 0 walk_start
      (mk_entry (dot_name.take 11) 0x10 4 0 0) 32 4 (by decide) (by decide) (by decide)
      (Or.inl (by decide))⟩

/-- C17: in `read_fat32_filesystem`, for every non-skipped entry (decoded into a
zeroed node, so `is_directory` is false before the test): if attribute bit 0x10 is
set, the entry is marked `is_directory`, the walker calls itself with the entry's
`cluster_addr`, and only when that call has returned does the scan continue at the
next sibling, without `check_for_hidden_data`; if bit 0x10 is clear,
`check_for_hidden_data` runs on the entry once when the hidden-data option is on and
not at all when it is off, and the scan continues at the next sibling. -/
theorem non_skipped_entry_handling (w : walker) (fuel : Nat) (read_info : read_parameters)
    (i : Nat) (st : walk_state) (e0 : fat_dir_entry) (x last : Nat)
    (hi : i < ((read_info.list_length * w.g.bps) % 4294967296 * w.g.spc) % 4294967296)
    (hdec : read_fat_dir_entry fuel w.img w.g fat_dir_entry.zero read_info = Run.ret (e0, x))
    (hlast : get_last_cluster fuel w.fat_bs w.fat1 e0.cluster_addr = Run.ret last)
    (hskip : skip_entry { e0 with last_cluster := last } = false) :
    e0.is_directory = false ∧
    ((e0.file_attributes &&& 0x10) ≠ 0 →
      read_fat32_filesystem_loop w (fuel + 1) read_info i st
        = (read_fat32_filesystem fuel w e0.cluster_addr
              (some { e0 with last_cluster := last, is_directory := true })
              { st with
                events := st.events ++ [walk_event.keep { e0 with last_cluster := last },
                  walk_event.dir
                    { e0 with last_cluster := last, is_directory := true }] }).bind
            fun r =>
              read_fat32_filesystem_loop w fuel
                { read_info with entry_offset := (read_info.entry_offset + x) % 4294967296 }
                ((i + x) % 4294967296)
                { r.2 with events := r.2.events ++ [walk_event.dir_end] }) ∧
    ((e0.file_attributes &&& 0x10) = 0 →
      read_fat32_filesystem_loop w (fuel + 1) read_info i st
        = if w.h_flag = true then
            (check_for_hidden_data w.img w.g { e0 with last_cluster := last }
                st.hidden_data_found).bind fun c =>
              read_fat32_filesystem_loop w fuel
                { read_info with entry_offset := (read_info.entry_offset + x) % 4294967296 }
                ((i + x) % 4294967296)
                { hidden_data_found := c.1,
                  events := st.events ++ [walk_event.keep { e0 with last_cluster := last },
                    walk_event.check { e0 with last_cluster := last } c.2] }
          else
            read_fat32_filesystem_loop w fuel
              { read_info with entry_offset := (read_info.entry_offset + x) % 4294967296 }
              ((i + x) % 4294967296)
              { st with
                events := st.events ++ [walk_event.keep { e0 with last_cluster := last }] }) :=
  ⟨(read_fat_dir_entry_preserves fuel w.img w.g _ read_info e0 x hdec).1,
    read_fat32_filesystem_loop_dir w fuel read_info i st e0 x last hi hdec hlast hskip,
    read_fat32_filesystem_loop_file w fuel read_info i st e0 x last hi hdec hlast hskip⟩

/-- C17 at a concrete slot: the file `A.TXT` in the root directory of `tiny_volume`,
whose attribute byte is 0x20. -/
theorem non_skipped_entry_handling_witness :
    (0 < ((first_slot.list_length * (tiny_walker true).g.bps) % 4294967296
        * (tiny_walker true).g.spc) % 4294967296 ∧
      read_fat_dir_entry 5 (tiny_walker true).img (tiny_walker true).g fat_dir_entry.zero
        first_slot = Run.ret (mk_entry name_a 0x20 3 100 0, 32) ∧
      get_last_cluster 5 (tiny_walker true).fat_bs (tiny_walker true).fat1
        (mk_entry name_a 0x20 3 100 0).cluster_addr = Run.ret 3 ∧
      skip_entry { mk_entry name_a 0x20 3 100 0 with last_cluster := 3 } = false) ∧
    ((mk_entry name_a 0x20 3 100 0).is_directory = false ∧
    (((mk_entry name_a 0x20 3 100 0).file_attributes &&& 0x10) ≠ 0 →
      read_fat32_filesystem_loop (tiny_walker true) (5 + 1) first_slot 0 walk_start
        = (read_fat32_filesystem 5 (tiny_walker true) (mk_entry name_a 0x20 3 100 0).cluster_addr
              (some { mk_entry name_a 0x20 3 100 0 with
                      last_cluster := 3, is_directory := true })
              { walk_start with
                events := walk_start.events
                  ++ [walk_event.keep { mk_entry name_a 0x20 3 100 0 with last_cluster := 3 },
                  walk_event.dir
                    { mk_entry name_a 0x20 3 100 0 with
                      last_cluster := 3, is_directory := true }] }).bind
            fun r =>
              read_fat32_filesystem_loop (tiny_walker true) 5
                { first_slot with entry_offset := (first_slot.entry_offset + 32) % 4294967296 }
                ((0 + 32) % 4294967296)
                { r.2 with events := r.2.events ++ [walk_event.dir_end] }) ∧
    (((mk_entry name_a 0x20 3 100 0).file_attributes &&& 0x10) = 0 →
      read_fat32_filesystem_loop (tiny_walker true) (5 + 1) first_slot 0 walk_start
        = if (tiny_walker true).h_flag = true then
            (check_for_hidden_data (tiny_walker true).img (tiny_walker true).g
                { mk_entry name_a 0x20 3 100 0 with last_cluster := 3 }
                walk_start.hidden_data_found).bind fun c =>
              read_fat32_filesystem_loop (tiny_walker true) 5
                { first_slot with entry_offset := (first_slot.entry_offset + 32) % 4294967296 }
                ((0 + 32) % 4294967296)
                { hidden_data_found := c.1,
                  events := walk_start.events
                    ++ [walk_event.keep { mk_entry name_a 0x20 3 100 0 with last_cluster := 3 },
                    walk_event.check
                      { mk_entry name_a 0x20 3 100 0 with last_cluster := 3 } c.2] }
          else
            read_fat32_filesystem_loop (tiny_walker true) 5
              { first_slot with entry_offset := (first_slot.entry_offset + 32) % 4294967296 }
              ((0 + 32) % 4294967296)
              { walk_start with
                events := walk_start.events
                  ++ [walk_event.keep
                        { mk_entry name_a 0x20 3 100 0 with last_cluster := 3 }] })) :=
  ⟨⟨by decide, by decide, by decide, by decide⟩,
    non_skipped_entry_handling (tiny_walker true) 5 first_slot 0 walk_start
      (mk_entry name_a 0x20 3 100 0) 32 3 (by decide) (by decide) (by decide) (by decide)⟩

/-- Recording nodes without links keeps the record free of links. -/
theorem walk_state.unlinked_append (b b' : Bool) (evs new : List walk_event)
    (h : walk_state.unlinked { hidden_data_found := b, events := evs })
    (hn : ∀ ev, ev ∈ new → ∀ e, ev.entry = some e → e.unlinked) :
    walk_state.unlinked { hidden_data_found := b', events := evs ++ new } := by
  intro ev hev e he
  rcases List.mem_append.mp hev with h1 | h1
  · exact h ev h1 e he
  · exact hn ev h1 e he

/-- When `read_fat32_filesystem` returns, its scan of the directory has returned the
state it hands back. -/
theorem read_fat32_filesystem_body_scan (w : walker) (fuel : Nat)
    (scan : read_parameters → Nat → walk_state → Run walk_state) (c : Nat)
    (entry : fat_dir_entry) (st : walk_state) (r : fat_dir_entry × walk_state)
    (h : read_fat32_filesystem_body w fuel scan c entry st = Run.ret r) :
    ∃ read_info, scan read_info 0 st = Run.ret r.2 := by
  simp only [read_fat32_filesystem_body, Run.bind_eq_ret] at h
  obtain ⟨n, _, read_info, _, h⟩ := h
  cases hl : read_info.cluster_list.get?
      ((read_info.list_length + 4294967296 - 1) % 4294967296) with
  | none => rw [hl] at h; simp at h
  | some last =>
    rw [hl] at h
    simp only [Run.bind_eq_ret, Run.ret.injEq] at h
    obtain ⟨st', hs, h⟩ := h
    subst h
    exact ⟨read_info, hs⟩

/-- The scan loop of `read_fat32_filesystem` stores no tree pointer: if no node
handled before the scan has one, no node handled by the scan (in this directory or
below it) has one. -/
theorem read_fat32_filesystem_loop_unlinked (w : walker) :
    ∀ (fuel : Nat) (read_info : read_parameters) (i : Nat) (st st' : walk_state),
      read_fat32_filesystem_loop w fuel read_info i st = Run.ret st' →
      st.unlinked → st'.unlinked := by
  intro fuel
  induction fuel with
  | zero =>
    intro read_info i st st' h
    simp [read_fat32_filesystem_loop] at h
  | succ fuel ih =>
    intro read_info i st st' h hst
    by_cases hi : i < ((read_info.list_length * w.g.bps) % 4294967296 * w.g.spc) % 4294967296
    · have h0 := h
      rw [read_fat32_filesystem_loop, if_pos hi] at h0
      simp only [Run.bind_eq_ret] at h0
      obtain ⟨⟨e0, x⟩, hdec, last, hlast, -⟩ := h0
      have hlast : get_last_cluster fuel w.fat_bs w.fat1 e0.cluster_addr = Run.ret last :=
        hlast
      obtain ⟨-, -, hp, hc, hn, hv⟩ :=
        read_fat_dir_entry_preserves fuel w.img w.g _ read_info e0 x hdec
      have hun : ∀ (l : Nat) (d : Bool),
          fat_dir_entry.unlinked { e0 with last_cluster := l, is_directory := d } :=
        fun _ _ => ⟨hp, hc, hn, hv⟩
      have hun1 : ∀ l : Nat, fat_dir_entry.unlinked { e0 with last_cluster := l } :=
        fun _ => ⟨hp, hc, hn, hv⟩
      cases hskip : skip_entry { e0 with last_cluster := last } with
      | true =>
        rw [read_fat32_filesystem_loop_skip w fuel read_info i st e0 x last hi hdec hlast
          hskip] at h
        refine ih _ _ _ _ h (walk_state.unlinked_append _ _ _ _ hst ?_)
        intro ev hev e he
        rw [List.mem_singleton] at hev
        subst hev
        cases he
        exact hun1 last
      | false =>
        by_cases hdir : (e0.file_attributes &&& 0x10) ≠ 0
        · rw [read_fat32_filesystem_loop_dir w fuel read_info i st e0 x last hi hdec hlast
            hskip hdir, Run.bind_eq_ret] at h
          obtain ⟨r, hr, hcont⟩ := h
          obtain ⟨ri, hscan⟩ := read_fat32_filesystem_body_scan w fuel _ _ _ _ r hr
          have h1 : r.2.unlinked := by
            refine ih _ _ _ _ hscan (walk_state.unlinked_append _ _ _ _ hst ?_)
            intro ev hev e he
            simp only [List.mem_cons, List.mem_singleton, List.not_mem_nil, or_false] at hev
            rcases hev with hev | hev
            · subst hev
              cases he
              exact hun1 last
            · subst hev
              cases he
              exact hun last true
          refine ih _ _ _ _ hcont (walk_state.unlinked_append _ _ _ _ h1 ?_)
          intro ev hev e he
          rw [List.mem_singleton] at hev
          subst hev
          cases he
        · have hfile : (e0.file_attributes &&& 0x10) = 0 := by
            by_contra hne
            exact hdir hne
          rw [read_fat32_filesystem_loop_file w fuel read_info i st e0 x last hi hdec hlast
            hskip hfile] at h
          by_cases hh : w.h_flag = true
          · rw [if_pos hh, Run.bind_eq_ret] at h
            obtain ⟨c, -, hcont⟩ := h
            refine ih _ _ _ _ hcont (walk_state.unlinked_append _ _ _ _ hst ?_)
            intro ev hev e he
            simp only [List.mem_cons, List.mem_singleton, List.not_mem_nil, or_false] at hev
            rcases hev with hev | hev
            · subst hev
              cases he
              exact hun1 last
            · subst hev
              cases he
              exact hun1 last
          · rw [if_neg hh] at h
            refine ih _ _ _ _ h (walk_state.unlinked_append _ _ _ _ hst ?_)
            intro ev hev e he
            rw [List.mem_singleton] at hev
            subst hev
            cases he
            exact hun1 last
    · rw [read_fat32_filesystem_loop, if_neg hi] at h
      cases h
      exact hst

/-- C18 (amended): after `read_fat32_filesystem` returns, no tree has been built, on
any volume: the node it returns has the `parent_dir`, `dir_contents`, `next` and `prev`
pointers of the node it was given (`NULL` for the root, which is passed as `NULL` and
allocated zeroed), and every entry decoded during the walk, skipped or not, has all
four pointers `NULL`. -/
theorem read_fat32_filesystem_no_links (fuel : Nat) (w : walker) (c : Nat)
    (entry : Option fat_dir_entry) (st : walk_state) (r : fat_dir_entry × walk_state)
    (h : read_fat32_filesystem fuel w c entry st = Run.ret r) (hst : st.unlinked) :
    r.1.parent_dir = (entry.getD fat_dir_entry.zero).parent_dir ∧
    r.1.dir_contents = (entry.getD fat_dir_entry.zero).dir_contents ∧
    r.1.next = (entry.getD fat_dir_entry.zero).next ∧
    r.1.prev = (entry.getD fat_dir_entry.zero).prev ∧
    r.2.unlinked := by
  have he := read_fat32_filesystem_body_entry w fuel _ c _ st r h
  obtain ⟨ri, hscan⟩ := read_fat32_filesystem_body_scan w fuel _ c _ st r h
  refine ⟨by rw [he], by rw [he], by rw [he], by rw [he], ?_⟩
  exact read_fat32_filesystem_loop_unlinked w fuel ri 0 st r.2 hscan hst

/-- C18 (counterexample): the walk of `tiny_volume` returns, and it keeps `A.TXT` and
the directory `SUB` of the root directory (neither meets the skip test), yet the root
node it returns has no first child (`dir_contents` is `NULL`), and the nodes of `A.TXT`
and `SUB` have no parent and no sibling: they are not reachable from the root. -/
theorem read_fat32_filesystem_tree_counterexample :
    read_fat32_filesystem 24 (tiny_walker true) 2 none walk_start
      = Run.ret
        ({ fat_dir_entry.zero with last_cluster := 2 },
          { hidden_data_found := true, events := tiny_walk_events }) ∧
    ({ fat_dir_entry.zero with last_cluster := 2 } : fat_dir_entry).dir_contents = none ∧
    tiny_walk_events.get? 0 = some (walk_event.keep (mk_entry name_a 0x20 3 100 3)) ∧
    skip_entry (mk_entry name_a 0x20 3 100 3) = false ∧
    (mk_entry name_a 0x20 3 100 3).parent_dir = none ∧
    (mk_entry name_a 0x20 3 100 3).next = none ∧
    tiny_walk_events.get? 5
      = some (walk_event.dir { mk_entry name_sub 0x10 4 0 4 with is_directory := true }) ∧
    skip_entry (mk_entry name_sub 0x10 4 0 4) = false ∧
    ({ mk_entry name_sub 0x10 4 0 4 with is_directory := true } : fat_dir_entry).parent_dir
      = none ∧
    ({ mk_entry name_sub 0x10 4 0 4 with is_directory := true } : fat_dir_entry).prev
      = none :=
  ⟨tiny_walk_eval, rfl, rfl, by decide, rfl, rfl, rfl, by decide, rfl, rfl⟩

/-- C18 (amended) at a concrete volume: the walk of `tiny_volume` from its root. -/
theorem read_fat32_filesystem_no_links_witness :
    (read_fat32_filesystem 24 (tiny_walker true) 2 none walk_start = Run.ret tiny_walk_result ∧
      walk_start.unlinked) ∧
    (tiny_walk_result.1.parent_dir
        = ((none : Option fat_dir_entry).getD fat_dir_entry.zero).parent_dir ∧
    tiny_walk_result.1.dir_contents
        = ((none : Option fat_dir_entry).getD fat_dir_entry.zero).dir_contents ∧
    tiny_walk_result.1.next = ((none : Option fat_dir_entry).getD fat_dir_entry.zero).next ∧
    tiny_walk_result.1.prev = ((none : Option fat_dir_entry).getD fat_dir_entry.zero).prev ∧
    tiny_walk_result.2.unlinked) :=
  ⟨⟨tiny_walk_eval, fun _ hev => absurd hev (List.not_mem_nil _)⟩,
    read_fat32_filesystem_no_links 24 (tiny_walker true) 2 none walk_start tiny_walk_result
      tiny_walk_eval (fun _ hev => absurd hev (List.not_mem_nil _))⟩

/-! ## The slack scanner (`check_for_hidden_data`) -/

/-- A bitwise or is zero exactly when both operands are. -/
theorem lor_eq_zero_iff (a b : Nat) : a ||| b = 0 ↔ a = 0 ∧ b = 0 := by
  constructor
  · intro h
    have hb : ∀ i, (a.testBit i || b.testBit i) = false := by
      intro i
      rw [← Nat.testBit_or, h, Nat.zero_testBit]
    constructor
    · apply Nat.eq_of_testBit_eq
      intro i
      have := hb i
      rw [Nat.zero_testBit]
      cases hh : a.testBit i
      · rfl
      · rw [hh] at this
        simp at this
    · apply Nat.eq_of_testBit_eq
      intro i
      have := hb i
      rw [Nat.zero_testBit]
      cases hh : b.testBit i
      · rfl
      · rw [hh] at this
        simp at this
  · rintro ⟨rfl, rfl⟩
    rfl

/-- A one-byte `pread`: the image byte if it exists, else the old value of the byte. -/
theorem pread_field_one (img : Bytes) (old off : Nat) :
    pread_field img old 1 off = if off < img.size then img.byte off else old % 256 := by
  simp [pread_field]

/-- The scan loop of `check_for_hidden_data` in closed form: with `buf` nonzero only
if `hidden_found` already is, the accumulator ends nonzero exactly when it started
nonzero or one of the bytes read, at the offsets `(last_sector_start + i) mod 2^32`,
exists in the image and is nonzero. -/
theorem check_for_hidden_data_loop_ne_zero (img : Bytes) (start : Nat) :
    ∀ (n i h b : Nat), (b % 256 ≠ 0 → h ≠ 0) →
      (check_for_hidden_data_loop img start n i h b ≠ 0 ↔
        h ≠ 0 ∨ ∃ t, t < n ∧ (start + (i + t)) % 4294967296 < img.size ∧
          img.byte ((start + (i + t)) % 4294967296) ≠ 0) := by
  intro n
  induction n with
  | zero =>
    intro i h b _
    simp [check_for_hidden_data_loop]
  | succ n ih =>
    intro i h b hinv
    rw [check_for_hidden_data_loop, pread_field_one]
    have hv : ∀ v : Nat, v % 256 ≠ 0 → h ||| v ≠ 0 := by
      intro v hv hz
      rw [lor_eq_zero_iff] at hz
      rw [hz.2] at hv
      exact hv rfl
    have hstep : (h ||| (if (start + i) % 4294967296 < img.size
          then img.byte ((start + i) % 4294967296) else b % 256)) ≠ 0
        ↔ h ≠ 0 ∨ ((start + i) % 4294967296 < img.size ∧
            img.byte ((start + i) % 4294967296) ≠ 0) := by
      rw [Ne, lor_eq_zero_iff]
      by_cases hin : (start + i) % 4294967296 < img.size
      · simp only [if_pos hin, hin, true_and]
        tauto
      · simp only [if_neg hin, hin, false_and, or_false]
        constructor
        · intro hne hz
          by_cases hb : b % 256 = 0
          · exact hne ⟨hz, hb⟩
          · exact hinv hb hz
        · intro hne hz
          exact hne hz.1
    rw [ih (i + 1) _ _ (by
      intro hne
      apply hv
      by_cases hin : (start + i) % 4294967296 < img.size
      · rw [if_pos hin] at hne ⊢
        rw [Bytes.byte, Nat.mod_mod] at hne ⊢
        exact hne
      · rw [if_neg hin] at hne ⊢
        rw [Nat.mod_mod] at hne ⊢
        exact hne), hstep]
    constructor
    · rintro ((h1 | h1) | ⟨t, ht, h2⟩)
      · exact Or.inl h1
      · exact Or.inr ⟨0, by omega, h1⟩
      · refine Or.inr ⟨t + 1, by omega, ?_⟩
        have e : i + (t + 1) = i + 1 + t := by omega
        rw [e]
        exact h2
    · rintro (h1 | ⟨t, ht, h2⟩)
      · exact Or.inl (Or.inl h1)
      · cases t with
        | zero => exact Or.inl (Or.inr h2)
        | succ t =>
          refine Or.inr ⟨t, by omega, ?_⟩
          have e : i + (t + 1) = i + 1 + t := by omega
          rw [← e]
          exact h2

/-- The result of `check_for_hidden_data` for a nonzero cluster size `C`: hidden data
is reported, and the flag set, exactly when a byte that exists in the image at an
offset `(cts(last_cluster) + i) mod 2^32` with `file_size mod C ≤ i < C` is nonzero;
otherwise nothing is reported and the flag is left as it was. -/
theorem check_for_hidden_data_eq (img : Bytes) (g : Globals) (entry : fat_dir_entry)
    (hidden_data_found : Bool) (hC : cluster_bytes g ≠ 0) :
    ((∃ i, entry.file_size % cluster_bytes g ≤ i ∧ i < cluster_bytes g ∧
          (cts g entry.last_cluster + i) % 4294967296 < img.size ∧
          img.byte ((cts g entry.last_cluster + i) % 4294967296) ≠ 0) →
      check_for_hidden_data img g entry hidden_data_found = Run.ret (true, true)) ∧
    ((¬ ∃ i, entry.file_size % cluster_bytes g ≤ i ∧ i < cluster_bytes g ∧
          (cts g entry.last_cluster + i) % 4294967296 < img.size ∧
          img.byte ((cts g entry.last_cluster + i) % 4294967296) ≠ 0) →
      check_for_hidden_data img g entry hidden_data_found
        = Run.ret (hidden_data_found, false)) := by
  have hlt : entry.file_size % cluster_bytes g < cluster_bytes g :=
    Nat.mod_lt _ (Nat.pos_of_ne_zero hC)
  have hloop := check_for_hidden_data_loop_ne_zero img (cts g entry.last_cluster)
    (cluster_bytes g - entry.file_size % cluster_bytes g)
    (entry.file_size % cluster_bytes g) 0 0 (fun h => absurd rfl h)
  have hiff : check_for_hidden_data_loop img (cts g entry.last_cluster)
        (cluster_bytes g - entry.file_size % cluster_bytes g)
        (entry.file_size % cluster_bytes g) 0 0 ≠ 0
      ↔ ∃ i, entry.file_size % cluster_bytes g ≤ i ∧ i < cluster_bytes g ∧
            (cts g entry.last_cluster + i) % 4294967296 < img.size ∧
            img.byte ((cts g entry.last_cluster + i) % 4294967296) ≠ 0 := by
    rw [hloop]
    constructor
    · rintro (h | ⟨t, ht, h⟩)
      · exact absurd rfl h
      · exact ⟨entry.file_size % cluster_bytes g + t, by omega, by omega, h⟩
    · rintro ⟨i, h1, h2, h⟩
      refine Or.inr ⟨i - entry.file_size % cluster_bytes g, by omega, ?_⟩
      have e : entry.file_size % cluster_bytes g + (i - entry.file_size % cluster_bytes g)
          = i := by omega
      rw [e]
      exact h
  unfold check_for_hidden_data
  rw [if_neg hC]
  simp only []
  constructor
  · intro hex
    rw [if_pos (hiff.mpr hex)]
  · intro hex
    rw [if_neg (fun h => hex (hiff.mp h))]

/-- C19 (counterexample): the last cluster of `straddle_file` starts at
`cts = 2^32 - 512` and `file_size mod C = 1000`, so the slack is the physical offsets
`cts + 1000 .. cts + 1023`; the image byte at `cts + 1012 = 2^32 + 500` is nonzero, yet
`check_for_hidden_data` reports nothing, because it reads at the `uint32_t` sums
`488 .. 511`. -/
theorem check_for_hidden_data_wrap_counterexample :
    0 < straddle_geometry.bps * straddle_geometry.spc ∧
    cts straddle_geometry straddle_file.last_cluster = 4294966784 ∧
    straddle_file.file_size % (straddle_geometry.bps * straddle_geometry.spc) = 1000 ∧
    (1000 ≤ 1012 ∧ 1012 < straddle_geometry.bps * straddle_geometry.spc ∧
      cts straddle_geometry straddle_file.last_cluster + 1012 < straddle_image.size ∧
      straddle_image.byte (cts straddle_geometry straddle_file.last_cluster + 1012) = 0x99) ∧
    check_for_hidden_data straddle_image straddle_geometry straddle_file false
      = Run.ret (false, false) := by
  refine ⟨by decide, by decide, by decide, by decide, ?_⟩
  decide

/-- C19 (amended): for every file entry and geometry with `C = bps * spc > 0` (below
`2^32`), `check_for_hidden_data` returns; it reports hidden data and sets
`hidden_data_found` to true iff some byte that exists in the image at the offset
`(cts(last_cluster) + i) mod 2^32` (the `uint32_t` sum the code reads at) with
`file_size mod C ≤ i < C` is nonzero; when all those bytes are zero it reports nothing
and leaves `hidden_data_found` unchanged. -/
theorem check_for_hidden_data_reports (img : Bytes) (g : Globals) (entry : fat_dir_entry)
    (hidden_data_found : Bool)
    (hpos : 0 < g.bps * g.spc) (hlt : g.bps * g.spc < 4294967296) :
    (check_for_hidden_data img g entry hidden_data_found = Run.ret (true, true) ↔
      ∃ i, entry.file_size % (g.bps * g.spc) ≤ i ∧ i < g.bps * g.spc ∧
        (cts g entry.last_cluster + i) % 4294967296 < img.size ∧
        img.byte ((cts g entry.last_cluster + i) % 4294967296) ≠ 0) ∧
    ((∀ i, entry.file_size % (g.bps * g.spc) ≤ i → i < g.bps * g.spc →
        (cts g entry.last_cluster + i) % 4294967296 < img.size →
        img.byte ((cts g entry.last_cluster + i) % 4294967296) = 0) →
      check_for_hidden_data img g entry hidden_data_found
        = Run.ret (hidden_data_found, false)) := by
  have hcb : cluster_bytes g = g.bps * g.spc := Nat.mod_eq_of_lt hlt
  have hC : cluster_bytes g ≠ 0 := by rw [hcb]; omega
  obtain ⟨hyes, hno⟩ := check_for_hidden_data_eq img g entry hidden_data_found hC
  rw [hcb] at hyes hno
  refine ⟨⟨?_, hyes⟩, ?_⟩
  · intro h
    by_contra hex
    rw [hno hex] at h
    simp at h
  · intro hall
    apply hno
    rintro ⟨i, h1, h2, h3, h4⟩
    exact h4 (hall i h1 h2 h3)

/-- C19 (amended) at a concrete file: `A.TXT` of `tiny_volume` (100 bytes in cluster 3,
512-byte clusters), with the byte 0x99 at offset 200 of its last cluster. -/
theorem check_for_hidden_data_reports_witness :
    (0 < g512.bps * g512.spc ∧ g512.bps * g512.spc < 4294967296) ∧
    ((check_for_hidden_data tiny_volume g512 (mk_entry name_a 0x20 3 100 3) false
        = Run.ret (true, true) ↔
      ∃ i, (mk_entry name_a 0x20 3 100 3).file_size % (g512.bps * g512.spc) ≤ i ∧
        i < g512.bps * g512.spc ∧
        (cts g512 (mk_entry name_a 0x20 3 100 3).last_cluster + i) % 4294967296
          < tiny_volume.size ∧
        tiny_volume.byte
          ((cts g512 (mk_entry name_a 0x20 3 100 3).last_cluster + i) % 4294967296) ≠ 0) ∧
    ((∀ i, (mk_entry name_a 0x20 3 100 3).file_size % (g512.bps * g512.spc) ≤ i →
        i < g512.bps * g512.spc →
        (cts g512 (mk_entry name_a 0x20 3 100 3).last_cluster + i) % 4294967296
          < tiny_volume.size →
        tiny_volume.byte
          ((cts g512 (mk_entry name_a 0x20 3 100 3).last_cluster + i) % 4294967296) = 0) →
      check_for_hidden_data tiny_volume g512 (mk_entry name_a 0x20 3 100 3) false
        = Run.ret (false, false))) :=
  ⟨⟨by decide, by decide⟩,
    check_for_hidden_data_reports tiny_volume g512 (mk_entry name_a 0x20 3 100 3) false
      (by decide) (by decide)⟩

/-- The slack scan of `A.TXT` in `tiny_volume` reports hidden data: the byte at offset
200 of cluster 3, past the 100 bytes of the file, is 0x99. -/
theorem check_for_hidden_data_example :
    check_for_hidden_data tiny_volume g512 (mk_entry name_a 0x20 3 100 3) false
      = Run.ret (true, true) :=
  (check_for_hidden_data_eq tiny_volume g512 (mk_entry name_a 0x20 3 100 3) false
    (by decide)).1 ⟨200, by decide, by decide, by decide, by decide⟩

/-- C20 (evaluation at the failing input): for a file of 512 bytes, exactly one
cluster of 512 bytes, `slack_start = file_size % (bps * spc)` is 0 and not the cluster
size, so the loop makes 512 passes over the whole last cluster, whose first byte (file
data) is nonzero, and hidden data is reported. -/
theorem check_for_hidden_data_full_cluster :
    full_cluster_file.file_size = 1 * (g512.bps * g512.spc) ∧
    full_cluster_file.file_size % cluster_bytes g512 = 0 ∧
    cluster_bytes g512 - full_cluster_file.file_size % cluster_bytes g512 = 512 ∧
    sector_stamp.byte (cts g512 full_cluster_file.last_cluster) = 3 ∧
    check_for_hidden_data sector_stamp g512 full_cluster_file false = Run.ret (true, true) :=
  ⟨by decide, by decide, by decide, by decide,
    (check_for_hidden_data_eq sector_stamp g512 full_cluster_file false (by decide)).1
      ⟨0, by decide, by decide, by decide, by decide⟩⟩

/-! ## The partition table (`read_mbr_sector`) -/

/-- A four-byte `pread` that lies inside the image delivers the little-endian 32-bit
value stored there. -/
theorem pread_field_le32 (img : Bytes) (old off : Nat) (h : off + 4 ≤ img.size) :
    pread_field img old 4 off = le32 img off := by
  have h0 : off < img.size := by omega
  have h1 : off + 1 < img.size := by omega
  have h2 : off + 1 + 1 < img.size := by omega
  have h3 : off + 1 + 1 + 1 < img.size := by omega
  simp only [pread_field, le32, h0, h1, h2, h3, if_true]
  have e2 : off + 1 + 1 = off + 2 := by omega
  have e3 : off + 1 + 1 + 1 = off + 3 := by omega
  rw [e3, e2]
  omega

/-- A one-byte `pread` that lies inside the image delivers the byte stored there. -/
theorem pread_field_byte (img : Bytes) (old off : Nat) (h : off < img.size) :
    pread_field img old 1 off = img.byte off := by
  rw [pread_field_one, if_pos h]

/-- C25: for every image of at least 512 bytes and every i in {0,1,2,3},
`read_mbr_sector` leaves in `entry[i]` the boot indicator = byte at 0x1BE+16i+0, the
partition type = byte at 0x1BE+16i+4, the starting sector = little-endian 32-bit value
at 0x1BE+16i+8 and the partition size = little-endian 32-bit value at 0x1BE+16i+12.
These values depend on those image bytes only, whatever the partition types are (an
extended type 0x05 or 0x0F included); the `ebr_table` pointer of the entry is not
touched. -/
theorem read_mbr_sector_decodes (img : Bytes) (mbr : mbr_sector)
    (hsize : 512 ≤ img.size) (hlen : mbr.entry.length = 4) (i : Nat) (hi : i < 4) :
    (read_mbr_sector img mbr).1.entry.length = 4 ∧
    ∃ e old, (read_mbr_sector img mbr).1.entry.get? i = some e ∧
      mbr.entry.get? i = some old ∧
      e.boot_indicator = img.byte (0x1BE + 16 * i + 0) ∧
      e.partition_type = img.byte (0x1BE + 16 * i + 4) ∧
      e.starting_sector = le32 img (0x1BE + 16 * i + 8) ∧
      e.partition_size = le32 img (0x1BE + 16 * i + 12) ∧
      e.ebr_table = old.ebr_table := by
  obtain ⟨entry⟩ := mbr
  match entry, hlen with
  | [a, b, c, d], _ =>
    have hb : ∀ (old off : Nat), off < 512 → pread_field img old 1 off = img.byte off :=
      fun old off h => pread_field_byte img old off (by omega)
    have hw : ∀ (old off : Nat), off + 4 ≤ 512 → pread_field img old 4 off = le32 img off :=
      fun old off h => pread_field_le32 img old off (by omega)
    have hr : List.range 4 = [0, 1, 2, 3] := by decide
    simp only [read_mbr_sector, hr, List.foldl, read_mbr_sector_pass, mbr_sector_offsets,
      MBR_PART1_OFF, MBR_PART2_OFF, MBR_PART3_OFF, MBR_PART4_OFF, PARTITION_TYPE,
      BOOT_INDICATOR, STARTING_SECTOR, PARTITION_SIZE, List.getD_cons_zero,
      List.getD_cons_succ, List.set_cons_zero, List.set_cons_succ]
    refine ⟨by simp, ?_⟩
    interval_cases i
    · refine ⟨_, a, rfl, rfl, ?_⟩
      simp [hb, hw]
    · refine ⟨_, b, rfl, rfl, ?_⟩
      simp [hb, hw]
    · refine ⟨_, c, rfl, rfl, ?_⟩
      simp [hb, hw]
    · refine ⟨_, d, rfl, rfl, ?_⟩
      simp [hb, hw]

/-- C25 at a concrete table: entry 1 of `mbr_image`, an extended partition. -/
theorem read_mbr_sector_decodes_witness :
    (512 ≤ mbr_image.size ∧ mbr_sector.zero.entry.length = 4 ∧ 1 < 4) ∧
    ((read_mbr_sector mbr_image mbr_sector.zero).1.entry.length = 4 ∧
    ∃ e old, (read_mbr_sector mbr_image mbr_sector.zero).1.entry.get? 1 = some e ∧
      mbr_sector.zero.entry.get? 1 = some old ∧
      e.boot_indicator = mbr_image.byte (0x1BE + 16 * 1 + 0) ∧
      e.partition_type = mbr_image.byte (0x1BE + 16 * 1 + 4) ∧
      e.starting_sector = le32 mbr_image (0x1BE + 16 * 1 + 8) ∧
      e.partition_size = le32 mbr_image (0x1BE + 16 * 1 + 12) ∧
      e.ebr_table = old.ebr_table) :=
  ⟨⟨by decide, by decide, by decide⟩,
    read_mbr_sector_decodes mbr_image mbr_sector.zero (by decide) (by decide) 1 (by decide)⟩

/-- The table `read_mbr_sector` decodes from `mbr_image`. -/
theorem read_mbr_sector_example :
    read_mbr_sector mbr_image mbr_sector.zero
      = ({ entry :=
            [{ boot_indicator := 0x80, partition_type := 0x0C, starting_sector := 2048,
               partition_size := 4096, ebr_table := none },
             { boot_indicator := 0, partition_type := 0x05, starting_sector := 8192,
               partition_size := 2048, ebr_table := none },
             partition_table.zero, partition_table.zero] }, 0) := by
  decide

/-! ## Image verification (`verify_disk_image`) -/

/-- Two octets combined as `(a << 8) | b`. -/
theorem shift_or_16 (a b : Nat) (ha : a < 256) (hb : b < 256) :
    ((a * 256) ||| b) % 65536 = a * 256 + b := by
  have h := Nat.mul_add_lt_is_or (show b < 2 ^ 8 from hb) a
  have e : (2 : Nat) ^ 8 * a = a * 256 := by omega
  rw [e] at h
  rw [← h]
  omega

/-- Three octets combined as `(a << 16) | (b << 8) | c`. -/
theorem shift_or_24 (a b c : Nat) (ha : a < 256) (hb : b < 256) (hc : c < 256) :
    ((a * 65536) ||| (b * 256) ||| c) % 4294967296 = a * 65536 + b * 256 + c := by
  have h1 := Nat.mul_add_lt_is_or (show b * 256 < 2 ^ 16 by omega) a
  have e1 : (2 : Nat) ^ 16 * a = a * 65536 := by omega
  rw [e1] at h1
  have h2 := Nat.mul_add_lt_is_or (show c < 2 ^ 8 from hc) (a * 256 + b)
  have e2 : (2 : Nat) ^ 8 * (a * 256 + b) = a * 65536 + b * 256 := by omega
  rw [e2] at h2
  rw [← h1, ← h2]
  omega

/-- The function `verify_disk_image` on an image that holds its first 512 bytes, in
closed form. -/
theorem verify_disk_image_eq (img : Bytes) (buf : Nat → Nat) (fs_type : Nat)
    (hsize : 512 ≤ img.size) :
    verify_disk_image img buf fs_type
      = if img.byte 0x1FE = 0x55 ∧ img.byte 0x1FF = 0xAA ∧ fs_type = detected_type img
        then Outcome.returns (detected_type img) else Outcome.exit_failure := by
  have h0 : 0 < img.size := by omega
  have h1 : 1 < img.size := by omega
  have h2 : 2 < img.size := by omega
  have h510 : 510 < img.size := by omega
  have h511 : 511 < img.size := by omega
  have b0 : img.byte 0 < 256 := Nat.mod_lt _ (by decide)
  have b1 : img.byte 1 < 256 := Nat.mod_lt _ (by decide)
  have b2 : img.byte 2 < 256 := Nat.mod_lt _ (by decide)
  have s0 : img.byte 510 < 256 := Nat.mod_lt _ (by decide)
  have s1 : img.byte 511 < 256 := Nat.mod_lt _ (by decide)
  have m0 : img.byte 0 % 256 = img.byte 0 := Nat.mod_eq_of_lt b0
  have m1 : img.byte 1 % 256 = img.byte 1 := Nat.mod_eq_of_lt b1
  have m2 : img.byte 2 % 256 = img.byte 2 := Nat.mod_eq_of_lt b2
  have n0 : img.byte 510 % 256 = img.byte 510 := Nat.mod_eq_of_lt s0
  have n1 : img.byte 511 % 256 = img.byte 511 := Nat.mod_eq_of_lt s1
  simp only [verify_disk_image, pread, MAX_RW_COUNT, MBR_SIG_OFF, Nat.le_refl, Nat.sub_self,
    Nat.add_zero,
    Nat.zero_add, Nat.zero_le, Nat.sub_zero, h0, h1, h2, h510, h511, true_and, if_true,
    Nat.lt_add_one, Nat.one_lt_ofNat, Nat.ofNat_pos, show (1 : Nat) < 2 by decide,
    show (0 : Nat) < 2 by decide, show (0 : Nat) < 3 by decide, show (1 : Nat) < 3 by decide,
    show (2 : Nat) < 3 by decide, show (510 : Nat) + 1 = 511 by decide, and_self,
    show (2 : Nat) < 2147479552 by decide,
    m0, m1, m2, n0, n1]
  rw [shift_or_16 _ _ s0 s1, shift_or_24 _ _ _ b0 b1 b2]
  simp only [MBR_SIG, NTFS_SIG, FAT32_SIG, FAT16_SIG, FAT12_SIG, detected_type]
  have hs : img.byte 510 * 256 + img.byte 511 = 21930
      ↔ img.byte 510 = 85 ∧ img.byte 511 = 170 := by omega
  have hn : img.byte 0 * 65536 + img.byte 1 * 256 + img.byte 2 = 15422096
      ↔ img.byte 0 = 235 ∧ img.byte 1 = 82 ∧ img.byte 2 = 144 := by omega
  have h32 : img.byte 0 * 65536 + img.byte 1 * 256 + img.byte 2 = 15423632
      ↔ img.byte 0 = 235 ∧ img.byte 1 = 88 ∧ img.byte 2 = 144 := by omega
  have h16 : img.byte 0 * 65536 + img.byte 1 * 256 + img.byte 2 = 15416464
      ↔ img.byte 0 = 235 ∧ img.byte 1 = 60 ∧ img.byte 2 = 144 := by omega
  have h12 : img.byte 0 * 65536 + img.byte 1 * 256 + img.byte 2 = 15417232
      ↔ img.byte 0 = 235 ∧ img.byte 1 = 63 ∧ img.byte 2 = 144 := by omega
  simp only [ne_eq, hs, hn, h32, h16, h12]
  split_ifs <;> simp_all

/-- C24: on an image that holds its first 512 bytes, `verify_disk_image` returns a
type `t` without aborting iff the image bytes at 0x1FE and 0x1FF are 0x55 and 0xAA,
`t` is the type detected from the 3 bytes at offset 0 (EB 52 90 NTFS, EB 58 90 FAT32,
EB 3C 90 FAT16, EB 3F 90 FAT12, anything else RAW) and the declared `fs_type` equals
`t`; in every other case it aborts (so with the signature present, FAT16 declared and
FAT32 detected it aborts), and a bad signature aborts whatever type is declared. -/
theorem verify_disk_image_result (img : Bytes) (buf : Nat → Nat) (fs_type : Nat)
    (hsize : 512 ≤ img.size) :
    (∀ t, verify_disk_image img buf fs_type = Outcome.returns t ↔
      img.byte 0x1FE = 0x55 ∧ img.byte 0x1FF = 0xAA ∧ t = detected_type img ∧ fs_type = t) ∧
    (¬ (img.byte 0x1FE = 0x55 ∧ img.byte 0x1FF = 0xAA ∧ fs_type = detected_type img) →
      verify_disk_image img buf fs_type = Outcome.exit_failure) ∧
    (img.byte 0x1FE = 0x55 → img.byte 0x1FF = 0xAA → detected_type img = FAT32 →
      verify_disk_image img buf FAT16 = Outcome.exit_failure) ∧
    (¬ (img.byte 0x1FE = 0x55 ∧ img.byte 0x1FF = 0xAA) →
      ∀ declared, verify_disk_image img buf declared = Outcome.exit_failure) := by
  refine ⟨?_, ?_, ?_, ?_⟩
  · intro t
    rw [verify_disk_image_eq img buf fs_type hsize]
    by_cases hc : img.byte 0x1FE = 0x55 ∧ img.byte 0x1FF = 0xAA ∧ fs_type = detected_type img
    · rw [if_pos hc]
      obtain ⟨h1, h2, h3⟩ := hc
      constructor
      · intro h
        cases h
        exact ⟨h1, h2, rfl, h3⟩
      · rintro ⟨-, -, ht, -⟩
        rw [ht]
    · rw [if_neg hc]
      constructor
      · intro h
        cases h
      · rintro ⟨h1, h2, ht, hf⟩
        exact absurd ⟨h1, h2, hf.trans ht⟩ hc
  · intro hc
    rw [verify_disk_image_eq img buf fs_type hsize, if_neg hc]
  · intro h1 h2 h3
    rw [verify_disk_image_eq img buf FAT16 hsize, if_neg]
    rintro ⟨-, -, h⟩
    rw [h3] at h
    exact absurd h (by decide)
  · intro hc declared
    rw [verify_disk_image_eq img buf declared hsize, if_neg]
    rintro ⟨h1, h2, -⟩
    exact hc ⟨h1, h2⟩

/-- C24 at a concrete image: `volume_image 0x58` carries the FAT32 jump `EB 58 90`,
with FAT16 declared. -/
theorem verify_disk_image_result_witness :
    512 ≤ (volume_image 0x58).size ∧
    ((∀ t, verify_disk_image (volume_image 0x58) (fun _ => 0) FAT16 = Outcome.returns t ↔
      (volume_image 0x58).byte 0x1FE = 0x55 ∧ (volume_image 0x58).byte 0x1FF = 0xAA ∧
        t = detected_type (volume_image 0x58) ∧ FAT16 = t) ∧
    (¬ ((volume_image 0x58).byte 0x1FE = 0x55 ∧ (volume_image 0x58).byte 0x1FF = 0xAA ∧
          FAT16 = detected_type (volume_image 0x58)) →
      verify_disk_image (volume_image 0x58) (fun _ => 0) FAT16 = Outcome.exit_failure) ∧
    ((volume_image 0x58).byte 0x1FE = 0x55 → (volume_image 0x58).byte 0x1FF = 0xAA →
      detected_type (volume_image 0x58) = FAT32 →
      verify_disk_image (volume_image 0x58) (fun _ => 0) FAT16 = Outcome.exit_failure) ∧
    (¬ ((volume_image 0x58).byte 0x1FE = 0x55 ∧ (volume_image 0x58).byte 0x1FF = 0xAA) →
      ∀ declared,
        verify_disk_image (volume_image 0x58) (fun _ => 0) declared = Outcome.exit_failure)) :=
  ⟨by decide, verify_disk_image_result (volume_image 0x58) (fun _ => 0) FAT16 (by decide)⟩

/-- What `verify_disk_image` does on `volume_image 0x58`: it returns FAT32 when FAT32 is
declared and aborts when FAT16 is; on an image without the signature 55 AA it aborts
whatever is declared. -/
theorem verify_disk_image_examples :
    verify_disk_image (volume_image 0x58) (fun _ => 0) FAT32 = Outcome.returns FAT32 ∧
    verify_disk_image (volume_image 0x58) (fun _ => 0) FAT16 = Outcome.exit_failure ∧
    verify_disk_image (volume_image 0x3C) (fun _ => 0) FAT16 = Outcome.returns FAT16 ∧
    verify_disk_image mbr_image (fun _ => 0) RAW = Outcome.returns RAW ∧
    verify_disk_image sector_stamp (fun _ => 0) RAW = Outcome.exit_failure := by
  decide

/-! ## Boot-sector validation (`validate_fat_boot_sector`) -/

/-- C27: `validate_fat_boot_sector` ends in a fatal error for every boot sector (with
`bps` published from it and sectors-per-cluster in the range of its `uint8_t`) in
which bytes-per-sector is not one of 512, 1024, 2048, 4096, or
sectors_per_cluster * bytes-per-sector > 32768, or number_of_fats = 0. -/
theorem validate_fat_boot_sector_fatal (g : Globals) (fat_sector : fat_boot_sector)
    (hpub : g.bps = fat_sector.bytes_per_sector)
    (hspc : fat_sector.sectors_per_cluster < 256)
    (h : ¬ (fat_sector.bytes_per_sector = 512 ∨ fat_sector.bytes_per_sector = 1024 ∨
            fat_sector.bytes_per_sector = 2048 ∨ fat_sector.bytes_per_sector = 4096) ∨
         fat_sector.sectors_per_cluster * fat_sector.bytes_per_sector > 32768 ∨
         fat_sector.number_of_fats = 0) :
    validate_fat_boot_sector g fat_sector = Outcome.exit_failure := by
  unfold validate_fat_boot_sector
  rw [hpub]
  by_cases hb : fat_sector.bytes_per_sector = 512 ∨ fat_sector.bytes_per_sector = 1024 ∨
      fat_sector.bytes_per_sector = 2048 ∨ fat_sector.bytes_per_sector = 4096
  · rw [if_neg (not_not.mpr hb)]
    simp only [Nat.mod_eq_of_lt hspc]
    split_ifs with h1 h2 h3
    · rfl
    · rfl
    · rfl
    · exfalso
      have hprod : fat_sector.sectors_per_cluster * fat_sector.bytes_per_sector
          < 4294967296 := by
        have : fat_sector.bytes_per_sector ≤ 4096 := by omega
        calc fat_sector.sectors_per_cluster * fat_sector.bytes_per_sector
            ≤ 255 * 4096 := Nat.mul_le_mul (by omega) this
          _ < 4294967296 := by decide
      rw [Nat.mod_eq_of_lt hprod] at h2
      rcases h with h | h | h
      · exact h hb
      · exact h2 h
      · omega
  · rw [if_pos hb]

/-- C27 at a concrete boot sector: 512-byte sectors, 1 sector per cluster, no FAT. -/
theorem validate_fat_boot_sector_fatal_witness :
    ((plain_geometry 1).bps = (plain_sector 1 0).bytes_per_sector ∧
      (plain_sector 1 0).sectors_per_cluster < 256 ∧
      (¬ ((plain_sector 1 0).bytes_per_sector = 512 ∨
            (plain_sector 1 0).bytes_per_sector = 1024 ∨
            (plain_sector 1 0).bytes_per_sector = 2048 ∨
            (plain_sector 1 0).bytes_per_sector = 4096) ∨
         (plain_sector 1 0).sectors_per_cluster * (plain_sector 1 0).bytes_per_sector > 32768 ∨
         (plain_sector 1 0).number_of_fats = 0)) ∧
    validate_fat_boot_sector (plain_geometry 1) (plain_sector 1 0) = Outcome.exit_failure :=
  ⟨⟨by decide, by decide, Or.inr (Or.inr (by decide))⟩,
    validate_fat_boot_sector_fatal (plain_geometry 1) (plain_sector 1 0) (by decide)
      (by decide) (Or.inr (Or.inr (by decide)))⟩

/-- What `validate_fat_boot_sector` does with some cluster sizes at 512 bytes per
sector: 128 sectors per cluster (65536 bytes) and 0 are fatal, 64 is accepted. -/
theorem validate_fat_boot_sector_examples :
    validate_fat_boot_sector (plain_geometry 128) (plain_sector 128 2) = Outcome.exit_failure ∧
    validate_fat_boot_sector (plain_geometry 0) (plain_sector 0 2) = Outcome.exit_failure ∧
    validate_fat_boot_sector (plain_geometry 64) (plain_sector 64 2)
      = Outcome.returns
          { conflicting_indicators := false, media_type_unknown := false,
            conflicting_sector_counts := false } := by
  decide

/-- No power of two equals 3 or 6. -/
theorem three_six_not_pow_two (k : Nat) : 2 ^ k ≠ 3 ∧ 2 ^ k ≠ 6 := by
  match k with
  | 0 => decide
  | 1 => decide
  | 2 => decide
  | k + 3 =>
    have h : 2 ^ (k + 3) = 8 * 2 ^ k := by rw [pow_add]; omega
    have hp : 0 < 2 ^ k := Nat.two_pow_pos k
    omega

/-- C28 (evaluation at the failing input): with 512 bytes per sector and 2 FATs,
`validate_fat_boot_sector` accepts 3 and 6 sectors per cluster, which are not powers
of two: the source's test `!(sec_per_clus != 0) && (...)` is true for 0 only, and the
size test accepts 1536 and 3072 bytes. -/
theorem validate_accepts_non_power_of_two :
    (∀ k, 2 ^ k ≠ 3 ∧ 2 ^ k ≠ 6) ∧
    validate_fat_boot_sector (plain_geometry 3) (plain_sector 3 2)
      = Outcome.returns
          { conflicting_indicators := false, media_type_unknown := false,
            conflicting_sector_counts := false } ∧
    validate_fat_boot_sector (plain_geometry 6) (plain_sector 6 2)
      = Outcome.returns
          { conflicting_indicators := false, media_type_unknown := false,
            conflicting_sector_counts := false } ∧
    validate_fat_boot_sector (plain_geometry 0) (plain_sector 0 2) = Outcome.exit_failure :=
  ⟨three_six_not_pow_two, by decide, by decide, by decide⟩

/-! ## Loading and comparing the tables (`copy_fats_into_memory`) -/

/-- One pass of the comparison loop adds 1 to `diff` exactly when the buffers differ
at its index. -/
theorem copy_fats_compare_pass_diff (fat1 fat2 : Bytes) (R S i : Nat) (d : fat_diff) :
    (copy_fats_compare_pass fat1 fat2 R S i d).diff
      = d.diff + if fat1.byte i ≠ fat2.byte i then 1 else 0 := by
  unfold copy_fats_compare_pass
  by_cases hx : fat1.byte i = fat2.byte i
  · have hz : fat1.byte i ^^^ fat2.byte i = 0 := Nat.xor_eq_zero.mpr hx
    rw [if_neg (not_not.mpr hz), if_neg (not_not.mpr hx)]
    dsimp only
    split_ifs <;> rfl
  · have hz : fat1.byte i ^^^ fat2.byte i ≠ 0 := fun h => hx (Nat.xor_eq_zero.mp h)
    rw [if_pos hz, if_pos hx]
    dsimp only
    split_ifs <;> rfl

/-- One pass of the comparison loop over an index at which the buffers agree, with
`diff` not 11, changes nothing. -/
theorem copy_fats_compare_pass_same (fat1 fat2 : Bytes) (R S i : Nat) (d : fat_diff)
    (hx : fat1.byte i = fat2.byte i) (hd : d.diff ≠ 11) :
    copy_fats_compare_pass fat1 fat2 R S i d = d := by
  unfold copy_fats_compare_pass
  have hz : fat1.byte i ^^^ fat2.byte i = 0 := Nat.xor_eq_zero.mpr hx
  rw [if_neg (not_not.mpr hz)]
  dsimp only
  rw [if_neg hd]

/-- The comparison loop faults when it has to pass index `2^31`. -/
theorem copy_fats_compare_loop_oob (fat1 fat2 : Bytes) (R S : Nat) :
    ∀ (passes i : Nat) (d : fat_diff), 2147483648 < passes + i → i ≤ 2147483648 →
      copy_fats_compare_loop fat1 fat2 R S passes i d = Run.oob := by
  intro passes
  induction passes with
  | zero => intro i d h1 h2; omega
  | succ n ih =>
    intro i d h1 h2
    rw [copy_fats_compare_loop]
    by_cases hi : 2147483648 ≤ i
    · rw [if_pos hi]
    · rw [if_neg hi]
      exact ih (i + 1) _ (by omega) (by omega)

/-- The comparison loop returns when all its indices are below `2^31`, and `diff` has
grown by the number of indices of the passes at which the buffers differ. -/
theorem copy_fats_compare_loop_diff (fat1 fat2 : Bytes) (R S : Nat) :
    ∀ (passes i : Nat) (d : fat_diff), passes + i ≤ 2147483648 →
      ∃ d', copy_fats_compare_loop fat1 fat2 R S passes i d = Run.ret d' ∧
        d'.diff = d.diff
          + (List.range' i passes).countP (fun j => decide (fat1.byte j ≠ fat2.byte j)) := by
  intro passes
  induction passes with
  | zero =>
    intro i d _
    exact ⟨d, rfl, by simp⟩
  | succ n ih =>
    intro i d h
    rw [copy_fats_compare_loop, if_neg (by omega)]
    obtain ⟨d', hd, hc⟩ := ih (i + 1) (copy_fats_compare_pass fat1 fat2 R S i d) (by omega)
    refine ⟨d', hd, ?_⟩
    rw [hc, copy_fats_compare_pass_diff, List.range'_succ, List.countP_cons]
    by_cases hx : fat1.byte i = fat2.byte i
    · simp [hx]
    · simp [hx]
      omega

/-- On buffers that agree at every index of the remaining passes, the comparison loop
returns its accumulator unchanged (when `diff` is not 11). -/
theorem copy_fats_compare_loop_same (fat1 fat2 : Bytes) (R S : Nat) :
    ∀ (passes i : Nat) (d : fat_diff), passes + i ≤ 2147483648 → d.diff ≠ 11 →
      (∀ j, i ≤ j → j < i + passes → fat1.byte j = fat2.byte j) →
      copy_fats_compare_loop fat1 fat2 R S passes i d = Run.ret d := by
  intro passes
  induction passes with
  | zero =>
    intro i d _ _ _
    rfl
  | succ n ih =>
    intro i d h hd hsame
    rw [copy_fats_compare_loop, if_neg (by omega),
      copy_fats_compare_pass_same fat1 fat2 R S i d (hsame i (Nat.le_refl _) (by omega)) hd]
    exact ih (i + 1) d (by omega) hd (fun j h1 h2 => hsame j (by omega) (by omega))

/-- What `read_fat_boot_sector` decodes from `volume_image 0x3C` and from
`volume_image 0x58`. -/
theorem read_fat_boot_sector_volume :
    read_fat_boot_sector (volume_image 0x3C) fat_boot_sector.zero 0 Globals.init
      = some (volume_sector, volume_geometry) ∧
    read_fat_boot_sector (volume_image 0x58) fat_boot_sector.zero 0 Globals.init
      = some (volume_sector, volume_geometry) := by
  decide

/-- The size `copy_fats_into_memory` computes, in terms of the selected size field. -/
theorem copy_fats_size_eq (g : Globals) (fs_type : Nat) (fat_sector : fat_boot_sector) :
    (if fs_type = FAT32 then (fat_sector.fat32_size_in_sectors * g.bps) % 4294967296
      else (fat_sector.fat_size_in_sectors * g.bps) % 4294967296)
      = (selected_fat_size fs_type fat_sector * g.bps) % 4294967296 := by
  unfold selected_fat_size
  split_ifs <;> rfl

/-- C30 (counterexample): with 4194305 sectors in the FAT32 size field and 512-byte
sectors the copies have S = 2^31 + 512 bytes; the `int` counter of the comparison loop
cannot pass index 2^31, so `copy_fats_into_memory` faults and computes no total. -/
theorem copy_fats_into_memory_count_counterexample :
    (selected_fat_size FAT32 big_fat_sector * (plain_geometry 1).bps) % 4294967296
      = 2147484160 ∧
    (copy_fats_into_memory (volume_image 0x58) (plain_geometry 1) FAT32 big_fat_sector).map
        (fun l => l.report.diff) = Run.oob := by
  refine ⟨by decide, ?_⟩
  simp only [copy_fats_into_memory]
  rw [copy_fats_compare_loop_oob _ _ _ _ _ 0 _ (by decide) (by decide)]
  rfl

/-- C30 (amended): for every pair of loaded FAT copies of size S ≤ 2^31,
`copy_fats_into_memory` returns and the total discrepancy count it computes equals the
number of indices i < S with fat1[i] != fat2[i]; the total is printed exactly when it
is positive; for identical copies the count is 0 and no discrepancy offset, no
"more than 10" line and no total is reported. -/
theorem copy_fats_into_memory_count (img : Bytes) (g : Globals) (fs_type : Nat)
    (fat_sector : fat_boot_sector)
    (hS : (selected_fat_size fs_type fat_sector * g.bps) % 4294967296 ≤ 2147483648) :
    ∃ l, copy_fats_into_memory img g fs_type fat_sector = Run.ret l ∧
      l.fat1.size = l.fat_size_in_bytes ∧ l.fat2.size = l.fat_size_in_bytes ∧
      l.report.diff = discrepancies l.fat1 l.fat2 l.fat_size_in_bytes ∧
      l.total = (if 0 < l.report.diff then some l.report.diff else none) ∧
      ((∀ i, i < l.fat_size_in_bytes → l.fat1.byte i = l.fat2.byte i) →
        l.report = { diff := 0, offsets := [], more_than_10 := 0 } ∧ l.total = none) := by
  simp only [copy_fats_into_memory, copy_fats_size_eq]
  generalize (selected_fat_size fs_type fat_sector * g.bps) % 4294967296 = S at hS ⊢
  generalize (fat_sector.reserved_area_size * g.bps) % 4294967296 = R
  generalize pread img (fun _ => 0) 0 S R = data1
  generalize pread img (fun _ => 0) 0 S ((R + S) % 4294967296) = data2
  obtain ⟨d, hd, hc⟩ := copy_fats_compare_loop_diff ⟨S, data1⟩ ⟨S, data2⟩ R S S 0
    { diff := 0, offsets := [], more_than_10 := 0 } (by omega)
  rw [hd, Run.ret_bind]
  refine ⟨_, rfl, rfl, rfl, ?_, rfl, ?_⟩
  · show d.diff = discrepancies ⟨S, data1⟩ ⟨S, data2⟩ S
    rw [hc, discrepancies, List.range_eq_range']
    simp
  · intro hsame
    have hsame2 : ∀ j, 0 ≤ j → j < 0 + S →
        (⟨S, data1⟩ : Bytes).byte j = (⟨S, data2⟩ : Bytes).byte j :=
      fun j _ hj => hsame j (by show j < S; omega)
    have := copy_fats_compare_loop_same ⟨S, data1⟩ ⟨S, data2⟩ R S S 0
      { diff := 0, offsets := [], more_than_10 := 0 } (by omega) (by decide) hsame2
    rw [this] at hd
    cases hd
    exact ⟨rfl, rfl⟩

/-- C30 (amended) at a concrete volume: the copies `volume_image 0x58` holds. -/
theorem copy_fats_into_memory_count_witness :
    ((selected_fat_size FAT32 volume_sector * volume_geometry.bps) % 4294967296
        ≤ 2147483648) ∧
    ∃ l, copy_fats_into_memory (volume_image 0x58) volume_geometry FAT32 volume_sector
        = Run.ret l ∧
      l.fat1.size = l.fat_size_in_bytes ∧ l.fat2.size = l.fat_size_in_bytes ∧
      l.report.diff = discrepancies l.fat1 l.fat2 l.fat_size_in_bytes ∧
      l.total = (if 0 < l.report.diff then some l.report.diff else none) ∧
      ((∀ i, i < l.fat_size_in_bytes → l.fat1.byte i = l.fat2.byte i) →
        l.report = { diff := 0, offsets := [], more_than_10 := 0 } ∧ l.total = none) :=
  ⟨by decide,
    copy_fats_into_memory_count (volume_image 0x58) volume_geometry FAT32 volume_sector
      (by decide)⟩

/-! ## Boot-sector field decoding (`read_fat_boot_sector`) -/

/-- The scan loop before the first partition reads the offsets `i, i+1, ...` in
order, one per pass. -/
theorem slack_scan_loop_reads (img : Bytes) :
    ∀ (n i : Nat) (s : slack_locals),
      (slack_scan_loop img n i s).reads = s.reads ++ List.range' i n := by
  intro n
  induction n with
  | zero => intro i s; simp [slack_scan_loop]
  | succ n ih =>
    intro i s
    rw [slack_scan_loop, ih, List.range'_succ]
    simp

/-- The accumulator of the scan loop before the first partition is the one of the
loop of `check_for_hidden_data` started at offset 0. -/
theorem slack_scan_loop_hidden (img : Bytes) :
    ∀ (n i : Nat) (s : slack_locals), i + n ≤ 4294967296 →
      (slack_scan_loop img n i s).hidden_found
        = check_for_hidden_data_loop img 0 n i s.hidden_found s.buf := by
  intro n
  induction n with
  | zero => intro i s _; rfl
  | succ n ih =>
    intro i s h
    rw [slack_scan_loop, check_for_hidden_data_loop, ih _ _ (by omega)]
    have e : (0 + i) % 4294967296 = i := by omega
    rw [e]

/-- The scan before the first partition in closed form: it reads the offsets
`512 .. limit - 1`, and its accumulator is nonzero exactly when one of those bytes
exists in the image and is nonzero. -/
theorem slack_scan_loop_spec (img : Bytes) (limit : Nat) (hl : limit < 4294967296) :
    (slack_scan_loop img (limit - 512) 512 { buf := 0, hidden_found := 0, reads := [] }).reads
      = List.range' 512 (limit - 512) ∧
    ((slack_scan_loop img (limit - 512) 512
        { buf := 0, hidden_found := 0, reads := [] }).hidden_found ≠ 0
      ↔ ∃ o, 512 ≤ o ∧ o < limit ∧ o < img.size ∧ img.byte o ≠ 0) := by
  constructor
  · rw [slack_scan_loop_reads]
    exact List.nil_append _
  · rw [slack_scan_loop_hidden img _ _ _ (by omega),
      check_for_hidden_data_loop_ne_zero img 0 _ _ _ _ (fun h => absurd rfl h)]
    constructor
    · rintro (h | ⟨t, ht, h1, h2⟩)
      · exact absurd rfl h
      · have e : (0 + (512 + t)) % 4294967296 = 512 + t := by omega
        rw [e] at h1 h2
        exact ⟨512 + t, by omega, by omega, h1, h2⟩
    · rintro ⟨o, h1, h2, h3, h4⟩
      refine Or.inr ⟨o - 512, by omega, ?_⟩
      have e : (0 + (512 + (o - 512))) % 4294967296 = o := by omega
      rw [e]
      exact ⟨h3, h4⟩

/-- The inner loop of a gap pass only adds to the list of offsets read. -/
theorem check_slack_space_gap_loop_reads (img : Bytes) (g : Globals) (mbr : mbr_sector) :
    ∀ (fuel i : Nat) (s s' : slack_locals),
      check_slack_space_gap_loop img g mbr fuel i s = Run.ret s' → s.reads <+: s'.reads := by
  intro fuel
  induction fuel with
  | zero => intro i s s' h; simp [check_slack_space_gap_loop] at h
  | succ fuel ih =>
    intro i s s' h
    rw [check_slack_space_gap_loop] at h
    cases hb : mbr.entry.get? ((i + 1) % 4294967296) with
    | none => rw [hb] at h; simp at h
    | some bound =>
      rw [hb] at h
      simp only [] at h
      by_cases hc : i < (bound.starting_sector * g.bps) % 4294967296
      · rw [if_pos hc] at h
        exact (List.prefix_append s.reads [i]).trans (ih _ _ _ h)
      · rw [if_neg hc] at h
        cases h
        exact List.prefix_refl _

/-- A gap pass only adds to the list of offsets read. -/
theorem check_slack_space_gap_reads (img : Bytes) (g : Globals) (mbr : mbr_sector)
    (junk i : Nat) (s s' : slack_locals × List Nat)
    (h : check_slack_space_gap img g mbr junk i s = Run.ret s') :
    s.1.reads <+: s'.1.reads := by
  unfold check_slack_space_gap at h
  split at h
  · split_ifs at h with hc
    · split at h
      · simp at h
      · rw [Run.bind_eq_ret] at h
        obtain ⟨s1, h1, h2⟩ := h
        cases h2
        exact check_slack_space_gap_loop_reads img g mbr _ _
          { buf := 0, hidden_found := 0, reads := s.1.reads } s1 h1
    · cases h
      exact List.prefix_refl _
  · simp at h

/-- A pass of the inner gap loop that runs out of fuel has found a table entry at
index `i + 1` and handed the rest of its fuel to the next pass. -/
theorem check_slack_space_gap_loop_step (img : Bytes) (g : Globals) (mbr : mbr_sector)
    (hlen : mbr.entry.length ≤ 4) (fuel i : Nat) (s : slack_locals)
    (h : check_slack_space_gap_loop img g mbr (fuel + 1) i s = Run.out_of_fuel) :
    (i + 1) % 4294967296 < 4 ∧
    ∃ s', check_slack_space_gap_loop img g mbr fuel ((i + 1) % 4294967296) s'
      = Run.out_of_fuel := by
  rw [check_slack_space_gap_loop] at h
  cases hb : mbr.entry.get? ((i + 1) % 4294967296) with
  | none => rw [hb] at h; simp at h
  | some bound =>
    have hlt : (i + 1) % 4294967296 < mbr.entry.length := by
      by_contra hge
      rw [List.get?_eq_none.mpr (by omega)] at hb
      cases hb
    rw [hb] at h
    simp only [] at h
    by_cases hc : i < (bound.starting_sector * g.bps) % 4294967296
    · rw [if_pos hc] at h
      exact ⟨by omega, _, h⟩
    · rw [if_neg hc] at h
      cases h

/-- The inner gap loop ends within the 8 passes it is given: over a table of 4
entries it returns or faults. -/
theorem check_slack_space_gap_loop_fuel (img : Bytes) (g : Globals) (mbr : mbr_sector)
    (hlen : mbr.entry.length ≤ 4) (i : Nat) (s : slack_locals) :
    check_slack_space_gap_loop img g mbr 8 i s ≠ Run.out_of_fuel := by
  intro h
  obtain ⟨h1, s1, h⟩ := check_slack_space_gap_loop_step img g mbr hlen 7 i s h
  obtain ⟨h2, s2, h⟩ := check_slack_space_gap_loop_step img g mbr hlen 6 _ s1 h
  obtain ⟨h3, s3, h⟩ := check_slack_space_gap_loop_step img g mbr hlen 5 _ s2 h
  obtain ⟨h4, s4, h⟩ := check_slack_space_gap_loop_step img g mbr hlen 4 _ s3 h
  obtain ⟨h5, s5, h⟩ := check_slack_space_gap_loop_step img g mbr hlen 3 _ s4 h
  generalize (i + 1) % 4294967296 = a at h1 h2 h3 h4 h5
  omega

/-- The function `check_slack_space` never runs out of fuel over a table of 4
entries: it returns or faults. -/
theorem check_slack_space_gap_fuel (img : Bytes) (g : Globals) (mbr : mbr_sector)
    (hlen : mbr.entry.length ≤ 4) (junk i : Nat) (s : slack_locals × List Nat) :
    check_slack_space_gap img g mbr junk i s ≠ Run.out_of_fuel := by
  unfold check_slack_space_gap
  split
  · split_ifs
    · split
      · simp
      · intro h
        cases hl : check_slack_space_gap_loop img g mbr 8 _ _ with
        | ret a => rw [hl] at h; simp [Run.bind] at h
        | oob => rw [hl] at h; simp [Run.bind] at h
        | div_zero => rw [hl] at h; simp [Run.bind] at h
        | out_of_fuel => exact check_slack_space_gap_loop_fuel img g mbr hlen _ _ hl
    · simp
  · simp

/-- The first block of `check_slack_space` when the first partition does not start
at sector 0. -/
theorem check_slack_space_first_pos (img : Bytes) (g : Globals) (mbr : mbr_sector)
    (first : partition_table) (hfirst : mbr.entry.get? 0 = some first)
    (hpos : 0 < first.starting_sector) :
    check_slack_space_first img g mbr
      = Run.ret
          (slack_scan_loop img ((first.starting_sector * g.bps) % 4294967296 - 512) 512
            { buf := 0, hidden_found := 0, reads := [] },
           decide ((slack_scan_loop img ((first.starting_sector * g.bps) % 4294967296 - 512)
              512 { buf := 0, hidden_found := 0, reads := [] }).hidden_found ≠ 0)) := by
  unfold check_slack_space_first
  rw [hfirst]
  simp only []
  rw [if_pos hpos]

/-- The function `check_slack_space` on `small_mbr` over `sector_stamp`: sector 1, which
lies before the only partition, is read and holds nonzero bytes, so the "before
partition entry 0" line is printed; the global flag is returned as it was. -/
theorem check_slack_space_small (junk : Nat → Nat) (f : Bool) :
    check_slack_space sector_stamp Globals.init small_mbr junk f
      = Run.ret
          ({ reads := List.range' 512 512, before_first := true, between := [],
             none_found := false }, f) := by
  obtain ⟨hr, hh⟩ := slack_scan_loop_spec sector_stamp 1024 (by decide)
  have hne : (slack_scan_loop sector_stamp 512 512
      { buf := 0, hidden_found := 0, reads := [] }).hidden_found ≠ 0 :=
    hh.mpr ⟨512, by decide, by decide, by decide, by decide⟩
  have hr' : (slack_scan_loop sector_stamp 512 512
      { buf := 0, hidden_found := 0, reads := [] }).reads = List.range' 512 512 := hr
  have hfirst := check_slack_space_first_pos sector_stamp Globals.init small_mbr
    (mk_partition 2 1) rfl (by decide)
  have e : ((mk_partition 2 1).starting_sector * Globals.init.bps) % 4294967296 - 512
      = 512 := by decide
  rw [e, decide_eq_true hne] at hfirst
  have hg : ∀ (j i : Nat) (s : slack_locals × List Nat), i < 3 →
      check_slack_space_gap sector_stamp Globals.init small_mbr j i s
        = Run.ret ({ buf := 0, hidden_found := 0 ||| s.1.hidden_found, reads := s.1.reads },
            s.2) := by
    intro j i s hi
    interval_cases i <;> rfl
  rw [check_slack_space, hfirst, Run.ret_bind, hg _ 0 _ (by decide), Run.ret_bind,
    hg _ 1 _ (by decide), Run.ret_bind, hg _ 2 _ (by decide), Run.ret_bind]
  simp only [Nat.zero_or, hr', hne, decide_False]

/-- C22 (counterexample): the only partition of `far_mbr` starts at sector 8388608, so
the space before it is the image bytes `[512, 2^32)`, and `sector_stamp` holds nonzero
bytes there (offset 600 holds 1); `starting_sector * bps` is 0 as a `uint32_t`, so
`check_slack_space` reads nothing and reports nothing before partition entry 0. -/
theorem check_slack_space_first_wrap_counterexample :
    far_mbr.entry.get? 0 = some (mk_partition 8388608 2048) ∧
    0 < (mk_partition 8388608 2048).starting_sector ∧
    (mk_partition 8388608 2048).starting_sector * Globals.init.bps = 4294967296 ∧
    (512 ≤ 600 ∧ 600 < 4294967296 ∧ 600 < sector_stamp.size ∧ sector_stamp.byte 600 = 1) ∧
    check_slack_space sector_stamp Globals.init far_mbr (fun _ => 0) false
      = Run.ret
          ({ reads := [], before_first := false, between := [], none_found := true },
            false) := by
  decide

/-- C22 (amended): for every MBR table with starting_sector[0] > 0, the first block of
`check_slack_space` reads exactly the offsets `[512, L)` with
`L = (starting_sector[0] * bps) mod 2^32` and reports data hidden before partition
entry 0 iff at least one of those bytes exists in the image and is nonzero; when
starting_sector[0] = 0 no byte before the first partition is read and nothing is
reported.  When `check_slack_space` returns, its report carries that line and starts
with those reads. -/
theorem check_slack_space_before_first (img : Bytes) (g : Globals) (mbr : mbr_sector)
    (first : partition_table) (hfirst : mbr.entry.get? 0 = some first) :
    (0 < first.starting_sector →
      ∃ s rep, check_slack_space_first img g mbr = Run.ret (s, rep) ∧
        s.reads = List.range' 512 ((first.starting_sector * g.bps) % 4294967296 - 512) ∧
        (rep = true ↔ ∃ o, 512 ≤ o ∧ o < (first.starting_sector * g.bps) % 4294967296 ∧
          o < img.size ∧ img.byte o ≠ 0)) ∧
    (first.starting_sector = 0 →
      check_slack_space_first img g mbr
        = Run.ret ({ buf := 0, hidden_found := 0, reads := [] }, false)) ∧
    (∀ junk f r, check_slack_space img g mbr junk f = Run.ret r →
      ∃ s, check_slack_space_first img g mbr = Run.ret (s, r.1.before_first) ∧
        s.reads <+: r.1.reads) := by
  refine ⟨?_, ?_, ?_⟩
  · intro hpos
    obtain ⟨hr, hh⟩ := slack_scan_loop_spec img ((first.starting_sector * g.bps) % 4294967296)
      (Nat.mod_lt _ (by decide))
    exact ⟨_, _, check_slack_space_first_pos img g mbr first hfirst hpos, hr,
      by rw [decide_eq_true_iff]; exact hh⟩
  · intro hz
    simp only [check_slack_space_first, hfirst, hz, gt_iff_lt, Nat.lt_irrefl, if_false]
  · intro junk f r h
    simp only [check_slack_space, Run.bind_eq_ret] at h
    obtain ⟨a, ha, s0, h0, s1, h1, s2, h2, hret⟩ := h
    cases hret
    refine ⟨a.1, ha, ?_⟩
    exact ((check_slack_space_gap_reads img g mbr _ _ _ _ h0).trans
      (check_slack_space_gap_reads img g mbr _ _ _ _ h1)).trans
      (check_slack_space_gap_reads img g mbr _ _ _ _ h2)

/-- C22 (amended) at a concrete table: `small_mbr` over `sector_stamp`. -/
theorem check_slack_space_before_first_witness :
    small_mbr.entry.get? 0 = some (mk_partition 2 1) ∧
    ((0 < (mk_partition 2 1).starting_sector →
      ∃ s rep, check_slack_space_first sector_stamp Globals.init small_mbr = Run.ret (s, rep) ∧
        s.reads = List.range' 512
          (((mk_partition 2 1).starting_sector * Globals.init.bps) % 4294967296 - 512) ∧
        (rep = true ↔ ∃ o, 512 ≤ o ∧
          o < ((mk_partition 2 1).starting_sector * Globals.init.bps) % 4294967296 ∧
          o < sector_stamp.size ∧ sector_stamp.byte o ≠ 0)) ∧
    ((mk_partition 2 1).starting_sector = 0 →
      check_slack_space_first sector_stamp Globals.init small_mbr
        = Run.ret ({ buf := 0, hidden_found := 0, reads := [] }, false)) ∧
    (∀ junk f r, check_slack_space sector_stamp Globals.init small_mbr junk f = Run.ret r →
      ∃ s, check_slack_space_first sector_stamp Globals.init small_mbr
          = Run.ret (s, r.1.before_first) ∧
        s.reads <+: r.1.reads)) :=
  ⟨rfl, check_slack_space_before_first sector_stamp Globals.init small_mbr (mk_partition 2 1)
    rfl⟩

/-- The first pass of the gap loop on `gap_mbr` over `sector_stamp`, for every value
`j` the uninitialised inner `i` may hold: it faults (for `j = 0`, `j = 1` and every
`j ≥ 4`), or it reads the byte at offset 0 and nothing else (for `j = 2` and
`j = 3`). -/
theorem check_slack_space_gap_first_pass (j : Nat) :
    check_slack_space_gap sector_stamp Globals.init gap_mbr j 0
        ({ buf := 0, hidden_found := 0, reads := [] }, []) = Run.oob ∨
    check_slack_space_gap sector_stamp Globals.init gap_mbr j 0
        ({ buf := 0, hidden_found := 0, reads := [] }, [])
      = Run.ret ({ buf := 0, hidden_found := 0, reads := [0] }, []) := by
  have hdef : check_slack_space_gap sector_stamp Globals.init gap_mbr j 0
        ({ buf := 0, hidden_found := 0, reads := [] }, [])
      = match gap_mbr.entry.get? (j % 4294967296) with
        | none => Run.oob
        | some e =>
          (check_slack_space_gap_loop sector_stamp Globals.init gap_mbr 8
              ((e.starting_sector + (e.partition_size * Globals.init.bps) % 4294967296)
                % 4294967296)
              { buf := 0, hidden_found := 0, reads := [] }).bind fun s1 =>
            Run.ret
              ({ s1 with hidden_found := s1.hidden_found ||| 0 },
                if s1.hidden_found ≠ 0 then [] ++ [0] else []) := rfl
  rw [hdef]
  generalize j % 4294967296 = k
  rcases Nat.lt_or_ge k 4 with hk | hk
  · interval_cases k
    · left; decide
    · left; decide
    · right; decide
    · right; decide
  · left
    rw [List.get?_eq_none.mpr (by simpa [gap_mbr] using hk)]

/-- C21 (evaluation at the failing input): in `gap_mbr` partition 0 ends before
sector 2 and partition 1 starts at sector 4, and the image bytes 1024 .. 2047 between
them are nonzero in `sector_stamp`.  Whatever value the uninitialised inner `i` holds,
`check_slack_space` faults or reads the single byte at offset 0, reports nothing
between entries 0 and 1 and prints "No data was hidden"; with the value 0 of the outer
`i` the scan would start at `1 + 1 * 512 = 513` and it faults on `entry[514]`. -/
theorem check_slack_space_gap_not_scanned :
    gap_mbr.entry.get? 0 = some (mk_partition 1 1) ∧
    gap_mbr.entry.get? 1 = some (mk_partition 4 1) ∧
    (mk_partition 1 1).starting_sector + (mk_partition 1 1).partition_size
      < (mk_partition 4 1).starting_sector ∧
    sector_stamp.byte 1024 = 2 ∧
    (∀ junk : Nat → Nat,
      check_slack_space sector_stamp Globals.init gap_mbr junk false = Run.oob ∨
      check_slack_space sector_stamp Globals.init gap_mbr junk false
        = Run.ret
            ({ reads := [0], before_first := false, between := [], none_found := true },
              false)) ∧
    check_slack_space sector_stamp Globals.init gap_mbr (fun _ => 0) false = Run.oob := by
  refine ⟨rfl, rfl, by decide, by decide, ?_, by decide⟩
  intro junk
  have hfirst : check_slack_space_first sector_stamp Globals.init gap_mbr
      = Run.ret ({ buf := 0, hidden_found := 0, reads := [] }, false) := by decide
  have hlater : ∀ (j i : Nat), i = 1 ∨ i = 2 →
      check_slack_space_gap sector_stamp Globals.init gap_mbr j i
          ({ buf := 0, hidden_found := 0, reads := [0] }, [])
        = Run.ret ({ buf := 0, hidden_found := 0, reads := [0] }, []) := by
    intro j i hi
    rcases hi with rfl | rfl <;> rfl
  rw [check_slack_space, hfirst, Run.ret_bind]
  rcases check_slack_space_gap_first_pass (junk 0) with h | h
  · left
    rw [h]
    rfl
  · right
    rw [h, Run.ret_bind, hlater _ 1 (Or.inl rfl), Run.ret_bind, hlater _ 2 (Or.inr rfl),
      Run.ret_bind]
    rfl

/-! ## The global flag `hidden_data_found` -/

/-- The function `check_for_hidden_data` sets the flag when it reports and never clears
it. -/
theorem check_for_hidden_data_flag (img : Bytes) (g : Globals) (entry : fat_dir_entry)
    (f : Bool) (r : Bool × Bool) (h : check_for_hidden_data img g entry f = Run.ret r) :
    (r.2 = true → r.1 = true) ∧ (r.2 = false → r.1 = f) ∧ (f = true → r.1 = true) := by
  unfold check_for_hidden_data at h
  split_ifs at h
  · simp only [] at h
    split_ifs at h <;> cases h <;> simp

/-- The function `check_slack_space` leaves the flag as it found it. -/
theorem check_slack_space_flag (img : Bytes) (g : Globals) (mbr : mbr_sector)
    (junk : Nat → Nat) (f : Bool) (r : slack_report × Bool)
    (h : check_slack_space img g mbr junk f = Run.ret r) : r.2 = f := by
  simp only [check_slack_space, Run.bind_eq_ret] at h
  obtain ⟨a, _, s0, _, s1, _, s2, _, hret⟩ := h
  cases hret
  rfl

/-- The scan loop of `read_fat32_filesystem` never clears the flag. -/
theorem read_fat32_filesystem_loop_flag (w : walker) :
    ∀ (fuel : Nat) (read_info : read_parameters) (i : Nat) (st st' : walk_state),
      read_fat32_filesystem_loop w fuel read_info i st = Run.ret st' →
      st.hidden_data_found = true → st'.hidden_data_found = true := by
  intro fuel
  induction fuel with
  | zero =>
    intro read_info i st st' h
    simp [read_fat32_filesystem_loop] at h
  | succ fuel ih =>
    intro read_info i st st' h hst
    by_cases hi : i < ((read_info.list_length * w.g.bps) % 4294967296 * w.g.spc) % 4294967296
    · have h0 := h
      rw [read_fat32_filesystem_loop, if_pos hi] at h0
      simp only [Run.bind_eq_ret] at h0
      obtain ⟨⟨e0, x⟩, hdec, last, hlast, -⟩ := h0
      have hlast : get_last_cluster fuel w.fat_bs w.fat1 e0.cluster_addr = Run.ret last :=
        hlast
      cases hskip : skip_entry { e0 with last_cluster := last } with
      | true =>
        rw [read_fat32_filesystem_loop_skip w fuel read_info i st e0 x last hi hdec hlast
          hskip] at h
        exact ih _ _ _ _ h hst
      | false =>
        by_cases hdir : (e0.file_attributes &&& 0x10) ≠ 0
        · rw [read_fat32_filesystem_loop_dir w fuel read_info i st e0 x last hi hdec hlast
            hskip hdir, Run.bind_eq_ret] at h
          obtain ⟨r, hr, hcont⟩ := h
          obtain ⟨ri, hscan⟩ := read_fat32_filesystem_body_scan w fuel _ _ _ _ r hr
          have h1 : r.2.hidden_data_found = true := ih _ _ _ _ hscan hst
          exact ih _ _ _ _ hcont h1
        · have hfile : (e0.file_attributes &&& 0x10) = 0 := by
            by_contra hne
            exact hdir hne
          rw [read_fat32_filesystem_loop_file w fuel read_info i st e0 x last hi hdec hlast
            hskip hfile] at h
          by_cases hh : w.h_flag = true
          · rw [if_pos hh, Run.bind_eq_ret] at h
            obtain ⟨c, hc, hcont⟩ := h
            exact ih _ _ _ _ hcont
              ((check_for_hidden_data_flag _ _ _ _ c hc).2.2 hst)
          · rw [if_neg hh] at h
            exact ih _ _ _ _ h hst
    · rw [read_fat32_filesystem_loop, if_neg hi] at h
      cases h
      exact hst

/-- C23 (counterexample): on `small_mbr` over `sector_stamp`, `check_slack_space` finds
nonzero bytes before the first partition (offset 512 holds 1) and prints the "before
partition entry 0" line, and `hidden_data_found` is still false after it returns. -/
theorem check_slack_space_flag_counterexample :
    sector_stamp.byte 512 = 1 ∧
    check_slack_space sector_stamp Globals.init small_mbr (fun _ => 0) false
      = Run.ret
          ({ reads := List.range' 512 512, before_first := true, between := [],
             none_found := false }, false) :=
  ⟨by decide, check_slack_space_small (fun _ => 0) false⟩

/-- C23 (amended): the process-wide flag `hidden_data_found` records hidden data found
by `check_for_hidden_data` only.  `check_slack_space` returns it unchanged whatever it
finds; `check_for_hidden_data` leaves it true when it reports a nonzero byte and
otherwise as it was; and neither of them nor the walk of `read_fat32_filesystem`
resets a true flag to false. -/
theorem hidden_data_found_frame (img : Bytes) (g : Globals) (mbr : mbr_sector)
    (junk : Nat → Nat) (f : Bool) (r : slack_report × Bool)
    (h : check_slack_space img g mbr junk f = Run.ret r) :
    r.2 = f ∧
    (∀ (img' : Bytes) (g' : Globals) (entry : fat_dir_entry) (f' : Bool) (c : Bool × Bool),
      check_for_hidden_data img' g' entry f' = Run.ret c →
        (c.2 = true → c.1 = true) ∧ (c.2 = false → c.1 = f') ∧ (f' = true → c.1 = true)) ∧
    (∀ (fuel : Nat) (w : walker) (cluster : Nat) (entry : Option fat_dir_entry)
        (st : walk_state) (res : fat_dir_entry × walk_state),
      read_fat32_filesystem fuel w cluster entry st = Run.ret res →
        st.hidden_data_found = true → res.2.hidden_data_found = true) := by
  refine ⟨check_slack_space_flag img g mbr junk f r h, ?_, ?_⟩
  · intro img' g' entry f' c hc
    exact check_for_hidden_data_flag img' g' entry f' c hc
  · intro fuel w cluster entry st res hres hst
    obtain ⟨ri, hscan⟩ := read_fat32_filesystem_body_scan w fuel _ cluster _ st res hres
    exact read_fat32_filesystem_loop_flag w fuel ri 0 st res.2 hscan hst

/-- C23 (amended) at a concrete run: `check_slack_space` on `small_mbr` over
`sector_stamp`, with the flag false before the call. -/
theorem hidden_data_found_frame_witness :
    check_slack_space sector_stamp Globals.init small_mbr (fun _ => 0) false
      = Run.ret slack_small_result ∧
    (slack_small_result.2 = false ∧
    (∀ (img' : Bytes) (g' : Globals) (entry : fat_dir_entry) (f' : Bool) (c : Bool × Bool),
      check_for_hidden_data img' g' entry f' = Run.ret c →
        (c.2 = true → c.1 = true) ∧ (c.2 = false → c.1 = f') ∧ (f' = true → c.1 = true)) ∧
    (∀ (fuel : Nat) (w : walker) (cluster : Nat) (entry : Option fat_dir_entry)
        (st : walk_state) (res : fat_dir_entry × walk_state),
      read_fat32_filesystem fuel w cluster entry st = Run.ret res →
        st.hidden_data_found = true → res.2.hidden_data_found = true)) :=
  ⟨check_slack_space_small (fun _ => 0) false,
    hidden_data_found_frame sector_stamp Globals.init small_mbr (fun _ => 0) false
      slack_small_result (check_slack_space_small (fun _ => 0) false)⟩

/-! ## Robustness on untrusted input -/

/-- C39: when the boot sector is not classified FAT32 (`is_fat32` false),
`get_entry_size` returns 0 for every start cluster and every table contents; it does
so with no lookup allowed (fuel 0) and on an empty table, where any lookup would lie
outside the buffer: no table entry is read. -/
theorem get_entry_size_not_fat32 (fat_bs : fat_boot_sector) (h : fat_bs.is_fat32 = false) :
    (∀ (fuel : Nat) (fat1 : Bytes) (cluster : Nat),
      get_entry_size fuel fat_bs fat1 cluster = Run.ret 0) ∧
    (∀ cluster, get_entry_size 0 fat_bs { size := 0, data := fun _ => 0 } cluster = Run.ret 0) ∧
    (∀ cluster, read_alloctable { fat_bs with is_fat32 := true }
        { size := 0, data := fun _ => 0 } cluster = none) := by
  refine ⟨?_, ?_, ?_⟩
  · intro fuel fat1 cluster
    simp [get_entry_size, h]
  · intro cluster
    simp [get_entry_size, h]
  · intro cluster
    simp [read_alloctable]

/-- C39 at a concrete boot sector: the FAT12 floppy. -/
theorem get_entry_size_not_fat32_witness :
    fat12_floppy_sector.is_fat32 = false ∧
    ((∀ (fuel : Nat) (fat1 : Bytes) (cluster : Nat),
      get_entry_size fuel fat12_floppy_sector fat1 cluster = Run.ret 0) ∧
    (∀ cluster, get_entry_size 0 fat12_floppy_sector { size := 0, data := fun _ => 0 } cluster
      = Run.ret 0) ∧
    (∀ cluster, read_alloctable { fat12_floppy_sector with is_fat32 := true }
        { size := 0, data := fun _ => 0 } cluster = none)) :=
  ⟨rfl, get_entry_size_not_fat32 fat12_floppy_sector rfl⟩

/-- C37: the warning conditions of `validate_fat_boot_sector` are non-fatal: for every
boot sector with bps in {512,1024,2048,4096}, sectors_per_cluster a power of two,
spc*bps <= 32768 and number_of_fats >= 1, validation returns, whatever the media-type
byte is, whether or not both sector-count fields are nonzero, and whether or not
max_files_in_root is nonzero while the 16-bit FAT size is zero; the three conditions
only select the warnings printed. -/
theorem validate_fat_boot_sector_warnings (g : Globals) (fat_sector : fat_boot_sector)
    (hbps : g.bps = 512 ∨ g.bps = 1024 ∨ g.bps = 2048 ∨ g.bps = 4096)
    (hpow : ∃ k, fat_sector.sectors_per_cluster = 2 ^ k)
    (hsize : fat_sector.sectors_per_cluster * g.bps ≤ 32768)
    (hfats : 1 ≤ fat_sector.number_of_fats) :
    validate_fat_boot_sector g fat_sector
      = Outcome.returns
          { conflicting_indicators :=
              decide (fat_sector.max_files_in_root ≠ 0)
                && decide (fat_sector.fat_size_in_sectors = 0),
            media_type_unknown :=
              decide (fat_sector.media_type ≠ FIXED)
                && decide (fat_sector.media_type ≠ REMOVABLE),
            conflicting_sector_counts :=
              decide (fat_sector.sector_count_16b ≠ 0)
                && decide (fat_sector.sector_count_32b ≠ 0) } := by
  obtain ⟨k, hk⟩ := hpow
  have hpos : 0 < fat_sector.sectors_per_cluster := by
    rw [hk]; exact Nat.two_pow_pos k
  have hle : fat_sector.sectors_per_cluster ≤ 64 := by
    by_contra hgt
    have : 65 * 512 ≤ fat_sector.sectors_per_cluster * g.bps :=
      Nat.mul_le_mul (by omega) (by omega)
    omega
  have hmod : fat_sector.sectors_per_cluster % 256 = fat_sector.sectors_per_cluster :=
    Nat.mod_eq_of_lt (by omega)
  have hprod : (fat_sector.sectors_per_cluster * g.bps) % 4294967296
      = fat_sector.sectors_per_cluster * g.bps := Nat.mod_eq_of_lt (by omega)
  unfold validate_fat_boot_sector
  rw [if_neg (not_not.mpr hbps)]
  simp only [hmod, hprod]
  rw [if_neg (by intro hc; exact hc.1 (by omega)), if_neg (by omega), if_neg (by omega)]

/-- C37 at a concrete boot sector: 8 sectors of 512 bytes per cluster, 2 FATs, an
unknown media type, both sector counts populated and root entries without a 16-bit
FAT size. -/
theorem validate_fat_boot_sector_warnings_witness :
    (((plain_geometry 8).bps = 512 ∨ (plain_geometry 8).bps = 1024 ∨
        (plain_geometry 8).bps = 2048 ∨ (plain_geometry 8).bps = 4096) ∧
      (∃ k, noisy_sector.sectors_per_cluster = 2 ^ k) ∧
      noisy_sector.sectors_per_cluster * (plain_geometry 8).bps ≤ 32768 ∧
      1 ≤ noisy_sector.number_of_fats) ∧
    validate_fat_boot_sector (plain_geometry 8) noisy_sector
      = Outcome.returns
          { conflicting_indicators :=
              decide (noisy_sector.max_files_in_root ≠ 0)
                && decide (noisy_sector.fat_size_in_sectors = 0),
            media_type_unknown :=
              decide (noisy_sector.media_type ≠ FIXED)
                && decide (noisy_sector.media_type ≠ REMOVABLE),
            conflicting_sector_counts :=
              decide (noisy_sector.sector_count_16b ≠ 0)
                && decide (noisy_sector.sector_count_32b ≠ 0) } :=
  ⟨⟨Or.inl rfl, ⟨3, rfl⟩, by decide, by decide⟩,
    validate_fat_boot_sector_warnings (plain_geometry 8) noisy_sector (Or.inl rfl) ⟨3, rfl⟩
      (by decide) (by decide)⟩

/-- The boot sector `noisy_sector` passes validation with all three warnings. -/
theorem validate_fat_boot_sector_noisy :
    validate_fat_boot_sector (plain_geometry 8) noisy_sector
      = Outcome.returns
          { conflicting_indicators := true, media_type_unknown := true,
            conflicting_sector_counts := true } := by
  decide

/-- C38: `calc_fat_type` computes the data-sector count modulo 2^32 and never signals
an error: for every boot sector with sectors_per_cluster = 1 (and bps > 0) whose
reserved_area_size + number_of_fats*fat_size_in_sectors + root_dir_sectors exceeds the
selected sector count by d with 1 <= d <= 2^32 - 65525, the subtraction wraps to
2^32 - d, `calc_fat_type` returns, and the volume is classified FAT32 (and neither
FAT12 nor FAT16 when the flags were clear). -/
theorem calc_fat_type_wraps (bps : Nat) (fat_sector : fat_boot_sector) (d : Nat)
    (hbps : 0 < bps) (hspc : fat_sector.sectors_per_cluster = 1)
    (hexceed : fat_sector.reserved_area_size
        + fat_sector.number_of_fats * fat_sector.fat_size_in_sectors
        + root_dir_sectors bps fat_sector = selected_sector_count fat_sector + d)
    (hd1 : 1 ≤ d) (hd2 : d ≤ 4294967296 - 65525) :
    sectors_to_clusters bps fat_sector = 4294967296 - d ∧
    final_value bps fat_sector = some (4294967296 - d) ∧
    ∃ s, calc_fat_type bps fat_sector = some s ∧ s.is_fat32 = true ∧
      s.is_fat16 = fat_sector.is_fat16 ∧ s.is_fat12 = fat_sector.is_fat12 := by
  have hs : sectors_to_clusters bps fat_sector = 4294967296 - d := by
    unfold sectors_to_clusters
    generalize root_dir_sectors bps fat_sector = r at hexceed
    generalize selected_sector_count fat_sector = c at hexceed
    generalize fat_sector.number_of_fats * fat_sector.fat_size_in_sectors = f at hexceed
    generalize fat_sector.reserved_area_size = a at hexceed
    omega
  have hf : final_value bps fat_sector = some (4294967296 - d) := by
    rw [final_value_eq_some bps fat_sector hbps (by omega), hs, hspc, Nat.div_one]
  refine ⟨hs, hf, ?_⟩
  rw [calc_fat_type_eq, hf]
  refine ⟨_, rfl, ?_, ?_, ?_⟩
  · simp
    right
    omega
  · have : ¬ (4085 ≤ 4294967296 - d ∧ 4294967296 - d < 65525) := by omega
    simp [this]
  · have : ¬ (4294967296 - d < 4085) := by omega
    simp [this]

/-- C38 at a concrete boot sector: 1000 sectors in the 16-bit count, 32 reserved
sectors and two FATs of 600 sectors exceed the count by 232. -/
theorem calc_fat_type_wraps_witness :
    (0 < 512 ∧ overfull_sector.sectors_per_cluster = 1 ∧
      overfull_sector.reserved_area_size
          + overfull_sector.number_of_fats * overfull_sector.fat_size_in_sectors
          + root_dir_sectors 512 overfull_sector
        = selected_sector_count overfull_sector + 232 ∧
      1 ≤ 232 ∧ 232 ≤ 4294967296 - 65525) ∧
    (sectors_to_clusters 512 overfull_sector = 4294967296 - 232 ∧
    final_value 512 overfull_sector = some (4294967296 - 232) ∧
    ∃ s, calc_fat_type 512 overfull_sector = some s ∧ s.is_fat32 = true ∧
      s.is_fat16 = overfull_sector.is_fat16 ∧ s.is_fat12 = overfull_sector.is_fat12) :=
  ⟨⟨by decide, rfl, by decide, by decide, by decide⟩,
    calc_fat_type_wraps 512 overfull_sector 232 (by decide) rfl (by decide) (by decide)
      (by decide)⟩

/-- C36 (evaluation at the failing input): with `list_length = 0` and the empty array
`calloc(0, 4)` returns, the `do ... while` loop of `get_cluster_list` stores
`cluster_list[0]` before it tests `size < list_length`: a write outside the allocation.
The case arises in `get_last_cluster` whenever the boot sector is not classified FAT32,
because `get_entry_size` then returns 0.  With `list_length >= 1` the stores stay inside
the list. -/
theorem get_cluster_list_zero_length :
    get_cluster_list_loop fat32_bs tiny_fat 0 (0 + 1) 2 0 [] = Run.oob ∧
    (get_cluster_list fat32_bs tiny_fat
        { start_cluster := 2, cluster_list := [], list_length := 0, entry_offset := 0 }).map
      (fun r => r.cluster_list) = Run.oob ∧
    get_entry_size 5 { fat_boot_sector.zero with is_fat16 := true } tiny_fat 2 = Run.ret 0 ∧
    get_last_cluster 5 { fat_boot_sector.zero with is_fat16 := true } tiny_fat 2 = Run.oob ∧
    (get_cluster_list fat32_bs tiny_fat
        { start_cluster := 2, cluster_list := [0], list_length := 1, entry_offset := 0 }).map
      (fun r => r.cluster_list) = Run.ret [2] := by
  decide

/-- C33 (evaluation at the failing inputs): on an image whose bytes-per-sector field
is 0, and on one whose sectors-per-cluster field is 0, `verify_disk_image` accepts the
FAT32 type and `read_fat_boot_sector` decodes the fields, publishes `bps` and `spc` and
calls `calc_fat_type`, which divides by zero: the process is killed before
`validate_fat_boot_sector`, which would end with the fatal-format error for both
sectors, is reached. -/
theorem read_fat_boot_sector_divides_by_zero :
    verify_disk_image zero_bps_image (fun _ => 0) FAT32 = Outcome.returns FAT32 ∧
    (read_boot_fields zero_bps_image fat_boot_sector.zero 0).bytes_per_sector = 0 ∧
    read_fat_boot_sector zero_bps_image fat_boot_sector.zero 0 Globals.init = none ∧
    validate_fat_boot_sector { bps := 0, spc := 1, reserved_and_fats := 0 }
        (read_boot_fields zero_bps_image fat_boot_sector.zero 0) = Outcome.exit_failure ∧
    verify_disk_image zero_spc_image (fun _ => 0) FAT32 = Outcome.returns FAT32 ∧
    (read_boot_fields zero_spc_image fat_boot_sector.zero 0).sectors_per_cluster = 0 ∧
    read_fat_boot_sector zero_spc_image fat_boot_sector.zero 0 Globals.init = none ∧
    validate_fat_boot_sector { bps := 512, spc := 0, reserved_and_fats := 0 }
        (read_boot_fields zero_spc_image fat_boot_sector.zero 0) = Outcome.exit_failure := by
  decide

/-- C34 (evaluation at the failing inputs): the table `tiny_fat` has N = 8 entries.
For a directory slot whose first cluster is 100, `read_alloctable` reads entry 100,
outside the table, and so do `get_entry_size` and `get_last_cluster`; the walk of
`stray_volume`, whose root directory holds such a slot, faults on it.  In
`bad_mark_fat` entry 3 holds the bad-cluster mark 0x0FFFFFF7, which is below
0x0FFFFFF8: the chain of cluster 3 is followed to entry 0x0FFFFFF7, outside the
table. -/
theorem chain_resolution_reads_outside_table :
    tiny_fat.size = 4 * 8 ∧
    read_alloctable fat32_bs tiny_fat 100 = none ∧
    get_entry_size 5 fat32_bs tiny_fat 100 = Run.oob ∧
    get_last_cluster 5 fat32_bs tiny_fat 100 = Run.oob ∧
    (read_fat_dir_entry 5 stray_walker.img stray_walker.g fat_dir_entry.zero first_slot).map
        (fun r => r.1.cluster_addr) = Run.ret 100 ∧
    read_fat32_filesystem 24 stray_walker 2 none walk_start = Run.oob ∧
    read_alloctable fat32_bs bad_mark_fat 3 = some 0x0FFFFFF7 ∧
    read_alloctable fat32_bs bad_mark_fat 0x0FFFFFF7 = none ∧
    get_entry_size 5 fat32_bs bad_mark_fat 3 = Run.oob ∧
    get_last_cluster 5 fat32_bs bad_mark_fat 3 = Run.oob := by
  decide

/-- C32 (evaluation at the failing input): the root directory of `empty_file_volume`
holds the zero-length file `A.TXT`, whose first-cluster field is 0.  The walker passes
cluster 0 to `get_last_cluster`, which returns 0 (table entry 0 holds the end mark
0x0FFFFFF8), and calls `check_for_hidden_data` with `last_cluster = 0`: `cts(0)` is
the image offset 0, the 512 bytes scanned are the boot sector, and hidden data is
reported for the empty file. -/
theorem check_for_hidden_data_cluster_zero :
    (read_fat_dir_entry 5 empty_file_volume g512 fat_dir_entry.zero first_slot).map
        (fun r => (r.1.cluster_addr, r.1.file_size, r.1.file_attributes)) = Run.ret (0, 0, 0x20) ∧
    get_last_cluster 5 fat32_bs tiny_fat 0 = Run.ret 0 ∧
    cts g512 0 = 0 ∧
    check_for_hidden_data empty_file_volume g512 (mk_entry name_a 0x20 0 0 0) false
      = Run.ret (true, true) ∧
    read_fat32_filesystem_loop empty_file_walker (5 + 1) first_slot 0 walk_start
      = read_fat32_filesystem_loop empty_file_walker 5 { first_slot with entry_offset := 32 } 32
          { hidden_data_found := true,
            events := [walk_event.keep (mk_entry name_a 0x20 0 0 0),
              walk_event.check (mk_entry name_a 0x20 0 0 0) true] } := by
  have hdec : read_fat_dir_entry 5 empty_file_walker.img empty_file_walker.g
      fat_dir_entry.zero first_slot = Run.ret (mk_entry name_a 0x20 0 0 0, 32) := by decide
  have hlast : get_last_cluster 5 fat32_bs tiny_fat 0 = Run.ret 0 := by decide
  have hchk : ∀ b, check_for_hidden_data empty_file_volume g512 (mk_entry name_a 0x20 0 0 0) b
      = Run.ret (true, true) := fun b =>
    (check_for_hidden_data_eq empty_file_volume g512 (mk_entry name_a 0x20 0 0 0) b
      (by decide)).1 ⟨0, by decide, by decide, by decide, by decide⟩
  refine ⟨by decide, hlast, by decide, hchk false, ?_⟩
  refine (read_fat32_filesystem_loop_file empty_file_walker 5 first_slot 0 walk_start
    (mk_entry name_a 0x20 0 0 0) 32 0 (by decide) hdec hlast (by decide) (by decide)).trans ?_
  have hflag : empty_file_walker.h_flag = true := rfl
  rw [if_pos hflag]
  have e : check_for_hidden_data empty_file_walker.img empty_file_walker.g
      { mk_entry name_a 0x20 0 0 0 with last_cluster := 0 } walk_start.hidden_data_found
      = Run.ret (true, true) := hchk false
  rw [e]
  rfl

/-! ## The single read of `read_disk` -/

/-- C40 (counterexample): in `straddle_geometry` cluster 4194289 starts at image offset
`2^32 - 512`.  A one-byte `read_disk` at field offset 1012 of that cluster (k = 0)
issues one `pread`, at the `uint32_t` sum `(2^32 - 512 + 1012) mod 2^32 = 500`, and
delivers the byte found there (0), not the byte 0x99 that `straddle_image` holds at
offset `cts(cluster_list[0]) + entry_offset + field_offset = 2^32 + 500`. -/
theorem read_disk_offset_wrap_counterexample :
    1 ≤ straddle_geometry.bps * straddle_geometry.spc ∧
    (straddle_slot.entry_offset + 1012) / (straddle_geometry.bps * straddle_geometry.spc) = 0 ∧
    straddle_slot.cluster_list.get? 0 = some 4194289 ∧
    cts straddle_geometry 4194289 + straddle_slot.entry_offset + 1012 = 4294967796 ∧
    4294967796 < straddle_image.size ∧
    straddle_image.byte 4294967796 = 0x99 ∧
    read_disk_reads straddle_geometry straddle_slot 1 1012
      = [{ index := 0, dst := 0, len := 1, delta := 1012 }] ∧
    read_disk_offset straddle_geometry straddle_slot 1012 = some 500 ∧
    (read_disk straddle_image straddle_geometry (fun _ => 0x55) 1 1012 straddle_slot).map
      (fun buffer => buffer 0) = Run.ret 0 := by
  decide

/-- C40 (amended): for every `read_disk` call with a nonzero cluster size
C = bps*spc and a length L ≤ C, exactly one `pread` is issued: with
k = ((field_offset + entry_offset) mod 2^32) div C it dereferences `cluster_list[k]`
and reads L bytes to the start of the buffer at the `uint32_t` image offset
(cts(cluster_list[k]) + field_offset + entry_offset) mod 2^32 when k = 0 and
(cts(cluster_list[k]) + field_offset) mod 2^32 when k > 0; no second segment is read.
When `cluster_list[k]` lies outside the list the dereference is out of bounds. -/
theorem read_disk_one_read (img : Bytes) (g : Globals) (buffer : Nat → Nat)
    (L field_offset : Nat) (read : read_parameters)
    (hC : cluster_bytes g ≠ 0) (hL : L ≤ cluster_bytes g) :
    read_disk_reads g read L field_offset
      = [{ index := ((field_offset + read.entry_offset) % 4294967296) / cluster_bytes g,
           dst := 0, len := L,
           delta :=
            if ((field_offset + read.entry_offset) % 4294967296) / cluster_bytes g = 0
              then field_offset + read.entry_offset else field_offset }] ∧
    (∀ c,
      read.cluster_list.get?
          (((field_offset + read.entry_offset) % 4294967296) / cluster_bytes g) = some c →
      read_disk img g buffer L field_offset read
        = Run.ret (pread img buffer 0 L
            ((cts g c +
              (if ((field_offset + read.entry_offset) % 4294967296) / cluster_bytes g = 0
                then field_offset + read.entry_offset else field_offset)) % 4294967296))) ∧
    (read.cluster_list.get?
          (((field_offset + read.entry_offset) % 4294967296) / cluster_bytes g) = none →
      read_disk img g buffer L field_offset read = Run.oob) := by
  have hnot : ¬ L > cluster_bytes g := by omega
  have hdst : (L + 4294967296 - L) % 4294967296 = 0 := by
    rw [Nat.add_sub_cancel_left]
  refine ⟨?_, ?_, ?_⟩
  · unfold read_disk_reads read_disk_body
    simp only [if_true, if_neg hnot, hdst, read_disk_loop_done]
  · intro c hc
    rw [read_disk_single img g buffer L field_offset read hC hL]
    unfold read_disk_offset
    rw [hc]
    rfl
  · intro hnone
    rw [read_disk_single img g buffer L field_offset read hC hL]
    unfold read_disk_offset
    rw [hnone]
    rfl

/-- C40 (amended) at a concrete call: the attribute byte (field offset 11) of the
second slot of the one-cluster directory of `tiny_volume`. -/
theorem read_disk_one_read_witness :
    (cluster_bytes g512 ≠ 0 ∧ 1 ≤ cluster_bytes g512) ∧
    (read_disk_reads g512 { first_slot with entry_offset := 32 } 1 11
      = [{ index := ((11 + 32) % 4294967296) / cluster_bytes g512,
           dst := 0, len := 1,
           delta :=
            if ((11 + 32) % 4294967296) / cluster_bytes g512 = 0
              then 11 + 32 else 11 }] ∧
    (∀ c,
      [2].get? (((11 + 32) % 4294967296) / cluster_bytes g512) = some c →
      read_disk tiny_volume g512 (fun _ => 0) 1 11 { first_slot with entry_offset := 32 }
        = Run.ret (pread tiny_volume (fun _ => 0) 0 1
            ((cts g512 c +
              (if ((11 + 32) % 4294967296) / cluster_bytes g512 = 0
                then 11 + 32 else 11)) % 4294967296))) ∧
    ([2].get? (((11 + 32) % 4294967296) / cluster_bytes g512) = none →
      read_disk tiny_volume g512 (fun _ => 0) 1 11 { first_slot with entry_offset := 32 }
        = Run.oob)) :=
  ⟨⟨by decide, by decide⟩,
    read_disk_one_read tiny_volume g512 (fun _ => 0) 1 11 { first_slot with entry_offset := 32 }
      (by decide) (by decide)⟩

/-! ## The reported discrepancies (`copy_fats_into_memory`) -/

/-- One pass of the comparison loop prints the pair of offsets of its index exactly
when the buffers differ there and fewer than 10 discrepancies were counted before. -/
theorem copy_fats_compare_pass_offsets (fat1 fat2 : Bytes) (R S i : Nat) (d : fat_diff) :
    (copy_fats_compare_pass fat1 fat2 R S i d).offsets
      = d.offsets ++
        (if fat1.byte i ≠ fat2.byte i ∧ d.diff < 10
          then [((R + i) % 4294967296, (R + S + i) % 4294967296)] else []) := by
  unfold copy_fats_compare_pass
  by_cases hx : fat1.byte i = fat2.byte i
  · have hz : fat1.byte i ^^^ fat2.byte i = 0 := Nat.xor_eq_zero.mpr hx
    have hc : ¬ (fat1.byte i ≠ fat2.byte i ∧ d.diff < 10) := fun h => h.1 hx
    rw [if_neg (not_not.mpr hz), if_neg hc]
    dsimp only
    split_ifs <;> simp
  · have hz : fat1.byte i ^^^ fat2.byte i ≠ 0 := fun h => hx (Nat.xor_eq_zero.mp h)
    rw [if_pos hz]
    dsimp only
    by_cases hd : d.diff < 10
    · have hc : fat1.byte i ≠ fat2.byte i ∧ d.diff < 10 := ⟨hx, hd⟩
      have hle : d.diff + 1 ≤ 10 := by omega
      rw [if_pos hc, if_pos hle]
      split_ifs <;> rfl
    · have hc : ¬ (fat1.byte i ≠ fat2.byte i ∧ d.diff < 10) := fun h => hd h.2
      have hle : ¬ d.diff + 1 ≤ 10 := by omega
      rw [if_neg hc, if_neg hle]
      split_ifs <;> simp

/-- The pairs printed by the comparison loop: those of the first differing indices of
its passes, in ascending order, as long as fewer than 10 were counted. -/
theorem copy_fats_compare_loop_offsets (fat1 fat2 : Bytes) (R S : Nat) :
    ∀ (passes i : Nat) (d d' : fat_diff),
      copy_fats_compare_loop fat1 fat2 R S passes i d = Run.ret d' →
      d'.offsets = d.offsets ++
        (((List.range' i passes).filter
            (fun j => decide (fat1.byte j ≠ fat2.byte j))).take (10 - d.diff)).map
          (fun j => ((R + j) % 4294967296, (R + S + j) % 4294967296)) := by
  intro passes
  induction passes with
  | zero =>
    intro i d d' h
    rw [copy_fats_compare_loop] at h
    cases h
    simp
  | succ n ih =>
    intro i d d' h
    rw [copy_fats_compare_loop] at h
    by_cases hi : 2147483648 ≤ i
    · rw [if_pos hi] at h
      exact Run.noConfusion h
    · rw [if_neg hi] at h
      rw [ih (i + 1) _ d' h, copy_fats_compare_pass_offsets, copy_fats_compare_pass_diff,
        List.range'_succ, List.filter_cons]
      by_cases hx : fat1.byte i = fat2.byte i
      · simp [hx]
      · by_cases hd : d.diff < 10
        · have e : 10 - d.diff = (10 - (d.diff + 1)) + 1 := by omega
          rw [e]
          simp [hx, hd]
        · have e1 : 10 - d.diff = 0 := by omega
          have e2 : 10 - (d.diff + 1) = 0 := by omega
          simp [hx, hd, e1, e2]

/-- The list `differing_indices` is ascending and holds exactly the indices below `S`
at which the buffers differ. -/
theorem differing_indices_spec (fat1 fat2 : Bytes) (S : Nat) :
    List.Pairwise (fun a b => a < b) (differing_indices fat1 fat2 S) ∧
    ∀ i, i ∈ differing_indices fat1 fat2 S ↔ i < S ∧ fat1.byte i ≠ fat2.byte i := by
  constructor
  · exact List.Pairwise.filter _ (List.pairwise_lt_range S)
  · intro i
    simp [differing_indices]

/-- A filter that selects one index of a range yields that index alone. -/
theorem filter_range_single (p : Nat → Bool) (a : Nat) :
    ∀ (n s : Nat), s ≤ a → a < s + n → (∀ j, s ≤ j → j < s + n → (p j = true ↔ j = a)) →
      (List.range' s n).filter p = [a] := by
  intro n
  induction n with
  | zero => intro s h1 h2 _; omega
  | succ n ih =>
    intro s h1 h2 hp
    rw [List.range'_succ, List.filter_cons]
    by_cases hs : s = a
    · subst hs
      rw [if_pos ((hp s (Nat.le_refl _) (by omega)).mpr rfl)]
      congr 1
      rw [List.filter_eq_nil_iff]
      intro j hj
      rw [List.mem_range'_1] at hj
      intro hpj
      have := (hp j (by omega) (by omega)).mp hpj
      omega
    · have hf : ¬ p s = true := fun h => hs ((hp s (Nat.le_refl _) (by omega)).mp h)
      rw [if_neg hf]
      exact ih (s + 1) (by omega) (by omega) (fun j h3 h4 => hp j (by omega) (by omega))

/-- What `copy_fats_into_memory` returns for tables of at most `2^31` bytes: the two
buffers, the number of differing indices, and the printed pairs, which are those of
the first 10 differing indices. -/
theorem copy_fats_into_memory_ret (img : Bytes) (g : Globals) (fs_type : Nat)
    (fat_sector : fat_boot_sector)
    (hS : (selected_fat_size fs_type fat_sector * g.bps) % 4294967296 ≤ 2147483648) :
    ∃ l, copy_fats_into_memory img g fs_type fat_sector = Run.ret l ∧
      l.fat_size_in_bytes = (selected_fat_size fs_type fat_sector * g.bps) % 4294967296 ∧
      l.fat1 = ⟨l.fat_size_in_bytes, pread img (fun _ => 0) 0 l.fat_size_in_bytes
        ((fat_sector.reserved_area_size * g.bps) % 4294967296)⟩ ∧
      l.fat2 = ⟨l.fat_size_in_bytes, pread img (fun _ => 0) 0 l.fat_size_in_bytes
        (((fat_sector.reserved_area_size * g.bps) % 4294967296 + l.fat_size_in_bytes)
          % 4294967296)⟩ ∧
      l.report.diff = (differing_indices l.fat1 l.fat2 l.fat_size_in_bytes).length ∧
      l.report.offsets = ((differing_indices l.fat1 l.fat2 l.fat_size_in_bytes).take 10).map
        (fun i => (((fat_sector.reserved_area_size * g.bps) % 4294967296 + i) % 4294967296,
          ((fat_sector.reserved_area_size * g.bps) % 4294967296 + l.fat_size_in_bytes + i)
            % 4294967296)) ∧
      l.total = (if 0 < l.report.diff then some l.report.diff else none) := by
  simp only [copy_fats_into_memory, copy_fats_size_eq]
  generalize (selected_fat_size fs_type fat_sector * g.bps) % 4294967296 = S at hS ⊢
  generalize (fat_sector.reserved_area_size * g.bps) % 4294967296 = R
  obtain ⟨d, hd, hc⟩ := copy_fats_compare_loop_diff
    ⟨S, pread img (fun _ => 0) 0 S R⟩ ⟨S, pread img (fun _ => 0) 0 S ((R + S) % 4294967296)⟩
    R S S 0 { diff := 0, offsets := [], more_than_10 := 0 } (by omega)
  have ho := copy_fats_compare_loop_offsets
    ⟨S, pread img (fun _ => 0) 0 S R⟩ ⟨S, pread img (fun _ => 0) 0 S ((R + S) % 4294967296)⟩
    R S S 0 { diff := 0, offsets := [], more_than_10 := 0 } d hd
  rw [hd, Run.ret_bind]
  refine ⟨_, rfl, rfl, rfl, rfl, ?_, ?_, rfl⟩
  · dsimp only
    rw [hc, differing_indices, List.range_eq_range', ← List.countP_eq_length_filter]
    simp
  · dsimp only
    rw [ho, differing_indices, List.range_eq_range']
    simp

/-- C31 (amended): for every pair of loaded FAT copies of size S ≤ 2^31,
`copy_fats_into_memory` returns and the individually reported discrepancies are
exactly the first min(10, total) differing byte indices i in ascending order, each
reported as the pair of `uint32_t` values ((R + i) mod 2^32, (R + S + i) mod 2^32)
with R = reserved_area_size*bps mod 2^32 and S the FAT size in bytes; these are the
image offsets (R + i, R + S + i) whenever R + 2*S ≤ 2^32; for copies differing
exactly at indices 5, 10 and 4000 it reports those three pairs and a total of 3. -/
theorem copy_fats_into_memory_offsets (img : Bytes) (g : Globals) (fs_type : Nat)
    (fat_sector : fat_boot_sector)
    (hS : (selected_fat_size fs_type fat_sector * g.bps) % 4294967296 ≤ 2147483648) :
    ∃ l, copy_fats_into_memory img g fs_type fat_sector = Run.ret l ∧
      l.fat_size_in_bytes = (selected_fat_size fs_type fat_sector * g.bps) % 4294967296 ∧
      l.report.diff = (differing_indices l.fat1 l.fat2 l.fat_size_in_bytes).length ∧
      l.report.offsets.length = min 10 l.report.diff ∧
      l.report.offsets = ((differing_indices l.fat1 l.fat2 l.fat_size_in_bytes).take 10).map
        (fun i => (((fat_sector.reserved_area_size * g.bps) % 4294967296 + i) % 4294967296,
          ((fat_sector.reserved_area_size * g.bps) % 4294967296 + l.fat_size_in_bytes + i)
            % 4294967296)) ∧
      ((fat_sector.reserved_area_size * g.bps) % 4294967296 + 2 * l.fat_size_in_bytes
          ≤ 4294967296 →
        l.report.offsets = ((differing_indices l.fat1 l.fat2 l.fat_size_in_bytes).take 10).map
          (fun i => ((fat_sector.reserved_area_size * g.bps) % 4294967296 + i,
            (fat_sector.reserved_area_size * g.bps) % 4294967296 + l.fat_size_in_bytes + i))) ∧
      (differing_indices l.fat1 l.fat2 l.fat_size_in_bytes = [5, 10, 4000] →
        l.report.offsets
          = [(((fat_sector.reserved_area_size * g.bps) % 4294967296 + 5) % 4294967296,
              ((fat_sector.reserved_area_size * g.bps) % 4294967296 + l.fat_size_in_bytes + 5)
                % 4294967296),
             (((fat_sector.reserved_area_size * g.bps) % 4294967296 + 10) % 4294967296,
              ((fat_sector.reserved_area_size * g.bps) % 4294967296 + l.fat_size_in_bytes + 10)
                % 4294967296),
             (((fat_sector.reserved_area_size * g.bps) % 4294967296 + 4000) % 4294967296,
              ((fat_sector.reserved_area_size * g.bps) % 4294967296 + l.fat_size_in_bytes
                + 4000) % 4294967296)] ∧
        l.total = some 3) := by
  obtain ⟨l, hl, hsize, _, _, hdiff, hoff, htot⟩ :=
    copy_fats_into_memory_ret img g fs_type fat_sector hS
  refine ⟨l, hl, hsize, hdiff, ?_, hoff, ?_, ?_⟩
  · rw [hoff, hdiff, List.length_map, List.length_take]
  · intro hfit
    rw [hoff]
    apply List.map_congr_left
    intro i hi
    have hmem := ((differing_indices_spec l.fat1 l.fat2 l.fat_size_in_bytes).2 i).mp
      (List.mem_of_mem_take hi)
    have hlt := hmem.1
    generalize (fat_sector.reserved_area_size * g.bps) % 4294967296 = R at hfit ⊢
    generalize l.fat_size_in_bytes = S at hfit hlt ⊢
    rw [Nat.mod_eq_of_lt (by omega), Nat.mod_eq_of_lt (by omega)]
  · intro h3
    rw [h3] at hoff hdiff
    refine ⟨hoff, ?_⟩
    rw [htot, hdiff]
    rfl

/-- C31 (amended) at a concrete volume: the tables of `three_diff_image`, of 4096
bytes each. -/
theorem copy_fats_into_memory_offsets_witness :
    ((selected_fat_size FAT32 three_diff_sector * (plain_geometry 1).bps) % 4294967296
        ≤ 2147483648) ∧
    ∃ l, copy_fats_into_memory three_diff_image (plain_geometry 1) FAT32 three_diff_sector
        = Run.ret l ∧
      l.fat_size_in_bytes
        = (selected_fat_size FAT32 three_diff_sector * (plain_geometry 1).bps) % 4294967296 ∧
      l.report.diff = (differing_indices l.fat1 l.fat2 l.fat_size_in_bytes).length ∧
      l.report.offsets.length = min 10 l.report.diff ∧
      l.report.offsets = ((differing_indices l.fat1 l.fat2 l.fat_size_in_bytes).take 10).map
        (fun i =>
          (((three_diff_sector.reserved_area_size * (plain_geometry 1).bps) % 4294967296 + i)
              % 4294967296,
            ((three_diff_sector.reserved_area_size * (plain_geometry 1).bps) % 4294967296
              + l.fat_size_in_bytes + i) % 4294967296)) ∧
      ((three_diff_sector.reserved_area_size * (plain_geometry 1).bps) % 4294967296
          + 2 * l.fat_size_in_bytes ≤ 4294967296 →
        l.report.offsets = ((differing_indices l.fat1 l.fat2 l.fat_size_in_bytes).take 10).map
          (fun i =>
            ((three_diff_sector.reserved_area_size * (plain_geometry 1).bps) % 4294967296 + i,
              (three_diff_sector.reserved_area_size * (plain_geometry 1).bps) % 4294967296
                + l.fat_size_in_bytes + i))) ∧
      (differing_indices l.fat1 l.fat2 l.fat_size_in_bytes = [5, 10, 4000] →
        l.report.offsets
          = [(((three_diff_sector.reserved_area_size * (plain_geometry 1).bps) % 4294967296 + 5)
                % 4294967296,
              ((three_diff_sector.reserved_area_size * (plain_geometry 1).bps) % 4294967296
                + l.fat_size_in_bytes + 5) % 4294967296),
             (((three_diff_sector.reserved_area_size * (plain_geometry 1).bps) % 4294967296 + 10)
                % 4294967296,
              ((three_diff_sector.reserved_area_size * (plain_geometry 1).bps) % 4294967296
                + l.fat_size_in_bytes + 10) % 4294967296),
             (((three_diff_sector.reserved_area_size * (plain_geometry 1).bps) % 4294967296
                + 4000) % 4294967296,
              ((three_diff_sector.reserved_area_size * (plain_geometry 1).bps) % 4294967296
                + l.fat_size_in_bytes + 4000) % 4294967296)] ∧
        l.total = some 3) :=
  ⟨by decide,
    copy_fats_into_memory_offsets three_diff_image (plain_geometry 1) FAT32 three_diff_sector
      (by decide)⟩

/-- The bytes of the two tables loaded from `three_diff_image`. -/
theorem three_diff_bytes (j : Nat) (hj : j < 4096) :
    (⟨4096, pread three_diff_image (fun _ => 0) 0 4096 16384⟩ : Bytes).byte j
      = (if j = 5 then 1 else if j = 10 then 2 else if j = 4000 then 3 else 0) ∧
    (⟨4096, pread three_diff_image (fun _ => 0) 0 4096 20480⟩ : Bytes).byte j = 0 := by
  constructor
  · have hc : 0 ≤ j ∧ j - 0 < 4096 ∧ j - 0 < MAX_RW_COUNT
        ∧ 16384 + (j - 0) < three_diff_image.size := by
      refine ⟨Nat.zero_le _, by omega, ?_, ?_⟩
      · show j - 0 < 2147479552
        omega
      · show 16384 + (j - 0) < 24576
        omega
    show (pread three_diff_image (fun _ => 0) 0 4096 16384 j) % 256 = _
    rw [pread, if_pos hc]
    show ((([(16389, 1), (16394, 2), (20384, 3)] : List (Nat × Nat)).lookup
      (16384 + (j - 0))).getD 0 % 256) % 256 = _
    by_cases h5 : j = 5
    · subst h5
      rfl
    · by_cases h10 : j = 10
      · subst h10
        rfl
      · by_cases h4000 : j = 4000
        · subst h4000
          rfl
        · have n1 : (16384 + (j - 0) == 16389) = false := by
            rw [beq_eq_false_iff_ne]
            omega
          have n2 : (16384 + (j - 0) == 16394) = false := by
            rw [beq_eq_false_iff_ne]
            omega
          have n3 : (16384 + (j - 0) == 20384) = false := by
            rw [beq_eq_false_iff_ne]
            omega
          rw [if_neg h5, if_neg h10, if_neg h4000]
          simp only [List.lookup, n1, n2, n3]
          rfl
  · show (pread three_diff_image (fun _ => 0) 0 4096 20480 j) % 256 = _
    rw [pread]
    split_ifs with hc
    · show ((([(16389, 1), (16394, 2), (20384, 3)] : List (Nat × Nat)).lookup
        (20480 + (j - 0))).getD 0 % 256) % 256 = _
      have n1 : (20480 + (j - 0) == 16389) = false := by
        rw [beq_eq_false_iff_ne]
        omega
      have n2 : (20480 + (j - 0) == 16394) = false := by
        rw [beq_eq_false_iff_ne]
        omega
      have n3 : (20480 + (j - 0) == 20384) = false := by
        rw [beq_eq_false_iff_ne]
        omega
      simp only [List.lookup, n1, n2, n3]
      rfl
    · rfl

/-- The two tables loaded from `three_diff_image` differ at the indices 5, 10 and 4000
only. -/
theorem three_diff_differing_indices :
    differing_indices
        ⟨4096, pread three_diff_image (fun _ => 0) 0 4096 16384⟩
        ⟨4096, pread three_diff_image (fun _ => 0) 0 4096 20480⟩ 4096
      = [5, 10, 4000] := by
  have hp : ∀ a, (a = 5 ∨ a = 10 ∨ a = 4000) → ∀ s n, s + n ≤ 4096 →
      (∀ j, s ≤ j → j < s + n → (j = 5 ∨ j = 10 ∨ j = 4000) → j = a) →
      ∀ j, s ≤ j → j < s + n →
        (decide ((⟨4096, pread three_diff_image (fun _ => 0) 0 4096 16384⟩ : Bytes).byte j
          ≠ (⟨4096, pread three_diff_image (fun _ => 0) 0 4096 20480⟩ : Bytes).byte j) = true
          ↔ j = a) := by
    intro a ha s n hsn honly j h1 h2
    obtain ⟨b1, b2⟩ := three_diff_bytes j (by omega)
    rw [b1, b2, decide_eq_true_iff]
    constructor
    · intro hne
      apply honly j h1 h2
      by_cases h5 : j = 5
      · exact Or.inl h5
      · by_cases h10 : j = 10
        · exact Or.inr (Or.inl h10)
        · by_cases h4000 : j = 4000
          · exact Or.inr (Or.inr h4000)
          · rw [if_neg h5, if_neg h10, if_neg h4000] at hne
            exact absurd rfl hne
    · intro hja
      subst hja
      rcases ha with h | h | h <;> subst h <;> decide
  have e1 : List.range' 0 4096 = List.range' 0 6 ++ (List.range' 6 5 ++ List.range' 11 4085) := by
    rw [List.range'_append_1, List.range'_append_1]
  rw [differing_indices, List.range_eq_range', e1, List.filter_append, List.filter_append,
    filter_range_single _ 5 6 0 (by omega) (by omega)
      (hp 5 (Or.inl rfl) 0 6 (by omega) (fun j _ _ h => by omega)),
    filter_range_single _ 10 5 6 (by omega) (by omega)
      (hp 10 (Or.inr (Or.inl rfl)) 6 5 (by omega) (fun j _ _ h => by omega)),
    filter_range_single _ 4000 4085 11 (by omega) (by omega)
      (hp 4000 (Or.inr (Or.inr rfl)) 11 4085 (by omega) (fun j _ _ h => by omega))]
  rfl

/-- The run of `copy_fats_into_memory` on `three_diff_image`: the tables differ at the
indices 5, 10 and 4000, the three pairs of offsets are printed and the total is 3. -/
theorem copy_fats_into_memory_three_differences :
    (copy_fats_into_memory three_diff_image (plain_geometry 1) FAT32 three_diff_sector).map
        (fun l => (differing_indices l.fat1 l.fat2 l.fat_size_in_bytes, l.report.diff,
          l.report.offsets, l.total))
      = Run.ret ([5, 10, 4000], 3, [(16389, 20485), (16394, 20490), (20384, 24480)],
          some 3) := by
  have hS : (selected_fat_size FAT32 three_diff_sector * (plain_geometry 1).bps) % 4294967296
      = 4096 := by decide
  have hR : (three_diff_sector.reserved_area_size * (plain_geometry 1).bps) % 4294967296
      = 16384 := by decide
  obtain ⟨l, hl, hsize, hf1, hf2, hdiff, hoff, htot⟩ :=
    copy_fats_into_memory_ret three_diff_image (plain_geometry 1) FAT32 three_diff_sector
      (by rw [hS]; omega)
  rw [hS] at hsize
  have e : (16384 + 4096) % 4294967296 = 20480 := by decide
  rw [hR, hsize] at hf1
  rw [hR, hsize, e] at hf2
  have hdi : differing_indices l.fat1 l.fat2 l.fat_size_in_bytes = [5, 10, 4000] := by
    rw [hf1, hf2, hsize]
    exact three_diff_differing_indices
  rw [hdi] at hdiff hoff
  rw [hR, hsize] at hoff
  rw [hl]
  show Run.ret (differing_indices l.fat1 l.fat2 l.fat_size_in_bytes, l.report.diff,
    l.report.offsets, l.total) = _
  rw [hdi, htot, hoff, hdiff]
  rfl

/-! ## Progress of the directory scan (`read_fat32_filesystem`) -/

/-- A `read_disk` call of one byte that returns has read at a cluster of the list: the
cluster size is nonzero and the starting index lies inside `cluster_list`. -/
theorem read_disk_var_ret_index (img : Bytes) (g : Globals) (old field_offset : Nat)
    (read : read_parameters) (a : Nat)
    (h : read_disk_var img g old 4 1 field_offset read = Run.ret a) :
    cluster_bytes g ≠ 0 ∧
    ((field_offset + read.entry_offset) % 4294967296) / cluster_bytes g
      < read.cluster_list.length := by
  unfold read_disk_var at h
  by_cases hC : cluster_bytes g = 0
  · unfold read_disk at h
    rw [if_pos hC] at h
    exact Run.noConfusion h
  · refine ⟨hC, ?_⟩
    rw [read_disk_single img g _ 1 field_offset read hC (by omega)] at h
    unfold read_disk_offset at h
    cases hget : read.cluster_list.get?
        (((field_offset + read.entry_offset) % 4294967296) / cluster_bytes g) with
    | none =>
      rw [hget] at h
      exact Run.noConfusion h
    | some c =>
      exact (List.get?_eq_some.mp hget).1

/-- A walk of `walk_lfn_entries` all of whose probes read at a cluster of the list (the
runs that return in this model): when the list holds `B` bytes (a multiple of 32 below
`2^32`) and the walk starts at a slot of the directory, no offset it adds wraps, and
the offset it returns is that of a slot before byte `B`. -/
theorem walk_lfn_entries_loop_within (img : Bytes) (g : Globals) (read : read_parameters)
    (hB32 : (read.cluster_list.length * cluster_bytes g) % 32 = 0)
    (hB : read.cluster_list.length * cluster_bytes g < 4294967296)
    (hi32 : read.entry_offset % 32 = 0) :
    ∀ fuel off attr S, off % 32 = 0 → off + read.entry_offset + 32 ≤ 4294967296 →
      walk_lfn_entries_loop img g read fuel off attr = Run.ret S →
      S % 32 = 0 ∧ off ≤ S ∧
      S + read.entry_offset + 32 ≤ read.cluster_list.length * cluster_bytes g := by
  intro fuel
  induction fuel with
  | zero => intro off attr S _ _ h; simp [walk_lfn_entries_loop] at h
  | succ fuel ih =>
    intro off attr S h32 hlt h
    rw [walk_lfn_entries_loop, Run.bind_eq_ret] at h
    obtain ⟨probed, hprobe, h⟩ := h
    obtain ⟨hC, hidx⟩ := read_disk_var_ret_index img g attr _ read probed hprobe
    have e1 : (FILE_ATTRIBUTES + off) % 4294967296 = 11 + off := by
      unfold FILE_ATTRIBUTES
      omega
    have e2 : (11 + off + read.entry_offset) % 4294967296 = 11 + off + read.entry_offset := by
      omega
    rw [e1, e2, Nat.div_lt_iff_lt_mul (Nat.pos_of_ne_zero hC)] at hidx
    have hin : off + read.entry_offset + 32 ≤ read.cluster_list.length * cluster_bytes g := by
      omega
    by_cases hp : probed = FLAG_FAT_LONG_FILE_NAME
    · rw [if_pos hp] at h
      have e3 : (off + 32) % 4294967296 = off + 32 := by omega
      rw [e3] at h
      obtain ⟨r1, r2, r3⟩ := ih (off + 32) probed S (by omega) (by omega) h
      exact ⟨r1, by omega, r3⟩
    · rw [if_neg hp] at h
      simp only [Run.ret.injEq] at h
      refine ⟨by omega, by omega, ?_⟩
      omega

/-- The offset `read_fat_dir_entry` returns is the offset `walk_lfn_entries` found plus
32, as a `uint32_t`. -/
theorem read_fat_dir_entry_ret_walk (fuel : Nat) (img : Bytes) (g : Globals)
    (entry : fat_dir_entry) (read : read_parameters) (e : fat_dir_entry) (x : Nat)
    (h : read_fat_dir_entry fuel img g entry read = Run.ret (e, x)) :
    ∃ S, walk_lfn_entries fuel img g read = Run.ret S ∧ x = (S + 32) % 4294967296 := by
  simp only [read_fat_dir_entry, Run.bind_eq_ret, Run.ret.injEq, Prod.mk.injEq] at h
  obtain ⟨S, hS, _, _, _, _, _, _, _, _, _, _, _, _, _, _, _, _, _, _, _, _, _, _, _, hx⟩ := h
  exact ⟨S, hS, hx.symm⟩

/-- The loop bound `read_info.list_length * bps * spc` of `read_fat32_filesystem`,
computed in `uint32_t`, is the exact product when that is below `2^32`. -/
theorem scan_bound_eq (list_length bps spc : Nat)
    (hB : list_length * bps * spc < 4294967296) :
    ((list_length * bps) % 4294967296 * spc) % 4294967296 = list_length * bps * spc := by
  by_cases hs : spc = 0
  · subst hs
    simp
  · have h1 : list_length * bps ≤ list_length * bps * spc :=
      Nat.le_mul_of_pos_right _ (Nat.pos_of_ne_zero hs)
    rw [Nat.mod_eq_of_lt (Nat.lt_of_le_of_lt h1 hB), Nat.mod_eq_of_lt hB]

/-- A slot decoded by reads at clusters of the list (the runs that return in this
model), in a directory of `B = list_length * bps * spc < 2^32` bytes with clusters
that hold a multiple of 32 bytes: the `uint32_t` sum `LFN + 32` does not wrap, so the
offset returned is a positive multiple of 32. -/
theorem read_fat_dir_entry_advance (fuel : Nat) (img : Bytes) (g : Globals)
    (entry : fat_dir_entry) (read : read_parameters) (e : fat_dir_entry) (x : Nat)
    (hB : read.list_length * g.bps * g.spc < 4294967296)
    (h32 : (g.bps * g.spc) % 32 = 0)
    (hlen : read.cluster_list.length = read.list_length)
    (hi32 : read.entry_offset % 32 = 0)
    (hi : read.entry_offset < read.list_length * g.bps * g.spc)
    (h : read_fat_dir_entry fuel img g entry read = Run.ret (e, x)) :
    0 < x ∧ x % 32 = 0 ∧ read.entry_offset + x ≤ read.list_length * g.bps * g.spc := by
  obtain ⟨S, hS, hx⟩ := read_fat_dir_entry_ret_walk fuel img g entry read e x h
  have hpos : 0 < read.list_length := by
    rcases Nat.eq_zero_or_pos read.list_length with h0 | h0
    · rw [h0] at hi
      simp at hi
    · exact h0
  have hassoc : read.list_length * g.bps * g.spc = read.list_length * (g.bps * g.spc) :=
    Nat.mul_assoc _ _ _
  have hle : g.bps * g.spc ≤ read.list_length * (g.bps * g.spc) :=
    Nat.le_mul_of_pos_left _ hpos
  have hC : cluster_bytes g = g.bps * g.spc := by
    unfold cluster_bytes
    exact Nat.mod_eq_of_lt (by omega)
  have hBC : read.cluster_list.length * cluster_bytes g = read.list_length * g.bps * g.spc := by
    rw [hlen, hC, hassoc]
  have hB32 : (read.list_length * g.bps * g.spc) % 32 = 0 := by
    rw [hassoc]
    exact Nat.dvd_iff_mod_eq_zero.mp (Dvd.dvd.mul_left (Nat.dvd_of_mod_eq_zero h32) _)
  have hw := walk_lfn_entries_loop_within img g read (by rw [hBC]; exact hB32)
    (by rw [hBC]; exact hB) hi32 fuel 0 0 S rfl (by omega) hS
  rw [hBC] at hw
  obtain ⟨w1, _, w3⟩ := hw
  generalize read.list_length * g.bps * g.spc = B at hB hi hB32 w3 ⊢
  subst hx
  omega

/-- C35 (counterexample): a directory chain of 131072 clusters of 32768 bytes (4096-byte
sectors, 8 per cluster, a geometry `validate_fat_boot_sector` accepts) holds
list_length*bps*spc = 2^32 bytes.  The loop bound is the `uint32_t` product, which is
0, so the scan loop stops at offset 0 without an iteration, although 0 is below
list_length*bps*spc. -/
theorem read_fat32_filesystem_loop_bound_counterexample :
    validate_fat_boot_sector wide_geometry (plain_sector 8 2) ≠ Outcome.exit_failure ∧
    wrap_chain.list_length * wide_geometry.bps * wide_geometry.spc = 4294967296 ∧
    wrap_chain.entry_offset = 0 ∧
    0 < wrap_chain.list_length * wide_geometry.bps * wide_geometry.spc ∧
    read_fat32_filesystem_loop wrap_walker (5 + 1) wrap_chain 0 walk_start
      = Run.ret walk_start := by
  refine ⟨by decide, by decide, rfl, by decide, ?_⟩
  rw [read_fat32_filesystem_loop, if_neg (by decide)]

/-- C35 (amended): for every directory whose chain has list_length clusters with
B = list_length*bps*spc < 2^32 (clusters of a multiple of 32 bytes, as validated
geometries have), at every iteration of the scan loop of `read_fat32_filesystem`
(offset i = entry_offset, a multiple of 32): the loop stops when i ≥ B; when i < B
and the slot is decoded (every run of LFN slots ends), the offset x returned is a
positive multiple of 32, the next iteration runs at offset i + x, and the number
(B - i) / 32 of slots left strictly decreases, so at most B / 32 iterations are
performed. -/
theorem read_fat32_filesystem_loop_advance (w : walker) (fuel : Nat)
    (read_info : read_parameters) (i : Nat) (st : walk_state)
    (hB : read_info.list_length * w.g.bps * w.g.spc < 4294967296)
    (h32 : (w.g.bps * w.g.spc) % 32 = 0)
    (hlen : read_info.cluster_list.length = read_info.list_length)
    (hoff : read_info.entry_offset = i) (hi32 : i % 32 = 0) :
    (read_info.list_length * w.g.bps * w.g.spc ≤ i →
      read_fat32_filesystem_loop w (fuel + 1) read_info i st = Run.ret st) ∧
    (i < read_info.list_length * w.g.bps * w.g.spc →
      ∀ e x, read_fat_dir_entry fuel w.img w.g fat_dir_entry.zero read_info = Run.ret (e, x) →
        0 < x ∧ x % 32 = 0 ∧ (i + x) % 32 = 0 ∧
        (read_info.list_length * w.g.bps * w.g.spc - (i + x)) / 32
          < (read_info.list_length * w.g.bps * w.g.spc - i) / 32 ∧
        ∀ last, get_last_cluster fuel w.fat_bs w.fat1 e.cluster_addr = Run.ret last →
          read_fat32_filesystem_loop w (fuel + 1) read_info i st
            = if skip_entry { e with last_cluster := last } then
                read_fat32_filesystem_loop w fuel { read_info with entry_offset := i + x }
                  (i + x)
                  { st with
                    events := st.events ++ [walk_event.skip { e with last_cluster := last }] }
              else
                (if (e.file_attributes &&& 0x10) ≠ 0 then
                  (read_fat32_filesystem_body w fuel (read_fat32_filesystem_loop w fuel)
                      e.cluster_addr { e with last_cluster := last, is_directory := true }
                      { st with
                        events := st.events ++ [walk_event.keep { e with last_cluster := last },
                          walk_event.dir
                            { e with last_cluster := last, is_directory := true }] }).bind
                    fun r =>
                      Run.ret (r.1, { r.2 with events := r.2.events ++ [walk_event.dir_end] })
                else
                  Run.ret ({ e with last_cluster := last },
                    { st with
                      events := st.events
                        ++ [walk_event.keep { e with last_cluster := last }] })).bind fun r =>
                (if w.h_flag && !r.1.is_directory then
                  (check_for_hidden_data w.img w.g r.1 r.2.hidden_data_found).bind fun c =>
                    Run.ret
                      ({ hidden_data_found := c.1,
                         events := r.2.events ++ [walk_event.check r.1 c.2] } : walk_state)
                else Run.ret r.2).bind fun st2 =>
                read_fat32_filesystem_loop w fuel { read_info with entry_offset := i + x }
                  (i + x) st2) := by
  have hbound := scan_bound_eq read_info.list_length w.g.bps w.g.spc hB
  constructor
  · intro hge
    rw [read_fat32_filesystem_loop, hbound, if_neg (by omega)]
  · intro hlt e x hdec
    obtain ⟨hx0, hx32, hxB⟩ := read_fat_dir_entry_advance fuel w.img w.g fat_dir_entry.zero
      read_info e x hB h32 hlen (by rw [hoff]; exact hi32) (by rw [hoff]; exact hlt) hdec
    rw [hoff] at hxB
    refine ⟨hx0, hx32, by omega, by omega, ?_⟩
    intro last hlast
    have hm : (i + x) % 4294967296 = i + x := Nat.mod_eq_of_lt (by omega)
    rw [read_fat32_filesystem_loop, hbound, if_pos hlt, hdec, Run.ret_bind, hlast, Run.ret_bind]
    simp only [hoff, hm]

/-- C35 (amended) at a concrete directory: the root directory of `tiny_volume`, one
cluster of 512 bytes, at its first slot. -/
theorem read_fat32_filesystem_loop_advance_witness :
    (first_slot.list_length * (tiny_walker true).g.bps * (tiny_walker true).g.spc < 4294967296 ∧
      ((tiny_walker true).g.bps * (tiny_walker true).g.spc) % 32 = 0 ∧
      first_slot.cluster_list.length = first_slot.list_length ∧
      first_slot.entry_offset = 0 ∧ 0 % 32 = 0) ∧
    ((first_slot.list_length * (tiny_walker true).g.bps * (tiny_walker true).g.spc ≤ 0 →
      read_fat32_filesystem_loop (tiny_walker true) (20 + 1) first_slot 0 walk_start
        = Run.ret walk_start) ∧
    (0 < first_slot.list_length * (tiny_walker true).g.bps * (tiny_walker true).g.spc →
      ∀ e x, read_fat_dir_entry 20 (tiny_walker true).img (tiny_walker true).g
          fat_dir_entry.zero first_slot = Run.ret (e, x) →
        0 < x ∧ x % 32 = 0 ∧ (0 + x) % 32 = 0 ∧
        (first_slot.list_length * (tiny_walker true).g.bps * (tiny_walker true).g.spc - (0 + x))
            / 32
          < (first_slot.list_length * (tiny_walker true).g.bps * (tiny_walker true).g.spc - 0)
            / 32 ∧
        ∀ last, get_last_cluster 20 (tiny_walker true).fat_bs (tiny_walker true).fat1
            e.cluster_addr = Run.ret last →
          read_fat32_filesystem_loop (tiny_walker true) (20 + 1) first_slot 0 walk_start
            = if skip_entry { e with last_cluster := last } then
                read_fat32_filesystem_loop (tiny_walker true) 20
                  { first_slot with entry_offset := 0 + x } (0 + x)
                  { walk_start with
                    events := walk_start.events
                      ++ [walk_event.skip { e with last_cluster := last }] }
              else
                (if (e.file_attributes &&& 0x10) ≠ 0 then
                  (read_fat32_filesystem_body (tiny_walker true) 20
                      (read_fat32_filesystem_loop (tiny_walker true) 20)
                      e.cluster_addr { e with last_cluster := last, is_directory := true }
                      { walk_start with
                        events := walk_start.events
                          ++ [walk_event.keep { e with last_cluster := last },
                          walk_event.dir
                            { e with last_cluster := last, is_directory := true }] }).bind
                    fun r =>
                      Run.ret (r.1, { r.2 with events := r.2.events ++ [walk_event.dir_end] })
                else
                  Run.ret ({ e with last_cluster := last },
                    { walk_start with
                      events := walk_start.events
                        ++ [walk_event.keep { e with last_cluster := last }] })).bind fun r =>
                (if (tiny_walker true).h_flag && !r.1.is_directory then
                  (check_for_hidden_data (tiny_walker true).img (tiny_walker true).g r.1
                      r.2.hidden_data_found).bind fun c =>
                    Run.ret
                      ({ hidden_data_found := c.1,
                         events := r.2.events ++ [walk_event.check r.1 c.2] } : walk_state)
                else Run.ret r.2).bind fun st2 =>
                read_fat32_filesystem_loop (tiny_walker true) 20
                  { first_slot with entry_offset := 0 + x } (0 + x) st2)) :=
  ⟨⟨by decide, by decide, rfl, rfl, rfl⟩,
    read_fat32_filesystem_loop_advance (tiny_walker true) 20 first_slot 0 walk_start
      (by decide) (by decide) rfl rfl rfl⟩

/-- The first slot of the root directory of `tiny_volume` is decoded with x = 32: the
scan moves from offset 0 to offset 32, with 15 of the 16 slots left. -/
theorem tiny_walk_first_advance :
    (read_fat_dir_entry 20 (tiny_walker true).img (tiny_walker true).g fat_dir_entry.zero
        first_slot).map (fun r => r.2) = Run.ret 32 ∧
    (512 - (0 + 32)) / 32 = 15 ∧ (512 - 0) / 32 = 16 := by
  decide

/-! ## What one `pread` loads (`copy_fats_into_memory`) -/

/-- C29 (counterexample): `volume_image 0x3C` carries the FAT16 jump `EB 3C 90`, so
`verify_disk_image` returns FAT16 for it, while `read_fat_boot_sector` classifies it
FAT32 (69968 clusters) with 547 sectors in the FAT32 size field; validation passes.
`copy_fats_into_memory` is called with `fs_type = FAT16`, takes the legacy size field,
which is 0, and loads two empty buffers, not two buffers of 547 * 512 bytes.  And for
the tables of `half_fat_sector`, of S = 2^31 bytes at R = 16384, the one `pread` call
per copy transfers 0x7ffff000 bytes: index 2^31 - 1 of the primary buffer stays 0,
whereas the image byte at R + 2^31 - 1 is 1. -/
theorem copy_fats_into_memory_size_counterexample :
    verify_disk_image (volume_image 0x3C) (fun _ => 0) FAT16 = Outcome.returns FAT16 ∧
    read_fat_boot_sector (volume_image 0x3C) fat_boot_sector.zero 0 Globals.init
      = some (volume_sector, volume_geometry) ∧
    volume_sector.is_fat32 = true ∧
    volume_sector.fat32_size_in_sectors * volume_geometry.bps = 280064 ∧
    validate_fat_boot_sector volume_geometry volume_sector
      = Outcome.returns
          { conflicting_indicators := false, media_type_unknown := false,
            conflicting_sector_counts := false } ∧
    (copy_fats_into_memory (volume_image 0x3C) volume_geometry FAT16 volume_sector).map
        (fun l => (l.fat_size_in_bytes, l.fat1.size, l.fat2.size))
      = Run.ret (0, 0, 0) ∧
    half_fat_sector.fat32_size_in_sectors * (plain_geometry 1).bps = 2147483648 ∧
    half_fat_sector.reserved_area_size * (plain_geometry 1).bps = 16384 ∧
    16384 + 2147483647 < half_fat_image.size ∧
    half_fat_image.byte (16384 + 2147483647) = 1 ∧
    (copy_fats_into_memory half_fat_image (plain_geometry 1) FAT32 half_fat_sector).map
        (fun l => (l.fat1.size, l.fat1.byte 2147483647))
      = Run.ret (2147483648, 0) := by
  refine ⟨by decide, read_fat_boot_sector_volume.1, rfl, by decide, by decide, by decide,
    by decide, by decide, by decide, by decide, ?_⟩
  have hS : (selected_fat_size FAT32 half_fat_sector * (plain_geometry 1).bps) % 4294967296
      = 2147483648 := by decide
  have hR : (half_fat_sector.reserved_area_size * (plain_geometry 1).bps) % 4294967296
      = 16384 := by decide
  obtain ⟨l, hl, hsize, hf1, _, _, _, _⟩ :=
    copy_fats_into_memory_ret half_fat_image (plain_geometry 1) FAT32 half_fat_sector
      (by rw [hS])
  rw [hS] at hsize
  rw [hR, hsize] at hf1
  rw [hl]
  show Run.ret (l.fat1.size, l.fat1.byte 2147483647) = _
  rw [hf1]
  have hn : ¬ (0 ≤ 2147483647 ∧ 2147483647 - 0 < 2147483648 ∧ 2147483647 - 0 < MAX_RW_COUNT
      ∧ 16384 + (2147483647 - 0) < half_fat_image.size) := by
    intro h
    exact absurd h.2.2.1 (by decide)
  show Run.ret ((2147483648 : Nat),
    (pread half_fat_image (fun _ => 0) 0 2147483648 16384 2147483647) % 256) = _
  rw [pread, if_neg hn]

/-- C29 (amended): for a validated sector size (`bps ≤ 4096`), a reserved-sector count
in the range of its `uint16_t` and a table of at most `2^31` bytes,
`copy_fats_into_memory` returns with two buffers of equal size S = F * bps, where F is
`fat32_size_in_sectors` when the type passed as `fs_type` (the one `verify_disk_image`
detected from the jump bytes) is FAT32 and the legacy `fat_size_in_sectors` otherwise;
the primary buffer holds image bytes [R, R+S) and the secondary image bytes
[R+S, R+2S), with R = reserved_area_size * bps, as far as the one `pread` call per
copy transfers them (the first 0x7ffff000 bytes of each); the rest of each buffer and
bytes past the end of the image are 0. -/
theorem copy_fats_into_memory_loads (img : Bytes) (g : Globals) (fs_type : Nat)
    (fat_sector : fat_boot_sector)
    (hbps : g.bps ≤ 4096) (hres : fat_sector.reserved_area_size < 65536)
    (hS : selected_fat_size fs_type fat_sector * g.bps ≤ 2147483648) :
    ∃ l, copy_fats_into_memory img g fs_type fat_sector = Run.ret l ∧
      l.fat_size_in_bytes = selected_fat_size fs_type fat_sector * g.bps ∧
      l.fat1.size = selected_fat_size fs_type fat_sector * g.bps ∧
      l.fat2.size = selected_fat_size fs_type fat_sector * g.bps ∧
      ∀ j, j < selected_fat_size fs_type fat_sector * g.bps →
        l.fat1.byte j
          = (if j < MAX_RW_COUNT
              then byte_or_zero img (fat_sector.reserved_area_size * g.bps + j) else 0) ∧
        l.fat2.byte j
          = (if j < MAX_RW_COUNT
              then byte_or_zero img
                (fat_sector.reserved_area_size * g.bps
                  + selected_fat_size fs_type fat_sector * g.bps + j)
              else 0) := by
  have hR : fat_sector.reserved_area_size * g.bps < 268435456 := by
    calc fat_sector.reserved_area_size * g.bps
        ≤ 65535 * 4096 := Nat.mul_le_mul (by omega) hbps
      _ < 268435456 := by decide
  have hRm : (fat_sector.reserved_area_size * g.bps) % 4294967296
      = fat_sector.reserved_area_size * g.bps := Nat.mod_eq_of_lt (by omega)
  have hSm : (selected_fat_size fs_type fat_sector * g.bps) % 4294967296
      = selected_fat_size fs_type fat_sector * g.bps := Nat.mod_eq_of_lt (by omega)
  have hRS : (fat_sector.reserved_area_size * g.bps
        + selected_fat_size fs_type fat_sector * g.bps) % 4294967296
      = fat_sector.reserved_area_size * g.bps
        + selected_fat_size fs_type fat_sector * g.bps := Nat.mod_eq_of_lt (by omega)
  simp only [copy_fats_into_memory, copy_fats_size_eq, hRm, hSm, hRS]
  obtain ⟨d, hd, -⟩ := copy_fats_compare_loop_diff
    { size := selected_fat_size fs_type fat_sector * g.bps,
      data := pread img (fun _ => 0) 0 (selected_fat_size fs_type fat_sector * g.bps)
        (fat_sector.reserved_area_size * g.bps) }
    { size := selected_fat_size fs_type fat_sector * g.bps,
      data := pread img (fun _ => 0) 0 (selected_fat_size fs_type fat_sector * g.bps)
        (fat_sector.reserved_area_size * g.bps
          + selected_fat_size fs_type fat_sector * g.bps) }
    (fat_sector.reserved_area_size * g.bps) (selected_fat_size fs_type fat_sector * g.bps)
    (selected_fat_size fs_type fat_sector * g.bps) 0
    { diff := 0, offsets := [], more_than_10 := 0 } (by omega)
  rw [hd, Run.ret_bind]
  refine ⟨_, rfl, rfl, rfl, rfl, ?_⟩
  intro j hj
  simp only [Bytes.byte, pread, byte_or_zero, Nat.zero_le, Nat.sub_zero, hj, true_and]
  constructor
  · by_cases hm : j < MAX_RW_COUNT
    · simp only [hm, true_and, if_true]
      split_ifs
      · exact Nat.mod_mod _ _
      · rfl
    · simp only [hm, false_and, if_false]
  · by_cases hm : j < MAX_RW_COUNT
    · simp only [hm, true_and, if_true]
      split_ifs
      · exact Nat.mod_mod _ _
      · rfl
    · simp only [hm, false_and, if_false]

/-- C29 (amended) at a concrete volume: `volume_image 0x58` with the FAT32 type. -/
theorem copy_fats_into_memory_loads_witness :
    (volume_geometry.bps ≤ 4096 ∧ volume_sector.reserved_area_size < 65536 ∧
      selected_fat_size FAT32 volume_sector * volume_geometry.bps ≤ 2147483648) ∧
    ∃ l, copy_fats_into_memory (volume_image 0x58) volume_geometry FAT32 volume_sector
        = Run.ret l ∧
      l.fat_size_in_bytes = selected_fat_size FAT32 volume_sector * volume_geometry.bps ∧
      l.fat1.size = selected_fat_size FAT32 volume_sector * volume_geometry.bps ∧
      l.fat2.size = selected_fat_size FAT32 volume_sector * volume_geometry.bps ∧
      ∀ j, j < selected_fat_size FAT32 volume_sector * volume_geometry.bps →
        l.fat1.byte j
          = (if j < MAX_RW_COUNT
              then byte_or_zero (volume_image 0x58)
                (volume_sector.reserved_area_size * volume_geometry.bps + j)
              else 0) ∧
        l.fat2.byte j
          = (if j < MAX_RW_COUNT
              then byte_or_zero (volume_image 0x58)
                (volume_sector.reserved_area_size * volume_geometry.bps
                  + selected_fat_size FAT32 volume_sector * volume_geometry.bps + j)
              else 0) :=
  ⟨⟨by decide, by decide, by decide⟩,
    copy_fats_into_memory_loads (volume_image 0x58) volume_geometry FAT32 volume_sector
      (by decide) (by decide) (by decide)⟩

/-- The two tables loaded from `far_fat_image` differ at index 2013270016 only. -/
theorem far_fat_differing_indices :
    differing_indices
        ⟨2147479552, pread far_fat_image (fun _ => 0) 0 2147479552 134217728⟩
        ⟨2147479552, pread far_fat_image (fun _ => 0) 0 2147479552 2281697280⟩ 2147479552
      = [2013270016] := by
  rw [differing_indices, List.range_eq_range']
  apply filter_range_single _ 2013270016 2147479552 0 (by omega) (by omega)
  intro j _ hj
  have h1 : (⟨2147479552, pread far_fat_image (fun _ => 0) 0 2147479552 134217728⟩
      : Bytes).byte j = if j = 2013270016 then 1 else 0 := by
    have hc : 0 ≤ j ∧ j - 0 < 2147479552 ∧ j - 0 < MAX_RW_COUNT
        ∧ 134217728 + (j - 0) < far_fat_image.size := by
      refine ⟨Nat.zero_le _, by omega, ?_, ?_⟩
      · show j - 0 < 2147479552
        omega
      · show 134217728 + (j - 0) < 4429176832
        omega
    show (pread far_fat_image (fun _ => 0) 0 2147479552 134217728 j) % 256 = _
    rw [pread, if_pos hc]
    show ((if 134217728 + (j - 0) = 2147487744 then 1 else 0) % 256) % 256 = _
    by_cases hj2 : j = 2013270016
    · rw [if_pos (by omega), if_pos hj2]
    · rw [if_neg (by omega), if_neg hj2]
  have h2 : (⟨2147479552, pread far_fat_image (fun _ => 0) 0 2147479552 2281697280⟩
      : Bytes).byte j = 0 := by
    show (pread far_fat_image (fun _ => 0) 0 2147479552 2281697280 j) % 256 = _
    rw [pread]
    split_ifs with hc
    · show ((if 2281697280 + (j - 0) = 2147487744 then 1 else 0) % 256) % 256 = _
      rw [if_neg (by omega)]
    · rfl
  rw [h1, h2]
  by_cases hj2 : j = 2013270016
  · simp [hj2]
  · simp [hj2]

/-- C31 (counterexample): the tables of `far_fat_sector` have S = 2^31 - 4096 bytes
(no more than one `pread` call transfers) and start at R = 2^27; in `far_fat_image`
they differ at index i = 2013270016 only.  The pair printed for it is
(R + i, (R + S + i) mod 2^32) = (2147487744, 0): the offset R + S + i = 2^32 of the
byte in the second table does not fit the `uint32_t` sum.  With S = 2^31 + 512
(`big_fat_sector`) the comparison faults at index 2^31 and nothing is reported. -/
theorem copy_fats_into_memory_offsets_counterexample :
    validate_fat_boot_sector wide_geometry far_fat_sector ≠ Outcome.exit_failure ∧
    (selected_fat_size FAT32 far_fat_sector * wide_geometry.bps) % 4294967296
      = 2147479552 ∧
    2147479552 ≤ MAX_RW_COUNT ∧
    (far_fat_sector.reserved_area_size * wide_geometry.bps) % 4294967296 = 134217728 ∧
    (copy_fats_into_memory far_fat_image wide_geometry FAT32 far_fat_sector).map
        (fun l => differing_indices l.fat1 l.fat2 l.fat_size_in_bytes)
      = Run.ret [2013270016] ∧
    (copy_fats_into_memory far_fat_image wide_geometry FAT32 far_fat_sector).map
        (fun l => (l.report.offsets, l.total))
      = Run.ret ([(2147487744, 0)], some 1) ∧
    (134217728 + 2013270016, 134217728 + 2147479552 + 2013270016)
      = (2147487744, 4294967296) ∧
    (copy_fats_into_memory (volume_image 0x58) (plain_geometry 1) FAT32 big_fat_sector).map
        (fun l => (l.report.offsets, l.total)) = Run.oob := by
  have hS : (selected_fat_size FAT32 far_fat_sector * wide_geometry.bps) % 4294967296
      = 2147479552 := by decide
  have hR : (far_fat_sector.reserved_area_size * wide_geometry.bps) % 4294967296
      = 134217728 := by decide
  obtain ⟨l, hl, hsize, hf1, hf2, hdiff, hoff, htot⟩ :=
    copy_fats_into_memory_ret far_fat_image wide_geometry FAT32 far_fat_sector
      (by rw [hS]; omega)
  rw [hS] at hsize
  have e : (134217728 + 2147479552) % 4294967296 = 2281697280 := by decide
  rw [hR, hsize] at hf1
  rw [hR, hsize, e] at hf2
  have hdi : differing_indices l.fat1 l.fat2 l.fat_size_in_bytes = [2013270016] := by
    rw [hf1, hf2, hsize]
    exact far_fat_differing_indices
  rw [hdi] at hdiff hoff
  rw [hR, hsize] at hoff
  refine ⟨by decide, hS, by decide, hR, ?_, ?_, rfl, ?_⟩
  · rw [hl]
    show Run.ret (differing_indices l.fat1 l.fat2 l.fat_size_in_bytes) = _
    rw [hdi]
  · rw [hl]
    show Run.ret (l.report.offsets, l.total) = _
    rw [htot, hoff, hdiff]
    rfl
  · simp only [copy_fats_into_memory]
    rw [copy_fats_compare_loop_oob _ _ _ _ _ 0 _ (by decide) (by decide)]
    rfl

/-! ## Decoding a slot outside the first cluster (`read_fat_dir_entry`) -/

/-- C14 (evaluation at the failing input): the directory `two_cluster_dir` has the
clusters [2, 5].  Its slot at directory offset 544 is the second slot of cluster 5
(image offset `cts(5) + 544 mod 512 = 2592`); it holds the record `SUB` (attribute
0x10, first cluster 4) and is no LFN entry, so S = 0.  Positioned at that slot,
`read_fat_dir_entry` decodes the record at image offset 2560, the first slot of
cluster 5 (`A.TXT`, attribute 0x20, first cluster 3, size 100): for a position
outside the first cluster `read_disk` reads at `cts(cluster_list[k]) + field_offset`,
without the offset of the slot in its cluster.  Positioned at a slot of the first
cluster (offset 32 of `tiny_volume`) it decodes the record of that slot. -/
theorem read_fat_dir_entry_second_cluster :
    second_cluster_slot.entry_offset / cluster_bytes g512 = 1 ∧
    cts g512 5 + second_cluster_slot.entry_offset % cluster_bytes g512 = 2592 ∧
    (List.range 11).map (fun j => spec_read_byte two_cluster_dir g512 second_cluster_slot 544 j)
      = name_sub.map some ∧
    spec_read_byte two_cluster_dir g512 second_cluster_slot 544 11 = some 0x10 ∧
    spec_read_byte two_cluster_dir g512 second_cluster_slot 544 26 = some 4 ∧
    walk_lfn_entries 5 two_cluster_dir g512 second_cluster_slot = Run.ret 0 ∧
    read_disk_offset g512 second_cluster_slot 0 = some 2560 ∧
    read_disk_offset g512 second_cluster_slot 11 = some 2571 ∧
    read_fat_dir_entry 5 two_cluster_dir g512 fat_dir_entry.zero second_cluster_slot
      = Run.ret (mk_entry name_a 0x20 3 100 0, 32) ∧
    read_fat_dir_entry 5 tiny_volume g512 fat_dir_entry.zero
        { first_slot with entry_offset := 32 }
      = Run.ret (mk_entry name_deleted 0x20 5 10 0, 32) := by
  decide

end FeelerGauge
